import Mathlib

/-!
# Kristall: trust store and navigation orchestration

A shallow embedding of `src/ssltrust.cpp` (the trust-on-first-use store), of
the methods of the tab in `src/browsertab.cpp` (`navigateTo`, `startRequest`,
`on_redirected`, `on_requestComplete`, `renderPage`, `setErrorMessage`,
`on_networkError`, `on_inputRequired`, `on_text_browser_anchorClicked` and the
other slots and handlers, as far as they touch the members kept here) and of
the loading and saving of the settings in `src/main.cpp`, with theorems about
them.

Conventions of the embedding:

* Qt value types are plain data: `QString` is `String`, `QByteArray` is a list
  of bytes, `QDateTime` is an integer time stamp, `QUrl` is a record of its
  components.
* A C++ `assert` that fails aborts the program. `SslTrust` functions return an
  `Option`, with `none` for the abort; `BrowserTab` functions that can abort
  return an `Outcome`, which keeps the state at the abort.
* A `void` method with several ways out returns the exit it took
  (`NavigateExit`, `RedirectExit`, `InputExit`).
* What a call reads from outside the tab (settings, registries, clock, Qt text
  functions, what an adapter answers) is an explicit environment `Env`. The
  answers of the user to question dialogs are a list held by the tab; a dialog
  shown when the list is used up is answered Yes. What an input dialog ends
  with is an argument of the method that shows it.
* What the tab does to the outside (dialogs, adapter calls, cache accesses,
  rendering) is appended to a trace; entries for `startRequest`,
  `setErrorMessage` and `on_requestComplete` mark the calls of these methods.
* `Event` has a constructor for every method that `browsertab.cpp` defines,
  and `Reachable` is the closure of the state after the constructor under
  these events.
* Classes whose sources are not at hand are modelled from the specification
  and say so in their comments. Widgets and renderers are left out, except for
  the members the navigation code reads back.
* Four relations between a tab before and after a step carry the proofs:
  `Frame` (the redirect counter stays, the trace gets effects of one class),
  `Delivered` (what the delivery of a page leaves alone), `Prepared` (what
  the identity checks of `startRequest` leave alone) and `IdentityStep` (what
  can happen to the client identity).
-/

namespace Kristall

/-! ## Qt value types -/

abbrev QString := String

abbrev QByteArray := List Nat

abbrev QDateTime := Int

/-- The components of a `QUrl` that the program reads or writes. -/
structure QUrl where
  scheme : QString
  host : QString
  port : Int
  path : QString
  query : QString
  fragment : QString
  deriving DecidableEq, Repr, Inhabited

/-- The reference `QUrl::isRelative`: a URL is relative when its scheme is undefined. -/
def QUrl.isRelative (u : QUrl) : Bool := u.scheme.isEmpty

def QUrl.setScheme (u : QUrl) (scheme : QString) : QUrl := { u with scheme := scheme }

def QUrl.setHost (u : QUrl) (host : QString) : QUrl := { u with host := host }

def QUrl.setQuery (u : QUrl) (query : QString) : QUrl := { u with query := query }

def QUrl.setPath (u : QUrl) (path : QString) : QUrl := { u with path := path }

/-- The default-constructed location `QUrl { }`. -/
def QUrl.empty : QUrl :=
  { scheme := "", host := "", port := -1, path := "", query := "", fragment := "" }

/-- The call `url.adjusted(QUrl::RemoveFragment)`. -/
def QUrl.removeFragment (u : QUrl) : QUrl := { u with fragment := "" }

/-- A public key as `QSslKey` compares it: algorithm and DER encoding. -/
structure QSslKey where
  algorithm : Nat
  der : QByteArray
  deriving DecidableEq, Repr, Inhabited

/-- A `QSslCertificate`: whether it is the null certificate, and its public key. -/
structure QSslCertificate where
  isNull : Bool
  publicKey : QSslKey
  deriving DecidableEq, Repr, Inhabited

/-- The default-constructed certificate `QSslCertificate { }`. -/
def QSslCertificate.null : QSslCertificate := { isNull := true, publicKey := default }

/-! ## Trust store (`ssltrust.cpp`) -/

structure TrustedHost where
  host_name : QString
  trusted_at : QDateTime
  public_key : QSslKey
  deriving DecidableEq, Repr, Inhabited

/-- Modelled from the spec: the class `TrustedHostCollection` (its header and
implementation are not part of the sources at hand). The spec describes the
store as a set keyed by `host_name` in which no two entries share a host name;
the entries are kept in insertion order. -/
structure TrustedHostCollection where
  items : List TrustedHost
  deriving DecidableEq, Repr, Inhabited

/-- Modelled from the spec: `TrustedHostCollection::get`, the entry pinned for
a host name, if there is one. -/
def TrustedHostCollection.get (c : TrustedHostCollection) (host_name : QString) :
    Option TrustedHost :=
  c.items.find? (fun h => h.host_name == host_name)

/-- Modelled from the spec: `TrustedHostCollection::insert`, which refuses an
entry whose host name is already present (the store is keyed by host name) and
otherwise adds it; the flag reports whether the entry was added. -/
def TrustedHostCollection.insert (c : TrustedHostCollection) (host : TrustedHost) :
    Bool × TrustedHostCollection :=
  if c.items.any (fun h => h.host_name == host.host_name) then (false, c)
  else (true, { items := c.items ++ [host] })

def TrustedHostCollection.getAll (c : TrustedHostCollection) : List TrustedHost := c.items

def TrustedHostCollection.clear (_c : TrustedHostCollection) : TrustedHostCollection :=
  { items := [] }

/-- The uniqueness invariant of the store: no two entries share a host name. -/
def TrustedHostCollection.Unique (c : TrustedHostCollection) : Prop :=
  (c.items.map (fun h => h.host_name)).Nodup

/-- Modelled from the spec: the enumeration `SslTrust::TrustLevel` (declared in
the missing header `ssltrust.hpp`). -/
inductive TrustLevel where
  | TrustEverything
  | TrustOnFirstUse
  | RequireExplicitTrust
  deriving DecidableEq, Repr, Inhabited

/-- The enumeration `SslTrust::TrustStatus`, with the three values that
`getTrust` returns. -/
inductive TrustStatus where
  | Untrusted
  | Trusted
  | Mistrusted
  deriving DecidableEq, Repr, Inhabited

structure SslTrust where
  trust_level : TrustLevel
  enable_ca : Bool
  trusted_hosts : TrustedHostCollection
  deriving DecidableEq, Repr, Inhabited

/-- The method `SslTrust::addTrust`. The argument `now` is the value of
`QDateTime::currentDateTime()`; the result is `none` when `assert(ok)` fails. -/
def SslTrust.addTrust (t : SslTrust) (now : QDateTime) (url : QUrl)
    (certificate : QSslCertificate) : Option (Bool × SslTrust) :=
  if certificate.isNull then
    some (false, t)
  else
    match t.trusted_hosts.get url.host with
    | some _ => some (false, t)
    | none =>
      let host : TrustedHost :=
        { host_name := url.host, trusted_at := now, public_key := certificate.publicKey }
      let (ok, hosts) := t.trusted_hosts.insert host
      if ok then some (true, { t with trusted_hosts := hosts }) else none

/-- The method `SslTrust::getTrust`. The argument `now` is the value of
`QDateTime::currentDateTime()`; the result is `none` when `assert(ok)` fails. -/
def SslTrust.getTrust (t : SslTrust) (now : QDateTime) (url : QUrl)
    (certificate : QSslCertificate) : Option (TrustStatus × SslTrust) :=
  if certificate.isNull then
    some (TrustStatus.Untrusted, t)
  else if t.trust_level = TrustLevel.TrustEverything then
    some (TrustStatus.Trusted, t)
  else
    match t.trusted_hosts.get url.host with
    | some host_or_none =>
      if host_or_none.public_key = certificate.publicKey then
        some (TrustStatus.Trusted, t)
      else
        some (TrustStatus.Mistrusted, t)
    | none =>
      if t.trust_level = TrustLevel.TrustOnFirstUse then
        let host : TrustedHost :=
          { host_name := url.host, trusted_at := now, public_key := certificate.publicKey }
        let (ok, hosts) := t.trusted_hosts.insert host
        if ok then some (TrustStatus.Trusted, { t with trusted_hosts := hosts }) else none
      else
        some (TrustStatus.Untrusted, t)

/-- The method `SslTrust::isTrusted`. -/
def SslTrust.isTrusted (t : SslTrust) (now : QDateTime) (url : QUrl)
    (certificate : QSslCertificate) : Option (Bool × SslTrust) :=
  (t.getTrust now url certificate).map (fun r => (decide (r.1 = TrustStatus.Trusted), r.2))

/-! ### Sample data -/

def sampleUrl : QUrl :=
  { scheme := "gemini", host := "example.org", port := -1, path := "/", query := "", fragment := "" }

def sampleKey : QSslKey := { algorithm := 1, der := [48, 130, 1, 34] }

def otherKey : QSslKey := { algorithm := 1, der := [48, 130, 1, 35] }

def sampleCert : QSslCertificate := { isNull := false, publicKey := sampleKey }

def otherCert : QSslCertificate := { isNull := false, publicKey := otherKey }

def emptyStore (level : TrustLevel) : SslTrust :=
  { trust_level := level, enable_ca := false, trusted_hosts := { items := [] } }

def pinnedStore (level : TrustLevel) : SslTrust :=
  { trust_level := level, enable_ca := false,
    trusted_hosts := { items := [{ host_name := "example.org", trusted_at := 7, public_key := sampleKey }] } }

/-- The entry that `addTrust` and `getTrust` build for a new pin. -/
def newPin (now : QDateTime) (url : QUrl) (certificate : QSslCertificate) : TrustedHost :=
  { host_name := url.host, trusted_at := now, public_key := certificate.publicKey }

/-! ## Settings (`kristall.hpp`) -/

/-- The enumeration `GenericSettings::TextDisplay`. -/
inductive TextDisplay where
  | FormattedText
  | PlainText
  deriving DecidableEq, Repr, Inhabited

/-- The enumerators of `GenericSettings::RedirectionWarning`, as the `int`
values the header gives them; a policy is an `int` and may carry both bits. -/
def WarnNever : Int := 0

def WarnOnSchemeChange : Int := 1

def WarnOnHostChange : Int := 2

def WarnAlways : Int := -1

/-- The enumeration `Theme`. -/
inductive Theme where
  | os_default
  | light
  | dark
  deriving DecidableEq, Repr, Inhabited

/-- The enumeration `UIDensity`. -/
inductive UIDensity where
  | compact
  | classic
  deriving DecidableEq, Repr, Inhabited

/-- The enumeration `IconTheme`. -/
inductive IconTheme where
  | automatic
  | dark
  | light
  deriving DecidableEq, Repr, Inhabited

/-- The members of `GenericSettings` that the navigation code reads, followed
by the other members that `load` and `save` persist, each with the initial
value the header gives it. -/
structure GenericSettings where
  text_display : TextDisplay := TextDisplay.FormattedText
  max_redirections : Int := 5
  redirection_policy : Int := WarnOnHostChange
  network_timeout : Int := 5000
  cache_limit : Int := 1000
  cache_threshold : Int := 125
  cache_life : Int := 60
  cache_unlimited_life : Bool := true
  start_page : QString := "about:favourites"
  search_engine : QString := "gemini://geminispace.info/search?%1"
  theme : Theme := Theme.light
  icon_theme : IconTheme := IconTheme.automatic
  ui_density : UIDensity := UIDensity.compact
  enable_text_decoration : Bool := false
  use_os_scheme_handler : Bool := false
  show_hidden_files_in_dirs : Bool := false
  fancy_urlbar : Bool := true
  fancy_quotes : Bool := true
  emojis_enabled : Bool := true
  gophermap_display : TextDisplay := TextDisplay.FormattedText
  enable_home_btn : Bool := false
  enable_newtab_btn : Bool := true
  enable_root_btn : Bool := false
  enable_parent_btn : Bool := false
  deriving DecidableEq, Repr, Inhabited

/-- The C++ operator `&` on two `int` values: the bit pattern of the
conjunction of their 32-bit two's complement representations. -/
def bitAnd (a b : Int) : Nat :=
  (a % 2 ^ 32).toNat &&& (b % 2 ^ 32).toNat

/-- The C++ operator `|` on two `int` values that are not negative. -/
def bitOr (a b : Int) : Int := Int.ofNat (Nat.lor a.toNat b.toNat)

/-! ## Collaborators whose sources are not at hand -/

/-- Modelled from the spec: the class `MimeType` of the missing header
`mimeparser.hpp`, with the members `browsertab.cpp` reads: the type, the
subtype and the parameters (such as the declared character set). -/
structure MimeType where
  type : QString
  subtype : QString
  parameters : List (QString × QString)
  deriving DecidableEq, Repr, Inhabited

/-- Modelled from the spec: `MimeType::is(type)`. -/
def MimeType.is (m : MimeType) (type : QString) : Bool := m.type == type

/-- Modelled from the spec: `MimeType::is(type, subtype)`. -/
def MimeType.is2 (m : MimeType) (type subtype : QString) : Bool :=
  m.type == type && m.subtype == subtype

/-- Modelled from the spec: `MimeType::parameter(name, default)`, the declared
value of a parameter or the default. -/
def MimeType.parameter (m : MimeType) (name default_value : QString) : QString :=
  match m.parameters.find? (fun p => p.1 == name) with
  | some p => p.2
  | none => default_value

/-- The call `QString::toUpper`, on the characters of the string. -/
def toUpper (s : QString) : QString := String.mk (s.data.map Char.toUpper)

/-- Modelled from the spec: the class `CryptoIdentity` of the missing header
`cryptoidentity.hpp`: a client certificate credential with its validity, its
persistence and an optional host filter. -/
structure CryptoIdentity where
  isValid : Bool
  is_persistent : Bool
  auto_enable : Bool
  display_name : QString
  host_filter : QString
  deriving DecidableEq, Repr, Inhabited

/-- The default-constructed identity `CryptoIdentity()`, which is not valid. -/
def CryptoIdentity.none : CryptoIdentity :=
  { isValid := false, is_persistent := false, auto_enable := false,
    display_name := "", host_filter := "" }

/-- Modelled from the spec: an entry of the response cache, the class
`CachedPage` of the missing header `cachehandler.hpp`. The scroll position
`-1` stands for none stored. -/
structure CachedPage where
  url : QUrl
  body : QByteArray
  mime : MimeType
  scroll_pos : Int
  time_cached : QDateTime
  deriving DecidableEq, Repr, Inhabited

/-- Modelled from the spec: the class `CacheHandler` (`kristall::cache`), a
store of fetched bodies keyed by location without its fragment; the entries
are kept in insertion order, oldest first. -/
structure CacheHandler where
  pages : List CachedPage
  deriving DecidableEq, Repr, Inhabited

/-- Modelled from the spec: the key of a location in the cache; equality for
caching ignores the fragment. -/
def CacheHandler.key (url : QUrl) : QUrl := url.removeFragment

/-- Modelled from the spec: `CacheHandler::find`, the entry stored for a
location, if there is one. -/
def CacheHandler.find (c : CacheHandler) (url : QUrl) : Option CachedPage :=
  c.pages.find? (fun p => p.url == CacheHandler.key url)

/-- Modelled from the spec: the write `pg->scroll_pos = value` through the
pointer that `find` returns, an update in place. -/
def CacheHandler.setScrollPos (c : CacheHandler) (url : QUrl) (value : Int) : CacheHandler :=
  { pages := c.pages.map
      (fun p => if p.url == CacheHandler.key url then { p with scroll_pos := value } else p) }

/-- Modelled from the spec: `CacheHandler::clean`, which removes the entries
older than the configured lifetime (in minutes; time stamps are in seconds)
unless unlimited lifetime is configured. -/
def CacheHandler.clean (c : CacheHandler) (options : GenericSettings) (now : QDateTime) :
    CacheHandler :=
  if options.cache_unlimited_life then c
  else { pages := c.pages.filter (fun p => decide (now - p.time_cached ≤ options.cache_life * 60)) }

/-- Modelled from the spec: `CacheHandler::push`, which inserts or replaces the
entry for the location, stamped with the current time, and, when the number of
entries exceeds `cache_limit + cache_threshold`, drops the oldest entries until
`cache_limit` are left. -/
def CacheHandler.push (c : CacheHandler) (options : GenericSettings) (now : QDateTime)
    (url : QUrl) (body : QByteArray) (mime : MimeType) : CacheHandler :=
  let entry : CachedPage :=
    { url := CacheHandler.key url, body := body, mime := mime, scroll_pos := -1,
      time_cached := now }
  let pages := c.pages.filter (fun p => !(p.url == CacheHandler.key url)) ++ [entry]
  if (pages.length : Int) > options.cache_limit + options.cache_threshold then
    { pages := pages.drop (pages.length - options.cache_limit.toNat) }
  else
    { pages := pages }

/-- Modelled from the spec: the result of `ProtocolSetup::isSchemeSupported`
(`kristall::protocols`, header `protocolsetup.hpp` missing): the code names
`Enabled` and `Disabled` and treats every other value as unsupported. -/
inductive ProtocolSupport where
  | Unsupported
  | Disabled
  | Enabled
  deriving DecidableEq, Repr, Inhabited

/-- The enumeration `ProtocolHandler::NetworkError` (`protocolhandler.hpp`). -/
inductive NetworkError where
  | UnknownError
  | ProtocolViolation
  | HostNotFound
  | ConnectionRefused
  | ResourceNotFound
  | BadRequest
  | ProxyRequest
  | InternalServerError
  | InvalidClientCertificate
  | UntrustedHost
  | MistrustedHost
  | Unauthorized
  | TlsFailure
  | Timeout
  deriving DecidableEq, Repr, Inhabited

/-- The enumeration `ProtocolHandler::RequestOptions`. -/
inductive RequestOptions where
  | Default
  | IgnoreTlsErrors
  deriving DecidableEq, Repr, Inhabited

/-- Modelled from the spec: the flag set `BrowserTab::RequestFlags` of the
missing header `browsertab.hpp`, one field for each flag the code tests. -/
structure RequestFlags where
  DontReadFromCache : Bool := false
  NavigatedBackOrForward : Bool := false
  deriving DecidableEq, Repr, Inhabited

/-- The default argument `RequestFlags::None`. -/
def RequestFlags.None : RequestFlags := {}

/-- The enumeration `BrowserTab::PushToHistory`, with the two values that
`browsertab.cpp` and `mainwindow.cpp` pass. -/
inductive PushToHistory where
  | DontPush
  | PushImmediate
  deriving DecidableEq, Repr, Inhabited

/-- A registered protocol adapter (`ProtocolHandler`), as far as it is fixed
when the tab is built: the pure predicate `supportsScheme`. What an adapter
answers to a call is part of the environment. -/
structure ProtocolHandler where
  supportsScheme : QString → Bool

/-! ## Dialogs, error pages and the trace -/

/-- The texts that `QMessageBox::question` is called with, by their place in
the code, with the values substituted into each text. -/
inductive Question where
  | redirectAlways (uri : QUrl)
  | redirectHostAndProtocol (scheme host : QString)
  | redirectProtocol (scheme : QString)
  | redirectHost (host : QString)
  | certificateUnsupported (scheme : QString)
  | keepCertificateNewHost
  | keepCertificateHostFilter (url : QUrl) (host_filter : QString)
  | automaticCertificate (display_name : QString)
  | charsetConversionFailed (charset : QString)
  | ignoreTls
  | addFingerprint (host : QString)
  | addStyle (name : QString)
  | transientSession
  deriving DecidableEq, Repr, Inhabited

/-- Whether a question is one of the four redirect confirmations of
`on_redirected`. -/
def Question.isRedirect : Question → Bool
  | Question.redirectAlways _ => true
  | Question.redirectHostAndProtocol _ _ => true
  | Question.redirectProtocol _ => true
  | Question.redirectHost _ => true
  | _ => false

/-- The messages that `setErrorMessage` is called with, by their place in the
code, with the values substituted into each text. -/
inductive ErrorMessage where
  | tooManyRedirections (uri : QUrl)
  | redirectionCancelled (uri : QUrl)
  | redirectionFailed (uri : QUrl)
  | charsetConversionFailed (charset : QString)
  | certificateRequired (reason : QString)
  | inputRequired (query : QString)
  deriving DecidableEq, Repr, Inhabited

/-- The message boxes without a choice: `QMessageBox::warning`, `critical`
and `information`. -/
inductive Notice where
  | schemeNotSupported (scheme : QString)
  | cancelFailed
  | requestFailed (url : QUrl)
  | invalidIdentity
  | inputTooLong (len : Nat)
  | maliciousSite
  | themeAdded (name : QString)
  | urlHandlerFailed (url : QUrl)
  | schemeDisabled (url : QUrl)
  | schemeUnprocessable (url : QUrl)
  | noSearchEngine
  deriving DecidableEq, Repr, Inhabited

/-- What the tab does that is visible outside of its own members, in the
order in which it happens. The entries `startRequest`, `setErrorMessage` and
`requestComplete` mark the entry into the method of that name. -/
inductive Effect where
  | question (q : Question) (yes : Bool)
  | notice (n : Notice)
  | cancelRequest (handler : Nat) (accepted : Bool)
  | handlerStartRequest (handler : Nat) (url : QUrl) (options : RequestOptions) (result : Bool)
  | handlerEnableClientCertificate (handler : Nat) (result : Bool)
  | handlerDisableClientCertificate
  | startRequest (url : QUrl) (options : RequestOptions) (flags : RequestFlags)
  | setErrorMessage (msg : ErrorMessage)
  | requestComplete (data : QByteArray) (mime : MimeType)
  | renderPage (data : QByteArray) (mime : MimeType)
  | writePreviewTheme (data : QByteArray)
  | cacheClean
  | cacheFind (url : QUrl) (hit : Bool)
  | cachePush (url : QUrl)
  | locationChanged (url : QUrl)
  | inputDialog (label : QString) (result : Option QString)
  | addTrust (scheme : QString) (url : QUrl)
  | writeFile (path : QString) (data : QByteArray)
  | setStyleName (path name : QString)
  | addNewTab (url : QUrl)
  | openUrl (url : QUrl) (result : Bool)
  | certificateDialog (query : QString) (accepted : Bool)
  deriving DecidableEq, Repr, Inhabited

/-- Modelled from the spec: the class `TabBrowserHistory` of the missing header,
the list of visited locations; an index is a row, and `-1` is the invalid index. -/
structure TabBrowserHistory where
  entries : List QUrl
  deriving DecidableEq, Repr, Inhabited

/-- Modelled from the spec: `TabBrowserHistory::pushUrl`, which drops what
follows the position, appends the location and returns its index. -/
def TabBrowserHistory.pushUrl (h : TabBrowserHistory) (position : Int) (url : QUrl) :
    TabBrowserHistory × Int :=
  let kept := h.entries.take (position + 1).toNat
  ({ entries := kept ++ [url] }, (kept.length : Int))

/-- Modelled from the spec: `TabBrowserHistory::replaceUrl`, which replaces the
entry of a row in place. -/
def TabBrowserHistory.replaceUrl (h : TabBrowserHistory) (row : Int) (url : QUrl) :
    TabBrowserHistory :=
  if 0 ≤ row then { entries := h.entries.set row.toNat url } else h

/-- Everything outside the tab that one call into it can read: the global
settings and registries, the clock, the Qt text functions, and what the
adapters answer. -/
structure Env where
  /-- The global `kristall::options`. -/
  options : GenericSettings
  /-- The call `kristall::protocols.isSchemeSupported`. -/
  isSchemeSupported : QString → ProtocolSupport
  /-- The list `kristall::identities.allIdentities()`. -/
  identities : List CryptoIdentity
  /-- The method `CryptoIdentity::isHostFiltered`. -/
  isHostFiltered : CryptoIdentity → QUrl → Bool
  /-- The method `CryptoIdentity::isAutomaticallyEnabledOn`. -/
  isAutomaticallyEnabledOn : CryptoIdentity → QUrl → Bool
  /-- The value of `QDateTime::currentDateTime()`. -/
  now : QDateTime
  /-- The method `QUrl::toString`. -/
  urlToString : QUrl → QString
  /-- The method `QString::toUtf8`. -/
  toUtf8 : QString → QByteArray
  /-- The function `MimeParser::parse`. -/
  parseMime : QString → MimeType
  /-- The `iconv` conversion of `convertToUtf8`; no bytes means failure. -/
  convertToUtf8 : QByteArray → QString → QByteArray
  /-- The contents of a resource file, if it can be opened. -/
  readResource : QString → Option QString
  /-- The method `QString::arg` on the text of a resource file. -/
  substitute : QString → QString → QString
  /-- What `startRequest` of the adapter with this index returns. -/
  handlerStartRequest : Nat → QUrl → RequestOptions → Bool
  /-- What `cancelRequest` of the adapter with this index returns. -/
  handlerCancelRequest : Nat → Bool
  /-- What `enableClientCertificate` of the adapter with this index returns. -/
  handlerEnableClientCertificate : Nat → CryptoIdentity → Bool
  /-- The size of `toString(QUrl::FullyEncoded).toUtf8()` of a location. -/
  encodedLength : QUrl → Nat
  /-- The method `QUrl::resolved` of a base location, for a reference. -/
  resolved : QUrl → QUrl → QUrl
  /-- What `QDesktopServices::openUrl` returns. -/
  openUrl : QUrl → Bool
  /-- Whether the file of this path can be opened for writing. -/
  canWrite : QString → Bool
  /-- The method `absoluteFilePath` of `kristall::dirs::cache_root`. -/
  cacheFilePath : QString → QString
  /-- The method `absoluteFilePath` of `kristall::dirs::styles`. -/
  styleFilePath : QString → QString
  /-- The value of `name` in the file of this path read as settings, at the
  time `on_text_browser_anchorClicked` reads it; `none` is the null value. -/
  styleNameIn : QString → Option QString
  /-- The first of the names `DocumentStyle::createFileNameFromName(name, 0)`,
  `(name, 1)`, ... for which `kristall::dirs::styles` has no file. -/
  freeStyleFileName : QString → QString
  /-- The method `QString::trimmed`. -/
  trimmed : QString → QString
  /-- The method `QUrl::isValid`. -/
  isValid : QUrl → Bool
  /-- The location that the constructor of `QUrl` reads from a text. -/
  parseUrl : QString → QUrl
  /-- The result of `QDir::homePath()`. -/
  homePath : QString
  /-- The method `QString::arg` of a text, for one argument. -/
  arg : QString → QString → QString
  /-- The value of the scroll bar after `ui->text_browser->scrollToAnchor` for
  an anchor, from the value before. -/
  anchorScroll : QString → Int → Int
  /-- What `isInProgress` of the adapter with this index returns. -/
  handlerIsInProgress : Nat → Bool
  /-- The method `get` of the class `TabBrowserHistory`, whose source is not at
  hand: the location of an index, given by its row. -/
  historyGet : TabBrowserHistory → Int → QUrl
  /-- The method `oneBackward` of `TabBrowserHistory`: the row of the index
  before an index, below zero for the invalid index. -/
  historyOneBackward : TabBrowserHistory → Int → Int
  /-- The method `oneForward` of `TabBrowserHistory`: the row of the index
  after an index, below zero for the invalid index. -/
  historyOneForward : TabBrowserHistory → Int → Int

/-- The members of `BrowserTab` that navigation reads or writes, together with
the global cache, the answers the user will give to the coming question
dialogs, and the trace of effects so far. -/
structure BrowserTab where
  protocol_handlers : List ProtocolHandler
  /-- An index into `protocol_handlers`; `none` is `nullptr`. -/
  current_handler : Option Nat
  current_location : QUrl
  current_identity : CryptoIdentity
  current_server_certificate : QSslCertificate
  current_mime : MimeType
  current_buffer : QByteArray
  redirection_count : Int
  successfully_loaded : Bool
  is_internal_location : Bool
  was_read_from_cache : Bool
  /-- The interval of `network_timeout_timer` while it runs. -/
  network_timeout_timer : Option Int
  history : TabBrowserHistory
  current_history_index : Int
  /-- The location whose text the URL bar shows. -/
  url_bar : QUrl
  /-- Whether `ui->fav_button` is enabled. -/
  fav_button_enabled : Bool
  /-- The value set on the scroll bar of the text browser. -/
  scroll_bar : Int
  /-- The bytes reported to `fileLoaded` in `current_stats.file_size`. -/
  stats_file_size : Nat
  stats_loaded_from_cache : Bool
  /-- The global `kristall::cache`. -/
  cache : CacheHandler
  /-- The answers to the coming `QMessageBox::question` dialogs, `true` for
  Yes; a dialog shown after the last of them is answered Yes. -/
  pending_answers : List Bool
  trace : List Effect

/-- How a call into the tab ends: it returns, with the exit it took, or a
failed `assert` aborts the program in the state given. -/
inductive Outcome (α : Type) where
  | done (value : α) (tab : BrowserTab)
  | aborted (tab : BrowserTab)

/-- The state in which a call ended. -/
def Outcome.tab {α : Type} : Outcome α → BrowserTab
  | Outcome.done _ t => t
  | Outcome.aborted t => t

/-- The exits of `BrowserTab::navigateTo`, which returns nothing in C++. -/
inductive NavigateExit where
  | schemeRejected
  | cancelFailed
  | requestFailed
  | started
  deriving DecidableEq, Repr, Inhabited

/-- The exits of `BrowserTab::on_redirected`, which returns nothing in C++. -/
inductive RedirectExit where
  | tooManyRedirections
  | cancelledByUser
  | followed
  | failed
  deriving DecidableEq, Repr, Inhabited

/-- The local enumeration `DocumentType` of `renderPage`. -/
inductive DocumentType where
  | Text
  | Image
  | Media
  deriving DecidableEq, Repr, Inhabited

/-- What the chain of branches of `renderPage` decides for a MIME type. -/
structure RenderKind where
  doc_type : DocumentType
  will_cache : Bool
  theme_preview : Bool
  deriving DecidableEq, Repr, Inhabited

/-- The chain of branches of `BrowserTab::renderPage`, in its order. -/
def renderKind (plaintext_only : Bool) (mime : MimeType) : RenderKind :=
  if !plaintext_only && mime.is2 "text" "gemini" then
    { doc_type := DocumentType.Text, will_cache := true, theme_preview := false }
  else if !plaintext_only && mime.is2 "text" "gophermap" then
    { doc_type := DocumentType.Text, will_cache := true, theme_preview := false }
  else if !plaintext_only && mime.is2 "text" "html" then
    { doc_type := DocumentType.Text, will_cache := true, theme_preview := false }
  else if !plaintext_only && mime.is2 "text" "x-kristall-theme" then
    { doc_type := DocumentType.Text, will_cache := false, theme_preview := true }
  else if !plaintext_only && mime.is2 "text" "markdown" then
    { doc_type := DocumentType.Text, will_cache := true, theme_preview := false }
  else if mime.is "text" then
    { doc_type := DocumentType.Text, will_cache := true, theme_preview := false }
  else if mime.is "image" then
    { doc_type := DocumentType.Image, will_cache := false, theme_preview := false }
  else if mime.is "video" || mime.is "audio" then
    { doc_type := DocumentType.Media, will_cache := false, theme_preview := false }
  else if plaintext_only then
    { doc_type := DocumentType.Text, will_cache := false, theme_preview := false }
  else
    { doc_type := DocumentType.Text, will_cache := false, theme_preview := false }

/-- The chain of branches of `on_redirected` that builds the confirmation
question; `none` is the empty text. -/
def redirectQuestion (redirection_policy : Int) (is_cross_protocol is_cross_host : Bool)
    (uri : QUrl) : Option Question :=
  if redirection_policy = WarnAlways then
    some (Question.redirectAlways uri)
  else if bitAnd redirection_policy (bitOr WarnOnHostChange WarnOnSchemeChange) ≠ 0
      ∧ is_cross_protocol = true ∧ is_cross_host = true then
    some (Question.redirectHostAndProtocol uri.scheme uri.host)
  else if bitAnd redirection_policy WarnOnSchemeChange ≠ 0 ∧ is_cross_protocol = true then
    some (Question.redirectProtocol uri.scheme)
  else if bitAnd redirection_policy WarnOnHostChange ≠ 0 ∧ is_cross_host = true then
    some (Question.redirectHost uri.host)
  else
    none

/-- The target of a redirect as `on_redirected` resolves it: a relative
location gets the scheme and the host of the current location. -/
def redirectTarget (current_location uri : QUrl) : QUrl :=
  if uri.isRelative then (uri.setScheme current_location.scheme).setHost current_location.host
  else uri

/-- The text of a message passed to `setErrorMessage`. -/
def ErrorMessage.text (env : Env) : ErrorMessage → QString
  | ErrorMessage.tooManyRedirections uri =>
    "Too many consecutive redirections. The last redirection would have redirected you to:\r\n"
      ++ env.urlToString uri
  | ErrorMessage.redirectionCancelled uri =>
    "Redirection to " ++ env.urlToString uri ++ " cancelled by user"
  | ErrorMessage.redirectionFailed uri =>
    "Redirection to " ++ env.urlToString uri ++ " failed"
  | ErrorMessage.charsetConversionFailed charset =>
    "Failed to convert input charset " ++ charset ++ " to UTF-8."
  | ErrorMessage.certificateRequired reason =>
    "The page requested a authorized client certificate, but none was provided.\r\nOriginal query was: "
      ++ reason
  | ErrorMessage.inputRequired query =>
    "Site requires input:\n" ++ query

namespace BrowserTab

/-- Modelled from the spec: the tab as its constructor leaves it, for the
registered adapters. The constructor in `browsertab.cpp` sets `current_handler`
to `nullptr`; the initial values of the other members are in the missing header
`browsertab.hpp`, and the redirect counter is taken to start at zero. -/
def init (protocol_handlers : List ProtocolHandler) : BrowserTab :=
  { protocol_handlers := protocol_handlers
    current_handler := none
    current_location := default
    current_identity := CryptoIdentity.none
    current_server_certificate := QSslCertificate.null
    current_mime := default
    current_buffer := []
    redirection_count := 0
    successfully_loaded := false
    is_internal_location := false
    was_read_from_cache := false
    network_timeout_timer := none
    history := { entries := [] }
    current_history_index := -1
    url_bar := default
    fav_button_enabled := false
    scroll_bar := 0
    stats_file_size := 0
    stats_loaded_from_cache := false
    cache := { pages := [] }
    pending_answers := []
    trace := [] }

/-- Appends an effect to the trace. -/
def log (s : BrowserTab) (e : Effect) : BrowserTab :=
  { s with trace := s.trace ++ [e] }

/-- The answer that the next question dialog gets. -/
def nextAnswer (s : BrowserTab) : Bool := s.pending_answers.headD true

/-- The tab after a call of `QMessageBox::question`, answered with `yes`, with
the answers `rest` left for later dialogs. -/
def answered (s : BrowserTab) (q : Question) (yes : Bool) (rest : List Bool) : BrowserTab :=
  { s with pending_answers := rest, trace := s.trace ++ [Effect.question q yes] }

/-- The tab after a call of `QMessageBox::question`. -/
def asked (s : BrowserTab) (q : Question) : BrowserTab :=
  s.answered q s.nextAnswer s.pending_answers.tail

/-- The method `BrowserTab::refreshFavButton`. -/
def refreshFavButton (s : BrowserTab) : BrowserTab :=
  { s with fav_button_enabled := s.successfully_loaded }

/-- The method `BrowserTab::updateUI`. -/
def updateUI (s : BrowserTab) : BrowserTab := s.refreshFavButton

/-- The method `BrowserTab::setUrlBarText`, called with the text of a location. -/
def setUrlBarText (s : BrowserTab) (url : QUrl) : BrowserTab :=
  { s with url_bar := url }

/-- The method `BrowserTab::disableClientCertificate`. -/
def disableClientCertificate (s : BrowserTab) : BrowserTab :=
  { s.log Effect.handlerDisableClientCertificate with current_identity := CryptoIdentity.none }

/-- The method `BrowserTab::enableClientCertificate`. -/
def enableClientCertificate (s : BrowserTab) (ident : CryptoIdentity) : Bool × BrowserTab :=
  if !ident.isValid then
    (false, (s.log (Effect.notice Notice.invalidIdentity)).disableClientCertificate)
  else
    (true, { s with current_identity := ident })

/-- The method `BrowserTab::pushToHistory`. -/
def pushToHistory (s : BrowserTab) (url : QUrl) : BrowserTab :=
  let r := s.history.pushUrl s.current_history_index url
  updateUI { s with history := r.1, current_history_index := r.2 }

/-- The method `BrowserTab::renderPage`. -/
def renderPage (s : BrowserTab) (env : Env) (data : QByteArray) (mime : MimeType) : BrowserTab :=
  let s := { s with current_mime := mime, current_buffer := data }
  let s := s.log (Effect.renderPage data mime)
  let plaintext_only := decide (env.options.text_display = TextDisplay.PlainText)
  let kind := renderKind plaintext_only mime
  let s := if kind.theme_preview then s.log (Effect.writePreviewTheme data) else s
  let s := s.log (Effect.locationChanged s.current_location)
  let s := s.updateUI
  if kind.will_cache && !s.is_internal_location && !s.was_read_from_cache
      && !s.current_identity.isValid then
    { s.log (Effect.cachePush s.current_location) with
      cache := s.cache.push env.options env.now s.current_location data mime }
  else
    s

/-- The part of `BrowserTab::on_requestComplete` after the character set
conversion: `data` is what is rendered, `ref_data` what was received. -/
def completeRequest (s : BrowserTab) (env : Env) (data ref_data : QByteArray)
    (mime : MimeType) : BrowserTab :=
  let s := { s with successfully_loaded := true }
  let s := s.renderPage env data mime
  { s with stats_file_size := ref_data.length, stats_loaded_from_cache := s.was_read_from_cache }

/-- The tab on entry to `setErrorMessage`, before the error page is delivered. -/
def beginErrorMessage (s : BrowserTab) (msg : ErrorMessage) : BrowserTab :=
  { s.log (Effect.setErrorMessage msg) with is_internal_location := true }

/-- The bytes of the error page that `setErrorMessage` delivers. -/
def errorPage (env : Env) (msg : ErrorMessage) : QByteArray :=
  env.toUtf8 ("An error happened:\r\n" ++ msg.text env)

/-- The tab on entry to `on_requestComplete`: the timeout timer is stopped. -/
def enterRequestComplete (s : BrowserTab) (ref_data : QByteArray) (mime : MimeType) :
    BrowserTab :=
  { s with network_timeout_timer := none }.log (Effect.requestComplete ref_data mime)

/-- The character set that `on_requestComplete` reads from the MIME type. -/
def charsetOf (mime : MimeType) : QString := toUpper (mime.parameter "charset" "utf-8")

/-- The character set conversion of `on_requestComplete`: the bytes to render,
or `none` when the conversion of a text in another character set than UTF-8
gave no bytes and the user has to be asked. -/
def convertedData (env : Env) (ref_data : QByteArray) (mime : MimeType) : Option QByteArray :=
  if !ref_data.isEmpty && mime.type == "text" && charsetOf mime != "UTF-8" then
    if (env.convertToUtf8 ref_data (charsetOf mime)).length > 0 then
      some (env.convertToUtf8 ref_data (charsetOf mime))
    else
      none
  else
    some ref_data

/-- The MIME type of the page that `setErrorMessage` delivers. -/
def errorMime (env : Env) : MimeType := env.parseMime "text/plain charset=utf-8"

/-- The method `BrowserTab::on_requestComplete(QByteArray, MimeType)`, with the
pending answers of the tab passed in `answers`: a nested `setErrorMessage`,
which comes back here, happens only after one more answer has been used. When
the user chooses to display unconverted data, `data` is still empty. -/
def on_requestCompleteAux (env : Env) :
    List Bool → BrowserTab → QByteArray → MimeType → BrowserTab
  | answers, s, ref_data, mime =>
    match convertedData env ref_data mime, answers with
    | some data, _ =>
      (s.enterRequestComplete ref_data mime).completeRequest env data ref_data mime
    | none, [] =>
      ((s.enterRequestComplete ref_data mime).answered
        (Question.charsetConversionFailed (charsetOf mime)) true []).completeRequest
          env [] ref_data mime
    | none, true :: rest =>
      ((s.enterRequestComplete ref_data mime).answered
        (Question.charsetConversionFailed (charsetOf mime)) true rest).completeRequest
          env [] ref_data mime
    | none, false :: rest =>
      updateUI (on_requestCompleteAux env rest
        (((s.enterRequestComplete ref_data mime).answered
          (Question.charsetConversionFailed (charsetOf mime)) false rest).beginErrorMessage
            (ErrorMessage.charsetConversionFailed (charsetOf mime)))
        (errorPage env (ErrorMessage.charsetConversionFailed (charsetOf mime)))
        (errorMime env))

/-- The method `BrowserTab::on_requestComplete(QByteArray, MimeType)`. -/
def on_requestComplete (s : BrowserTab) (env : Env) (ref_data : QByteArray)
    (mime : MimeType) : BrowserTab :=
  on_requestCompleteAux env s.pending_answers s ref_data mime

/-- The method `BrowserTab::on_requestComplete(QByteArray, QString)`. -/
def on_requestCompleteText (s : BrowserTab) (env : Env) (ref_data : QByteArray)
    (mime_text : QString) : BrowserTab :=
  s.on_requestComplete env ref_data (env.parseMime mime_text)

/-- The method `BrowserTab::setErrorMessage`. -/
def setErrorMessage (s : BrowserTab) (env : Env) (msg : ErrorMessage) : BrowserTab :=
  updateUI ((s.beginErrorMessage msg).on_requestCompleteText env (errorPage env msg)
    "text/plain charset=utf-8")

/-- The lambda `try_enable_certificate` of `BrowserTab::startRequest`, for the
selected adapter. -/
def try_enable_certificate (s : BrowserTab) (env : Env) (url : QUrl) (handler : Nat) :
    Bool × BrowserTab :=
  if s.current_identity.isValid then
    let ok := env.handlerEnableClientCertificate handler s.current_identity
    let s := s.log (Effect.handlerEnableClientCertificate handler ok)
    if !ok then
      if !s.nextAnswer then
        (false, s.asked (Question.certificateUnsupported url.scheme))
      else
        (true, (s.asked (Question.certificateUnsupported url.scheme)).disableClientCertificate)
    else
      (true, s)
  else
    (true, s.disableClientCertificate)

/-- The loop of `BrowserTab::startRequest` over `kristall::identities`: the
first identity that is automatically enabled on the location is offered. -/
def offerAutomaticCertificate (s : BrowserTab) (env : Env) (url : QUrl) : BrowserTab :=
  match env.identities.find? (fun i => env.isAutomaticallyEnabledOn i url) with
  | none => s
  | some ident =>
    if !s.nextAnswer then
      s.asked (Question.automaticCertificate ident.display_name)
    else
      ((s.asked (Question.automaticCertificate ident.display_name)).enableClientCertificate
        ident).2

/-- The lambda `req` of `BrowserTab::startRequest`: the call of the adapter. -/
def req (s : BrowserTab) (env : Env) (handler : Nat) (url : QUrl) (options : RequestOptions) :
    Outcome Bool :=
  let result := env.handlerStartRequest handler url.removeFragment options
  Outcome.done result (s.log (Effect.handlerStartRequest handler url.removeFragment options result))

/-- The two identity checks of `BrowserTab::startRequest` between its two
calls of `try_enable_certificate`: a valid identity on a new host, then a host
filter that excludes the location or, without a valid identity, the offer of
an automatic one. -/
def checkIdentity (s : BrowserTab) (env : Env) (url : QUrl) : BrowserTab :=
  let s :=
    if s.current_identity.isValid && url.host != s.current_location.host then
      if !s.nextAnswer then
        (s.asked Question.keepCertificateNewHost).disableClientCertificate
      else
        s.asked Question.keepCertificateNewHost
    else
      s
  if s.current_identity.isValid && env.isHostFiltered s.current_identity url then
    if !s.nextAnswer then
      (s.asked (Question.keepCertificateHostFilter url
        s.current_identity.host_filter)).disableClientCertificate
    else
      s.asked (Question.keepCertificateHostFilter url s.current_identity.host_filter)
  else if !s.current_identity.isValid then
    s.offerAutomaticCertificate env url
  else
    s

/-- The assignments of `BrowserTab::startRequest` before the request is
made: the location becomes current, the URL bar shows it and the timeout
timer is started. -/
def beginDispatch (s : BrowserTab) (env : Env) (url : QUrl) : BrowserTab :=
  let s := { s with
    is_internal_location := (url.scheme == "about" || url.scheme == "file")
    current_location := url }
  let s := s.setUrlBarText url
  { s with network_timeout_timer := some env.options.network_timeout }

/-- The call `kristall::cache.clean()` of `BrowserTab::startRequest`. -/
def cleanCache (s : BrowserTab) (env : Env) : BrowserTab :=
  { s.log Effect.cacheClean with cache := s.cache.clean env.options env.now }

/-- The branch of `BrowserTab::startRequest` for a page found in the cache:
the page is delivered through `on_requestComplete` and, on a back or forward
navigation, the stored scroll position is restored. -/
def deliverCached (s : BrowserTab) (env : Env) (url : QUrl) (flags : RequestFlags)
    (pg : CachedPage) : BrowserTab :=
  let s := s.log (Effect.cacheFind url true)
  let s := { s with was_read_from_cache := true }
  let s := s.on_requestComplete env pg.body pg.mime
  if flags.NavigatedBackOrForward && pg.scroll_pos != -1 then
    { s with scroll_bar := pg.scroll_pos }
  else
    s

/-- The end of `BrowserTab::startRequest`, after the second call of
`try_enable_certificate`: the location is set, the timer started, and the page
is read from the cache or requested from the selected adapter. -/
def dispatch (s : BrowserTab) (env : Env) (handler : Nat) (url : QUrl)
    (options : RequestOptions) (flags : RequestFlags) : Outcome Bool :=
  let s := s.beginDispatch env url
  if flags.DontReadFromCache || s.current_identity.isValid then
    s.req env handler url options
  else
    let s := s.cleanCache env
    match s.cache.find url with
    | some pg => Outcome.done true (s.deliverCached env url flags pg)
    | none => (s.log (Effect.cacheFind url false)).req env handler url options

/-- The start of `BrowserTab::startRequest`: the certificate and the cache
flag are reset and the first registered adapter that supports the scheme is
selected. -/
def selectHandler (s : BrowserTab) (url : QUrl) : BrowserTab :=
  { s with
    current_server_certificate := QSslCertificate.null
    was_read_from_cache := false
    current_handler :=
      List.findIdx? (fun h : ProtocolHandler => h.supportsScheme url.scheme) s.protocol_handlers }

/-- The method `BrowserTab::startRequest`. It aborts when no registered
adapter supports the scheme (the `assert` on `current_handler`). -/
def startRequest (s : BrowserTab) (env : Env) (url : QUrl) (options : RequestOptions)
    (flags : RequestFlags) : Outcome Bool :=
  let s := s.log (Effect.startRequest url options flags)
  let s := s.selectHandler url
  match s.current_handler with
  | none => Outcome.aborted s
  | some handler =>
    let r1 := s.try_enable_certificate env url handler
    if !r1.1 then
      Outcome.done false r1.2
    else
      let s := r1.2.checkIdentity env url
      let r2 := s.try_enable_certificate env url handler
      if !r2.1 then
        Outcome.done false r2.2
      else
        r2.2.dispatch env handler url options flags

/-- The method `BrowserTab::navigateTo`. -/
def navigateTo (s : BrowserTab) (env : Env) (url : QUrl) (mode : PushToHistory)
    (flags : RequestFlags) : Outcome NavigateExit :=
  if env.isSchemeSupported url.scheme ≠ ProtocolSupport.Enabled then
    Outcome.done NavigateExit.schemeRejected
      (s.log (Effect.notice (Notice.schemeNotSupported url.scheme)))
  else
    let cancelled :=
      match s.current_handler with
      | some handler => env.handlerCancelRequest handler
      | none => true
    let s :=
      match s.current_handler with
      | some handler => s.log (Effect.cancelRequest handler (env.handlerCancelRequest handler))
      | none => s
    if !cancelled then
      Outcome.done NavigateExit.cancelFailed (s.log (Effect.notice Notice.cancelFailed))
    else
      let s :=
        match s.cache.find s.current_location with
        | some _ => { s with cache := s.cache.setScrollPos s.current_location s.scroll_bar }
        | none => s
      let s := { s with redirection_count := 0, successfully_loaded := false }
      match s.startRequest env url RequestOptions.Default flags with
      | Outcome.aborted t => Outcome.aborted t
      | Outcome.done false t =>
        Outcome.done NavigateExit.requestFailed (t.log (Effect.notice (Notice.requestFailed url)))
      | Outcome.done true t =>
        let t := if mode = PushToHistory.PushImmediate then t.pushToHistory url else t
        Outcome.done NavigateExit.started t.updateUI

/-- The method `BrowserTab::on_redirected`. -/
def on_redirected (s : BrowserTab) (env : Env) (uri : QUrl) (_is_permanent : Bool) :
    Outcome RedirectExit :=
  let s := { s with network_timeout_timer := none }
  let uri := redirectTarget s.current_location uri
  if s.redirection_count ≥ env.options.max_redirections then
    Outcome.done RedirectExit.tooManyRedirections
      (s.setErrorMessage env (ErrorMessage.tooManyRedirections uri))
  else
    let is_cross_protocol := s.current_location.scheme != uri.scheme
    let is_cross_host := s.current_location.host != uri.host
    let question :=
      redirectQuestion env.options.redirection_policy is_cross_protocol is_cross_host uri
    let answer :=
      match question with
      | some _ => s.nextAnswer
      | none => true
    let s :=
      match question with
      | some q => s.asked q
      | none => s
    if !answer then
      Outcome.done RedirectExit.cancelledByUser
        (s.setErrorMessage env (ErrorMessage.redirectionCancelled uri))
    else
      match s.startRequest env uri RequestOptions.Default RequestFlags.None with
      | Outcome.aborted t => Outcome.aborted t
      | Outcome.done true t =>
        let t := { t with redirection_count := t.redirection_count + 1, current_location := uri }
        let t := t.setUrlBarText uri
        Outcome.done RedirectExit.followed
          { t with history := t.history.replaceUrl t.current_history_index uri }
      | Outcome.done false t =>
        Outcome.done RedirectExit.failed
          (t.setErrorMessage env (ErrorMessage.redirectionFailed uri))

/-- The name of the error page of a network error, as the `switch` of
`BrowserTab::on_networkError` gives it. -/
def errorPageFile : NetworkError → QString
  | NetworkError.UnknownError => "UnknownError.gemini"
  | NetworkError.ProtocolViolation => "ProtocolViolation.gemini"
  | NetworkError.HostNotFound => "HostNotFound.gemini"
  | NetworkError.ConnectionRefused => "ConnectionRefused.gemini"
  | NetworkError.ResourceNotFound => "ResourceNotFound.gemini"
  | NetworkError.BadRequest => "BadRequest.gemini"
  | NetworkError.ProxyRequest => "ProxyRequest.gemini"
  | NetworkError.InternalServerError => "InternalServerError.gemini"
  | NetworkError.InvalidClientCertificate => "InvalidClientCertificate.gemini"
  | NetworkError.UntrustedHost => "UntrustedHost.gemini"
  | NetworkError.MistrustedHost => "MistrustedHost.gemini"
  | NetworkError.Unauthorized => "Unauthorized.gemini"
  | NetworkError.TlsFailure => "TlsFailure.gemini"
  | NetworkError.Timeout => "Timeout.gemini"

/-- The method `BrowserTab::on_networkError`. It aborts when the error page
cannot be opened (`assert(false)`). -/
def on_networkError (s : BrowserTab) (env : Env) (error_code : NetworkError)
    (reason : QString) : Outcome Unit :=
  let s := { s with network_timeout_timer := none }
  match env.readResource (":/error_page/" ++ errorPageFile error_code) with
  | none => Outcome.aborted s
  | some page =>
    let contents := env.toUtf8 (env.substitute page reason)
    let s := { s with is_internal_location := true }
    let s := s.on_requestCompleteText env contents "text/gemini"
    Outcome.done () s.updateUI

/-- The method `BrowserTab::on_networkTimeout`. -/
def on_networkTimeout (s : BrowserTab) (env : Env) : Outcome Unit :=
  let s :=
    match s.current_handler with
    | some handler => s.log (Effect.cancelRequest handler (env.handlerCancelRequest handler))
    | none => s
  s.on_networkError env NetworkError.Timeout "The server didn't respond in time."

/-- The method `BrowserTab::on_requestProgress`. -/
def on_requestProgress (s : BrowserTab) (env : Env) (transferred : Nat) : BrowserTab :=
  { s with
    stats_file_size := transferred
    stats_loaded_from_cache := false
    network_timeout_timer := some env.options.network_timeout }

/-- The method `BrowserTab::on_hostCertificateLoaded`. -/
def on_hostCertificateLoaded (s : BrowserTab) (cert : QSslCertificate) : BrowserTab :=
  { s with current_server_certificate := cert }

/-- The method `BrowserTab::on_stop_button_clicked`. -/
def on_stop_button_clicked (s : BrowserTab) (env : Env) : BrowserTab :=
  let s :=
    match s.current_handler with
    | some handler => s.log (Effect.cancelRequest handler (env.handlerCancelRequest handler))
    | none => s
  s.updateUI

end BrowserTab

/-- The exit a call took, if it returned. -/
def Outcome.exit? {α : Type} : Outcome α → Option α
  | Outcome.done e _ => some e
  | Outcome.aborted _ => none

/-- Forgets the exit of a call. -/
def Outcome.unit {α : Type} : Outcome α → Outcome Unit
  | Outcome.done _ t => Outcome.done () t
  | Outcome.aborted t => Outcome.aborted t

/-- The confirmation question of `on_redirected` for a redirect: the result
of its chain of branches for the policy, the current location and the resolved
target. -/
def BrowserTab.redirectConfirmation (s : BrowserTab) (env : Env) (uri : QUrl) :
    Option Question :=
  redirectQuestion env.options.redirection_policy
    (s.current_location.scheme != (redirectTarget s.current_location uri).scheme)
    (s.current_location.host != (redirectTarget s.current_location uri).host)
    (redirectTarget s.current_location uri)

/-- A `redirected` signal together with the environment it is handled in. -/
structure RedirectEvent where
  env : Env
  uri : QUrl
  is_permanent : Bool

/-- The outcomes of a chain of consecutive `redirected` signals, each handled
in the state the one before it left; the chain stops at an abort. -/
def redirectChain : BrowserTab → List RedirectEvent → List (Outcome RedirectExit)
  | _, [] => []
  | s, ev :: rest =>
    match s.on_redirected ev.env ev.uri ev.is_permanent with
    | Outcome.done e t => Outcome.done e t :: redirectChain t rest
    | Outcome.aborted t => [Outcome.aborted t]

/-- The state after a chain of consecutive `redirected` signals. -/
def redirectChainEnd : BrowserTab → List RedirectEvent → BrowserTab
  | s, [] => s
  | s, ev :: rest =>
    match s.on_redirected ev.env ev.uri ev.is_permanent with
    | Outcome.done _ t => redirectChainEnd t rest
    | Outcome.aborted t => t

/-- The targets of a chain of redirects that are all followed, each resolved
against the location the one before it led to. -/
def chainTargets : QUrl → List QUrl → List QUrl
  | _, [] => []
  | current, uri :: rest =>
    redirectTarget current uri :: chainTargets (redirectTarget current uri) rest

/-- Whether a redirect was neither declined by the user nor failed to start. -/
def Outcome.cooperative : Outcome RedirectExit → Bool
  | Outcome.done RedirectExit.cancelledByUser _ => false
  | Outcome.done RedirectExit.failed _ => false
  | Outcome.done _ _ => true
  | Outcome.aborted _ => false

/-- The location of an entry into `BrowserTab::startRequest`. -/
def Effect.startRequestUrl? : Effect → Option QUrl
  | Effect.startRequest url _ _ => some url
  | _ => none

/-- The locations that `BrowserTab::startRequest` was called with, in order. -/
def startRequests (trace : List Effect) : List QUrl :=
  trace.filterMap Effect.startRequestUrl?

/-- The effects of delivering a page: the entry into `on_requestComplete`,
the rendering, the cache insertion, and the question and the error message of
a failed character set conversion. -/
def Effect.isDelivery : Effect → Bool
  | Effect.requestComplete _ _ => true
  | Effect.renderPage _ _ => true
  | Effect.writePreviewTheme _ => true
  | Effect.locationChanged _ => true
  | Effect.cachePush _ => true
  | Effect.question (Question.charsetConversionFailed _) _ => true
  | Effect.setErrorMessage (ErrorMessage.charsetConversionFailed _) => true
  | _ => false

/-- The effects that `BrowserTab::startRequest` can have after its entry: the
identity dialogs, the calls of the adapters, the cache lookup, and the delivery
of a cached page. -/
def Effect.isDispatch : Effect → Bool
  | Effect.question (Question.certificateUnsupported _) _ => true
  | Effect.question Question.keepCertificateNewHost _ => true
  | Effect.question (Question.keepCertificateHostFilter _ _) _ => true
  | Effect.question (Question.automaticCertificate _) _ => true
  | Effect.notice Notice.invalidIdentity => true
  | Effect.handlerStartRequest _ _ _ _ => true
  | Effect.handlerEnableClientCertificate _ _ => true
  | Effect.handlerDisableClientCertificate => true
  | Effect.cacheClean => true
  | Effect.cacheFind _ _ => true
  | e => e.isDelivery

/-- Whether an effect is one of the redirect confirmations, with any answer. -/
def Effect.isRedirectQuestion : Effect → Bool
  | Effect.question q _ => q.isRedirect
  | _ => false

/-- The state `t` comes from `s` by steps that leave `redirection_count` alone
and add to the trace only effects of the class `cls`. -/
def Frame (cls : Effect → Bool) (s t : BrowserTab) : Prop :=
  t.redirection_count = s.redirection_count ∧
    ∃ added, t.trace = s.trace ++ added ∧ ∀ e ∈ added, cls e = true

/-! ### Sample tab and environment -/

def sampleHandlers : List ProtocolHandler :=
  [ { supportsScheme := fun s => s == "gemini" },
    { supportsScheme := fun s => s == "https" || s == "http" } ]

/-- An environment in which every adapter call succeeds, no identity is
registered and nothing needs conversion. -/
def sampleEnv (max_redirections : Int) (redirection_policy : Int) : Env :=
  { options := { max_redirections := max_redirections, redirection_policy := redirection_policy }
    isSchemeSupported := fun s =>
      if s == "gemini" || s == "https" then ProtocolSupport.Enabled
      else ProtocolSupport.Unsupported
    identities := []
    isHostFiltered := fun _ _ => false
    isAutomaticallyEnabledOn := fun _ _ => false
    now := 0
    urlToString := fun u => u.scheme ++ "://" ++ u.host ++ u.path
    toUtf8 := fun t => t.data.map Char.toNat
    parseMime := fun _ => { type := "text", subtype := "plain", parameters := [] }
    convertToUtf8 := fun d _ => d
    readResource := fun _ => some "%1"
    substitute := fun _ reason => reason
    handlerStartRequest := fun _ _ _ => true
    handlerCancelRequest := fun _ => true
    handlerEnableClientCertificate := fun _ _ => true
    encodedLength := fun u =>
      u.scheme.length + 3 + u.host.length + u.path.length + 1 + u.query.length
    resolved := fun base reference =>
      { base with path := reference.path, query := reference.query,
                  fragment := reference.fragment }
    openUrl := fun _ => true
    canWrite := fun _ => true
    cacheFilePath := fun name => "/cache/" ++ name
    styleFilePath := fun name => "/styles/" ++ name
    styleNameIn := fun _ => some "sample"
    freeStyleFileName := fun name => name ++ ".kthm"
    trimmed := fun t => t
    isValid := fun u => !u.scheme.isEmpty
    parseUrl := fun t =>
      match t.splitOn "://" with
      | [scheme, rest] =>
        { scheme := scheme, host := rest.takeWhile (fun c => c != '/'), port := -1,
          path := rest.dropWhile (fun c => c != '/'), query := "", fragment := "" }
      | _ => { QUrl.empty with path := t }
    homePath := "/home/user"
    arg := fun t a => t.replace "%1" a
    anchorScroll := fun _ v => v
    handlerIsInProgress := fun _ => false
    historyGet := fun h row => if 0 ≤ row then h.entries.getD row.toNat QUrl.empty else QUrl.empty
    historyOneBackward := fun h row =>
      if 1 ≤ row ∧ row - 1 < h.entries.length then row - 1 else -1
    historyOneForward := fun h row =>
      if 0 ≤ row + 1 ∧ row + 1 < h.entries.length then row + 1 else -1 }

def geminiUrl (host path : QString) : QUrl :=
  { scheme := "gemini", host := host, port := -1, path := path, query := "", fragment := "" }

/-- A tab with two adapters on which nothing has been loaded yet. -/
def sampleTab : BrowserTab := BrowserTab.init sampleHandlers

/-- The sample tab after a navigation to a first page has started. -/
def sampleNavigated : BrowserTab :=
  (sampleTab.navigateTo (sampleEnv 3 WarnOnHostChange) (geminiUrl "example.org" "/")
    PushToHistory.PushImmediate RequestFlags.None).tab

/-- The sample tab after it has followed a first redirect. -/
def sampleRedirected : BrowserTab :=
  (sampleNavigated.on_redirected (sampleEnv 3 WarnOnHostChange)
    (geminiUrl "example.org" "/a") false).tab

/-- Four consecutive redirects on one host, under the limit of three. -/
def sampleRedirects : List RedirectEvent :=
  [ { env := sampleEnv 3 WarnOnHostChange, uri := geminiUrl "example.org" "/a", is_permanent := false },
    { env := sampleEnv 3 WarnOnHostChange, uri := geminiUrl "example.org" "/b", is_permanent := true },
    { env := sampleEnv 3 WarnOnHostChange, uri := geminiUrl "example.org" "/c", is_permanent := false } ]

def sampleLastRedirect : RedirectEvent :=
  { env := sampleEnv 3 WarnOnHostChange, uri := geminiUrl "example.org" "/d", is_permanent := false }

/-! ### What the delivery of a page and the identity checks leave alone -/

/-- Whether `renderPage` leaves the cache alone whatever the type of the page:
the location is internal, the page was read from the cache, or a client
identity is active. -/
def BrowserTab.uncacheable (s : BrowserTab) : Prop :=
  s.is_internal_location = true ∨ s.was_read_from_cache = true ∨
    s.current_identity.isValid = true

/-- Whether an effect is an insertion into the cache. -/
def Effect.isCachePush : Effect → Bool
  | Effect.cachePush _ => true
  | _ => false

/-- Whether an effect is a read access to the cache: the clean-up before a
lookup, or the lookup. -/
def Effect.isCacheRead : Effect → Bool
  | Effect.cacheClean => true
  | Effect.cacheFind _ _ => true
  | _ => false

/-- Whether an effect is a call of `startRequest` of an adapter. -/
def Effect.isAdapterRequest : Effect → Bool
  | Effect.handlerStartRequest _ _ _ _ => true
  | _ => false

/-- The effects of the identity checks of `BrowserTab::startRequest`: their
dialogs and the calls that enable or disable a client certificate. -/
def Effect.isIdentity : Effect → Bool
  | Effect.question (Question.certificateUnsupported _) _ => true
  | Effect.question Question.keepCertificateNewHost _ => true
  | Effect.question (Question.keepCertificateHostFilter _ _) _ => true
  | Effect.question (Question.automaticCertificate _) _ => true
  | Effect.notice Notice.invalidIdentity => true
  | Effect.handlerEnableClientCertificate _ _ => true
  | Effect.handlerDisableClientCertificate => true
  | _ => false

/-- The state `t` comes from `s` by the delivery of a page: the members listed
are the same, an internal location stays internal, and where `renderPage`
cannot cache the cache is the same and no insertion is in the trace. -/
structure Delivered (s t : BrowserTab) : Prop where
  protocol_handlers : t.protocol_handlers = s.protocol_handlers
  current_handler : t.current_handler = s.current_handler
  current_location : t.current_location = s.current_location
  current_identity : t.current_identity = s.current_identity
  current_server_certificate : t.current_server_certificate = s.current_server_certificate
  redirection_count : t.redirection_count = s.redirection_count
  was_read_from_cache : t.was_read_from_cache = s.was_read_from_cache
  history : t.history = s.history
  current_history_index : t.current_history_index = s.current_history_index
  url_bar : t.url_bar = s.url_bar
  scroll_bar : t.scroll_bar = s.scroll_bar
  is_internal_location : s.is_internal_location = true → t.is_internal_location = true
  cache : s.uncacheable → t.cache = s.cache
  trace : ∃ added, t.trace = s.trace ++ added ∧
    (∀ e ∈ added, e.isDelivery = true) ∧
    (s.uncacheable → ∀ e ∈ added, e.isCachePush = false)

/-- The state `t` comes from `s` by the identity checks of `startRequest`:
only the identity, the pending answers and the trace may differ, and the trace
gets identity effects only. -/
structure Prepared (s t : BrowserTab) : Prop where
  protocol_handlers : t.protocol_handlers = s.protocol_handlers
  current_handler : t.current_handler = s.current_handler
  current_location : t.current_location = s.current_location
  current_server_certificate : t.current_server_certificate = s.current_server_certificate
  current_mime : t.current_mime = s.current_mime
  current_buffer : t.current_buffer = s.current_buffer
  redirection_count : t.redirection_count = s.redirection_count
  successfully_loaded : t.successfully_loaded = s.successfully_loaded
  is_internal_location : t.is_internal_location = s.is_internal_location
  was_read_from_cache : t.was_read_from_cache = s.was_read_from_cache
  network_timeout_timer : t.network_timeout_timer = s.network_timeout_timer
  history : t.history = s.history
  current_history_index : t.current_history_index = s.current_history_index
  url_bar : t.url_bar = s.url_bar
  fav_button_enabled : t.fav_button_enabled = s.fav_button_enabled
  scroll_bar : t.scroll_bar = s.scroll_bar
  cache : t.cache = s.cache
  trace : ∃ added, t.trace = s.trace ++ added ∧ ∀ e ∈ added, e.isIdentity = true

/-- The condition of `renderPage` under which the page is put into the cache. -/
def BrowserTab.willPush (s : BrowserTab) (env : Env) (mime : MimeType) : Bool :=
  (renderKind (decide (env.options.text_display = TextDisplay.PlainText)) mime).will_cache
    && !s.is_internal_location && !s.was_read_from_cache && !s.current_identity.isValid

/-- Whether an effect is a call of `cancelRequest` of an adapter. -/
def Effect.isCancelRequest : Effect → Bool
  | Effect.cancelRequest _ _ => true
  | _ => false

/-! ### More sample data -/

/-- A location whose scheme no adapter of the sample tab supports. -/
def ftpUrl : QUrl :=
  { scheme := "ftp", host := "example.org", port := -1, path := "/", query := "", fragment := "" }

/-- The sample tab with a user who answers No to the next question. -/
def sampleDeclining : BrowserTab := { sampleNavigated with pending_answers := [false] }

/-- An environment in which the adapters refuse to cancel a request. -/
def refusingEnv : Env := { sampleEnv 3 WarnNever with handlerCancelRequest := fun _ => false }

/-- A text type that declares another character set than UTF-8. -/
def latin1Mime : MimeType :=
  { type := "text", subtype := "plain", parameters := [("charset", "iso-8859-1")] }

/-- An environment in which no character set conversion succeeds. -/
def failingConversionEnv : Env := { sampleEnv 3 WarnNever with convertToUtf8 := fun _ _ => [] }

/-- A page of the cache for the sample location, stored with a scroll position. -/
def samplePage : CachedPage :=
  { url := geminiUrl "example.org" "/", body := [35, 32, 72, 105], mime :=
      { type := "text", subtype := "gemini", parameters := [] },
    scroll_pos := 120, time_cached := 0 }

/-- The sample tab with the sample page in its cache. -/
def sampleCached : BrowserTab := { sampleTab with cache := { pages := [samplePage] } }

/-- The sample tab with a valid client identity enabled. -/
def sampleIdentified : BrowserTab :=
  { sampleCached with
    current_identity :=
      { isValid := true, is_persistent := false, auto_enable := false,
        display_name := "me", host_filter := "" } }

/-- The values of the enumeration `ProtocolHandler::NetworkError`, in the
order of `protocolhandler.hpp`. -/
def NetworkError.all : List NetworkError :=
  [ NetworkError.UnknownError, NetworkError.ProtocolViolation, NetworkError.HostNotFound,
    NetworkError.ConnectionRefused, NetworkError.ResourceNotFound, NetworkError.BadRequest,
    NetworkError.ProxyRequest, NetworkError.InternalServerError,
    NetworkError.InvalidClientCertificate, NetworkError.UntrustedHost,
    NetworkError.MistrustedHost, NetworkError.Unauthorized, NetworkError.TlsFailure,
    NetworkError.Timeout ]

/-- The path of the error page that `BrowserTab::on_networkError` opens. -/
def BrowserTab.errorPagePath (error_code : NetworkError) : QString :=
  ":/error_page/" ++ BrowserTab.errorPageFile error_code

/-- The sample tab with a user who answers Yes to the next question. -/
def sampleAccepting : BrowserTab := { sampleNavigated with pending_answers := [true] }

/-! ### The tab in which `on_redirected` dispatches -/

/-- The tab in which `on_redirected` calls `startRequest`: the timer is
stopped and the confirmation, if one is needed, has been asked. -/
def BrowserTab.afterConfirmation (s : BrowserTab) (env : Env) (uri : QUrl) : BrowserTab :=
  match s.redirectConfirmation env uri with
  | some q => BrowserTab.asked { s with network_timeout_timer := none } q
  | none => { s with network_timeout_timer := none }

/-- The sample tab with the sample page in the cache, after a navigation to
another page of the same host has started. -/
def sampleCachedNavigated : BrowserTab :=
  (sampleCached.navigateTo (sampleEnv 3 WarnNever) (geminiUrl "example.org" "/start")
    PushToHistory.PushImmediate RequestFlags.None).tab

/-- A location with a port that is not the default one, and a page below a
directory. -/
def portUrl : QUrl :=
  { scheme := "gemini", host := "example.org", port := 1966, path := "/dir/page", query := "",
    fragment := "" }

/-- A relative reference: only a path, without a leading slash. -/
def relativeUrl : QUrl :=
  { scheme := "", host := "", port := -1, path := "other", query := "", fragment := "" }

/-- The sample tab with its request running on the location with a port. -/
def samplePortTab : BrowserTab := { sampleNavigated with current_location := portUrl }

/-! ### The identity policy of `startRequest` -/

/-- The first identity check of `BrowserTab::startRequest`: a valid identity
and a new host. -/
def BrowserTab.checkNewHost (s : BrowserTab) (url : QUrl) : BrowserTab :=
  if s.current_identity.isValid && url.host != s.current_location.host then
    if !s.nextAnswer then
      (s.asked Question.keepCertificateNewHost).disableClientCertificate
    else
      s.asked Question.keepCertificateNewHost
  else
    s

/-- The second identity check of `BrowserTab::startRequest`: a host filter
that excludes the location or, without a valid identity, the offer of an
automatic one. -/
def BrowserTab.checkHostFilter (s : BrowserTab) (env : Env) (url : QUrl) : BrowserTab :=
  if s.current_identity.isValid && env.isHostFiltered s.current_identity url then
    if !s.nextAnswer then
      (s.asked (Question.keepCertificateHostFilter url
        s.current_identity.host_filter)).disableClientCertificate
    else
      s.asked (Question.keepCertificateHostFilter url s.current_identity.host_filter)
  else if !s.current_identity.isValid then
    s.offerAutomaticCertificate env url
  else
    s

/-- Whether a question asks to keep the client certificate enabled. -/
def Question.isKeepCertificate : Question → Bool
  | Question.keepCertificateNewHost => true
  | Question.keepCertificateHostFilter _ _ => true
  | _ => false

/-- Whether an effect is a question to keep the certificate, answered No. -/
def Effect.isDeclinedKeep : Effect → Bool
  | Effect.question q false => q.isKeepCertificate
  | _ => false

/-- Whether an effect is the offer of an automatic certificate, answered Yes;
`startRequest` calls `enableClientCertificate` after it and nowhere else. -/
def Effect.isAcceptedAutomatic : Effect → Bool
  | Effect.question (Question.automaticCertificate _) true => true
  | _ => false

/-- The effects of the last part of `startRequest`: the cache lookup, the
call of the adapter and the delivery of a cached page. -/
def Effect.isFetch : Effect → Bool
  | Effect.cacheClean => true
  | Effect.cacheFind _ _ => true
  | Effect.handlerStartRequest _ _ _ _ => true
  | e => e.isDelivery

/-- The state `t` comes from `s` by steps of `startRequest` that treat the
identity by the rules: it is kept or reset unless an automatic certificate was
accepted, and a declined question to keep it, not followed by an accepted
offer, leaves it reset with `disableClientCertificate` called. -/
structure IdentityStep (s t : BrowserTab) : Prop where
  trace : ∃ added, t.trace = s.trace ++ added ∧
    (t.current_identity = s.current_identity ∨ t.current_identity = CryptoIdentity.none ∨
      added.any Effect.isAcceptedAutomatic = true) ∧
    (added.any Effect.isDeclinedKeep = true → added.any Effect.isAcceptedAutomatic = false →
      t.current_identity = CryptoIdentity.none ∧
      Effect.handlerDisableClientCertificate ∈ added)

/-- The sample tab with a valid identity, on the sample location, with a user
who answers No to the next question. -/
def sampleIdentifiedDeclining : BrowserTab :=
  { sampleIdentified with current_location := geminiUrl "example.org" "/", pending_answers := [false] }

/-! ### Sequences of insertions into the cache -/

/-- One call of `CacheHandler::push`: the clock at the call, the location, the
body and the type. -/
structure CacheInsertion where
  now : QDateTime
  url : QUrl
  body : QByteArray
  mime : MimeType
  deriving DecidableEq, Repr, Inhabited

/-- Modelled from the spec: the entry that `push` stores for an insertion. -/
def CacheInsertion.entry (i : CacheInsertion) : CachedPage :=
  { url := CacheHandler.key i.url, body := i.body, mime := i.mime, scroll_pos := -1,
    time_cached := i.now }

/-- The cache after a sequence of calls of `push`, the first of the list first. -/
def CacheHandler.pushAll (c : CacheHandler) (options : GenericSettings)
    (insertions : List CacheInsertion) : CacheHandler :=
  insertions.foldl (fun c i => c.push options i.now i.url i.body i.mime) c

/-- Settings with a cache of two entries and a slack of one. -/
def smallCacheOptions : GenericSettings :=
  { cache_limit := 2, cache_threshold := 1, cache_life := 1, cache_unlimited_life := false }

/-- Four insertions for four locations, one second apart. -/
def sampleInsertions : List CacheInsertion :=
  [ { now := 1, url := geminiUrl "example.org" "/a", body := [97], mime := samplePage.mime },
    { now := 2, url := geminiUrl "example.org" "/b", body := [98], mime := samplePage.mime },
    { now := 3, url := geminiUrl "example.org" "/c", body := [99], mime := samplePage.mime },
    { now := 4, url := geminiUrl "example.org" "/d", body := [100], mime := samplePage.mime } ]

/-! ## Persistence of the settings (`main.cpp`) -/

/-- Modelled from the spec: a value held by `QSettings`, the class `QVariant`
with the three kinds of value that `GenericSettings::save` stores. -/
inductive QVariant where
  | int (n : Int)
  | string (s : QString)
  | bool (b : Bool)
  deriving DecidableEq, Repr, Inhabited

/-- Modelled from the spec: `QVariant::toInt`. A value of another kind, which
`load` never meets in a store written by `save`, gives `0`. -/
def QVariant.toInt : QVariant → Int
  | QVariant.int n => n
  | _ => 0

/-- Modelled from the spec: `QVariant::toString`. A value of another kind
gives the empty string. -/
def QVariant.toString : QVariant → QString
  | QVariant.string s => s
  | _ => ""

/-- Modelled from the spec: `QVariant::toBool`. A value of another kind gives
`false`. -/
def QVariant.toBool : QVariant → Bool
  | QVariant.bool b => b
  | _ => false

/-- Modelled from the spec: the class `QSettings`, a store of values by key. -/
structure QSettings where
  entries : List (QString × QVariant)
  deriving DecidableEq, Repr, Inhabited

/-- Modelled from the spec: `QSettings::value(key, defaultValue)`. -/
def QSettings.value (settings : QSettings) (key : QString) (defaultValue : QVariant) :
    QVariant :=
  match settings.entries.find? (fun p => p.1 == key) with
  | some p => p.2
  | none => defaultValue

/-- Modelled from the spec: `QSettings::setValue(key, value)`, which replaces
the value of the key. -/
def QSettings.setValue (settings : QSettings) (key : QString) (value : QVariant) : QSettings :=
  { entries := settings.entries.filter (fun p => !(p.1 == key)) ++ [(key, value)] }

/-- The method `GenericSettings::load`, on the members of the object as they
are before the call. `emojis_supported` is the constant
`kristall::EMOJIS_SUPPORTED`. -/
def GenericSettings.load (emojis_supported : Bool) (g : GenericSettings) (settings : QSettings) :
    GenericSettings :=
  let theme_name := (settings.value "theme" (QVariant.string "os_default")).toString
  let icon_theme_name := (settings.value "icon_theme" (QVariant.string "auto")).toString
  let density := (settings.value "ui_density" (QVariant.string "compact")).toString
  { network_timeout := (settings.value "network_timeout" (QVariant.int 5000)).toInt
    start_page := (settings.value "start_page" (QVariant.string "about:favourites")).toString
    search_engine :=
      (settings.value "search_engine"
        (QVariant.string "gemini://geminispace.info/search?%1")).toString
    text_display :=
      if (settings.value "text_display" (QVariant.string "fancy")).toString == "plain" then
        TextDisplay.PlainText
      else
        TextDisplay.FormattedText
    enable_text_decoration := (settings.value "text_decoration" (QVariant.bool false)).toBool
    theme :=
      if theme_name == "dark" then Theme.dark
      else if theme_name == "light" then Theme.light
      else Theme.os_default
    icon_theme :=
      if icon_theme_name == "light" then IconTheme.light
      else if icon_theme_name == "dark" then IconTheme.dark
      else IconTheme.automatic
    ui_density :=
      if density == "compact" then UIDensity.compact
      else if density == "classic" then UIDensity.classic
      else g.ui_density
    gophermap_display :=
      if (settings.value "gophermap_display" (QVariant.string "rendered")).toString
          == "rendered" then
        TextDisplay.FormattedText
      else
        TextDisplay.PlainText
    use_os_scheme_handler :=
      (settings.value "use_os_scheme_handler" (QVariant.bool false)).toBool
    show_hidden_files_in_dirs :=
      (settings.value "show_hidden_files_in_dirs" (QVariant.bool false)).toBool
    fancy_urlbar := (settings.value "fancy_urlbar" (QVariant.bool true)).toBool
    fancy_quotes := (settings.value "fancy_quotes" (QVariant.bool true)).toBool
    emojis_enabled :=
      if emojis_supported then (settings.value "emojis_enabled" (QVariant.bool true)).toBool
      else false
    max_redirections := (settings.value "max_redirections" (QVariant.int 5)).toInt
    redirection_policy :=
      (settings.value "redirection_policy " (QVariant.int WarnOnHostChange)).toInt
    enable_home_btn := (settings.value "enable_home_btn" (QVariant.bool false)).toBool
    enable_newtab_btn := (settings.value "enable_newtab_btn" (QVariant.bool true)).toBool
    enable_root_btn := (settings.value "enable_root_btn" (QVariant.bool false)).toBool
    enable_parent_btn := (settings.value "enable_parent_btn" (QVariant.bool false)).toBool
    cache_limit := (settings.value "cache_limit" (QVariant.int 1000)).toInt
    cache_threshold := (settings.value "cache_threshold" (QVariant.int 125)).toInt
    cache_life := (settings.value "cache_life" (QVariant.int 15)).toInt
    cache_unlimited_life :=
      (settings.value "cache_unlimited_life" (QVariant.bool true)).toBool }

/-- The method `GenericSettings::save`. `emojis_supported` is the constant
`kristall::EMOJIS_SUPPORTED`. -/
def GenericSettings.save (emojis_supported : Bool) (g : GenericSettings) (settings : QSettings) :
    QSettings :=
  let settings := settings.setValue "start_page" (QVariant.string g.start_page)
  let settings := settings.setValue "search_engine" (QVariant.string g.search_engine)
  let settings := settings.setValue "text_display"
    (QVariant.string (if g.text_display = TextDisplay.FormattedText then "fancy" else "plain"))
  let settings := settings.setValue "text_decoration" (QVariant.bool g.enable_text_decoration)
  let settings := settings.setValue "theme"
    (QVariant.string
      (match g.theme with
        | Theme.dark => "dark"
        | Theme.light => "light"
        | Theme.os_default => "os_default"))
  let settings := settings.setValue "icon_theme"
    (QVariant.string
      (match g.icon_theme with
        | IconTheme.dark => "dark"
        | IconTheme.light => "light"
        | IconTheme.automatic => "auto"))
  let settings := settings.setValue "ui_density"
    (QVariant.string
      (match g.ui_density with
        | UIDensity.compact => "compact"
        | UIDensity.classic => "classic"))
  let settings := settings.setValue "gophermap_display"
    (QVariant.string
      (if g.gophermap_display = TextDisplay.FormattedText then "rendered" else "text"))
  let settings := settings.setValue "use_os_scheme_handler"
    (QVariant.bool g.use_os_scheme_handler)
  let settings := settings.setValue "show_hidden_files_in_dirs"
    (QVariant.bool g.show_hidden_files_in_dirs)
  let settings := settings.setValue "fancy_urlbar" (QVariant.bool g.fancy_urlbar)
  let settings := settings.setValue "fancy_quotes" (QVariant.bool g.fancy_quotes)
  let settings := settings.setValue "max_redirections" (QVariant.int g.max_redirections)
  let settings := settings.setValue "redirection_policy" (QVariant.int g.redirection_policy)
  let settings := settings.setValue "network_timeout" (QVariant.int g.network_timeout)
  let settings := settings.setValue "enable_home_btn" (QVariant.bool g.enable_home_btn)
  let settings := settings.setValue "enable_newtab_btn" (QVariant.bool g.enable_newtab_btn)
  let settings := settings.setValue "enable_root_btn" (QVariant.bool g.enable_root_btn)
  let settings := settings.setValue "enable_parent_btn" (QVariant.bool g.enable_parent_btn)
  let settings := settings.setValue "cache_limit" (QVariant.int g.cache_limit)
  let settings := settings.setValue "cache_threshold" (QVariant.int g.cache_threshold)
  let settings := settings.setValue "cache_life" (QVariant.int g.cache_life)
  let settings := settings.setValue "cache_unlimited_life"
    (QVariant.bool g.cache_unlimited_life)
  if emojis_supported then
    settings.setValue "emojis_enabled" (QVariant.bool g.emojis_enabled)
  else
    settings

/-- Settings that differ from the initial ones in the redirection policy. -/
def cautiousSettings : GenericSettings := { redirection_policy := WarnAlways }

/-! ### A document in another character set -/

/-- The conversion of ISO-8859-1 to UTF-8: a byte below 128 stays as it is,
any other byte becomes two bytes. -/
def latin1ToUtf8 (data : QByteArray) : QByteArray :=
  data.flatMap (fun b => if b < 128 then [b] else [192 + b / 64, 128 + b % 64])

/-- An environment whose conversion is that of ISO-8859-1. -/
def latin1Env : Env := { sampleEnv 3 WarnNever with convertToUtf8 := fun d _ => latin1ToUtf8 d }

/-- The sample tab after its request has completed with two bytes of text in
ISO-8859-1, the letters `H` and `é`. -/
def sampleFetched : BrowserTab :=
  sampleNavigated.on_requestComplete latin1Env [72, 233] latin1Mime

/-- The sample tab after the same location has been visited again. -/
def sampleRevisited : BrowserTab :=
  (sampleFetched.navigateTo latin1Env (geminiUrl "example.org" "/") PushToHistory.DontPush
    RequestFlags.None).tab

/-! ## Input requests (`browsertab.cpp`, `on_inputRequired`) -/

/-- The exits of `BrowserTab::on_inputRequired`, which returns nothing in C++. -/
inductive InputExit where
  | cancelled
  | navigated (exit : NavigateExit)
  deriving DecidableEq, Repr, Inhabited

namespace BrowserTab

/-- The loop `while(true)` of `BrowserTab::on_inputRequired`. The list holds
what the successive runs of the input dialog end with: `some text` when the
dialog is accepted with this text, `none` when it is left in another way. A
run after the last of them is not accepted, so the loop ends for every list. -/
def inputLoop (env : Env) (query : QString) : List (Option QString) → BrowserTab → Outcome InputExit
  | some text :: rest, s =>
    let s := s.log (Effect.inputDialog query (some text))
    let new_location := s.current_location.setQuery text
    let len := env.encodedLength new_location
    if len ≥ 1020 then
      inputLoop env query rest (s.log (Effect.notice (Notice.inputTooLong len)))
    else
      match s.navigateTo env new_location PushToHistory.DontPush RequestFlags.None with
      | Outcome.done e t => Outcome.done (InputExit.navigated e) t
      | Outcome.aborted t => Outcome.aborted t
  | _, s =>
    Outcome.done InputExit.cancelled
      ((s.log (Effect.inputDialog query none)).setErrorMessage env
        (ErrorMessage.inputRequired query))

/-- The method `BrowserTab::on_inputRequired`; `is_sensitive` only selects the
echo mode of the dialog. -/
def on_inputRequired (s : BrowserTab) (env : Env) (inputs : List (Option QString))
    (query : QString) (_is_sensitive : Bool) : Outcome InputExit :=
  inputLoop env query inputs { s with network_timeout_timer := none }

end BrowserTab

/-- The effects of the runs of the input dialog that are accepted with a text
that is too long: the dialog and the warning of each of them. -/
def rejectedInputs (env : Env) (query : QString) (location : QUrl) (texts : List QString) :
    List Effect :=
  texts.flatMap fun text =>
    [ Effect.inputDialog query (some text),
      Effect.notice (Notice.inputTooLong (env.encodedLength (location.setQuery text))) ]

/-- An environment in which a location is 1000 bytes long without its query. -/
def shortEnv : Env := { sampleEnv 3 WarnNever with encodedLength := fun u => 1000 + u.query.length }

/-- A query of twenty characters. -/
def longInput : QString := "aaaaaaaaaaaaaaaaaaaa"

/-! ## Activated links (`browsertab.cpp`, `on_text_browser_anchorClicked`) -/

/-- The two trust stores `kristall::trust::gemini` and `kristall::trust::https`. -/
structure TrustStores where
  gemini : SslTrust
  https : SslTrust
  deriving DecidableEq, Repr, Inhabited

/-- The outcome of a call made for its effect on the tab, in a function that
returns `value` after it. -/
def Outcome.withValue {α β : Type} (o : Outcome α) (value : β) : Outcome β :=
  match o with
  | Outcome.done _ t => Outcome.done value t
  | Outcome.aborted t => Outcome.aborted t

/-- The calls of `SslTrust::addTrust`. -/
def Effect.isAddTrust : Effect → Bool
  | Effect.addTrust _ _ => true
  | _ => false

/-- Every effect but a call of `SslTrust::addTrust`. -/
def Effect.isNoAddTrust (e : Effect) : Bool := !e.isAddTrust

namespace BrowserTab

/-- The writing of `current_buffer` into the file of a path, which happens
when the file can be opened: `if(file.open(QFile::WriteOnly))`. -/
def writeBuffer (s : BrowserTab) (env : Env) (path : QString) : BrowserTab :=
  if env.canWrite path then s.log (Effect.writeFile path s.current_buffer) else s

/-- The action `install-theme` of `on_text_browser_anchorClicked` on a theme
preview, from the question on. -/
def addStyle (s : BrowserTab) (env : Env) (name : QString) : BrowserTab :=
  let answer := s.nextAnswer
  let s := s.asked (Question.addStyle name)
  if !answer then
    s
  else
    let target := env.styleFilePath (env.freeStyleFileName name)
    let s := s.writeBuffer env target
    let s := s.log (Effect.setStyleName target name)
    s.log (Effect.notice (Notice.themeAdded name))

/-- The action `install-theme` of `on_text_browser_anchorClicked` on a theme
preview. The argument `input` is what the dialog for the name ends with, `none`
when it is not accepted; the text that the dialog proposes is left out. -/
def installTheme (s : BrowserTab) (env : Env) (input : Option QString) : BrowserTab :=
  let temp := env.cacheFilePath "preview-theme.kthm"
  let s := s.writeBuffer env temp
  match env.styleNameIn temp with
  | none =>
    let label := "This style has no embedded name. Please enter a name for the preset:"
    match input with
    | none => s.log (Effect.inputDialog label none)
    | some text => (s.log (Effect.inputDialog label (some text))).addStyle env (env.trimmed text)
  | some name => s.addStyle env name

/-- The action `add-fingerprint` of `on_text_browser_anchorClicked`. The call
aborts when `assert(false)` is reached or the `assert` in `addTrust` fails. -/
def addFingerprint (s : BrowserTab) (env : Env) (trust : TrustStores) : Outcome TrustStores :=
  let answer := s.nextAnswer
  let s := s.asked (Question.addFingerprint s.current_location.host)
  if !answer then
    Outcome.done trust s
  else if s.current_location.scheme == "gemini" then
    let s := s.log (Effect.addTrust "gemini" s.current_location)
    match trust.gemini.addTrust env.now s.current_location s.current_server_certificate with
    | none => Outcome.aborted s
    | some (_, store) =>
      (s.startRequest env s.current_location RequestOptions.Default RequestFlags.None).withValue
        { trust with gemini := store }
  else if s.current_location.scheme == "https" then
    let s := s.log (Effect.addTrust "https" s.current_location)
    match trust.https.addTrust env.now s.current_location s.current_server_certificate with
    | none => Outcome.aborted s
    | some (_, store) =>
      (s.startRequest env s.current_location RequestOptions.Default RequestFlags.None).withValue
        { trust with https := store }
  else
    Outcome.aborted s

/-- The method `BrowserTab::on_text_browser_anchorClicked`, with the two trust
stores as they are before and after the call. The argument `input` is what the
input dialog of `install-theme` ends with. -/
def on_text_browser_anchorClicked (s : BrowserTab) (env : Env) (trust : TrustStores)
    (input : Option QString) (url : QUrl) (open_in_new_tab : Bool) : Outcome TrustStores :=
  if url.scheme == "kristall+ctrl" then
    let is_theme_preview := s.current_mime.is2 "text" "x-kristall-theme"
    if s.is_internal_location || is_theme_preview then
      let opt := url.path
      if !is_theme_preview && opt == "ignore-tls" then
        let response := s.nextAnswer
        let s := s.asked Question.ignoreTls
        if response then
          (s.startRequest env s.current_location RequestOptions.IgnoreTlsErrors
            RequestFlags.None).withValue trust
        else
          Outcome.done trust s
      else if !is_theme_preview && opt == "ignore-tls-safe" then
        (s.startRequest env s.current_location RequestOptions.IgnoreTlsErrors
          RequestFlags.None).withValue trust
      else if !is_theme_preview && opt == "add-fingerprint" then
        s.addFingerprint env trust
      else if opt == "install-theme" then
        if is_theme_preview then
          Outcome.done trust (s.installTheme env input)
        else
          Outcome.done trust s
      else
        Outcome.done trust s
    else
      Outcome.done trust (s.log (Effect.notice Notice.maliciousSite))
  else
    let real_url := if url.isRelative then env.resolved s.current_location url else url
    let support := env.isSchemeSupported real_url.scheme
    if support = ProtocolSupport.Enabled then
      if open_in_new_tab then
        Outcome.done trust (s.log (Effect.addNewTab real_url))
      else
        (s.navigateTo env real_url PushToHistory.PushImmediate RequestFlags.None).withValue trust
    else if env.options.use_os_scheme_handler then
      let opened := env.openUrl url
      let s := s.log (Effect.openUrl url opened)
      if !opened then
        Outcome.done trust (s.log (Effect.notice (Notice.urlHandlerFailed real_url)))
      else
        Outcome.done trust s
    else if support = ProtocolSupport.Disabled then
      Outcome.done trust (s.log (Effect.notice (Notice.schemeDisabled real_url)))
    else
      Outcome.done trust (s.log (Effect.notice (Notice.schemeUnprocessable real_url)))

end BrowserTab

/-- The control link of the action `add-fingerprint`. -/
def fingerprintLink : QUrl :=
  { scheme := "kristall+ctrl", host := "", port := -1, path := "add-fingerprint", query := "",
    fragment := "" }

/-- Two trust stores without a pinned host. -/
def sampleTrust : TrustStores :=
  { gemini := emptyStore TrustLevel.TrustOnFirstUse, https := emptyStore TrustLevel.TrustOnFirstUse }

/-- The sample tab on an internal page, as on the error page of an untrusted
host, with the certificate of the server at hand. -/
def sampleInternal (answers : List Bool) : BrowserTab :=
  { sampleNavigated with
    is_internal_location := true
    current_server_certificate := sampleCert
    pending_answers := answers }

/-! ### Samples for the identity policy with an adapter that refuses -/

/-- Whether an effect is a question to keep the certificate, with any answer. -/
def Effect.isKeepQuestion : Effect → Bool
  | Effect.question q _ => q.isKeepCertificate
  | _ => false

/-- An environment in which no adapter takes a client certificate:
`enableClientCertificate` of every adapter returns false. -/
def certificateRefusingEnv : Env :=
  { sampleEnv 3 WarnNever with handlerEnableClientCertificate := fun _ _ => false }

/-- The sample tab with a valid identity on `example.org`, where the user
answers the next question with Yes. -/
def sampleIdentifiedAccepting : BrowserTab :=
  { sampleIdentified with current_location := geminiUrl "example.org" "/", pending_answers := [true] }

/-! ### Samples for a cache without capacity -/

/-- Settings with a cache of no entries and no slack. -/
def zeroCacheOptions : GenericSettings :=
  { cache_limit := 0, cache_threshold := 0, cache_life := 1, cache_unlimited_life := false }

/-- Settings with a cache of three entries and a slack of minus two. -/
def negativeSlackOptions : GenericSettings :=
  { cache_limit := 3, cache_threshold := -2, cache_life := 1, cache_unlimited_life := false }

/-! ## The other methods of the tab (`browsertab.cpp`) -/

/-- The method `QString::contains` for a text that is not empty. -/
def containsText (text part : QString) : Bool := decide ((text.splitOn part).length > 1)

/-- The test `startsWith("http", Qt::CaseInsensitive)`. -/
def startsWithHttp (text : QString) : Bool := (text.map Char.toLower).startsWith "http"

/-- The entries that `on_text_browser_customContextMenuRequested` can put into
its menu. -/
inductive MenuAction where
  | openInNewTab
  | openExternal
  | followLink
  | copyLink
  | back
  | forward
  | stop
  | refresh
  | copyToClipboard
  | selectAll
  | viewSource
  deriving DecidableEq, Repr, Inhabited

namespace BrowserTab

/-- The method `BrowserTab::navigateBack`, with the row of the index; a row
below zero is the invalid index. -/
def navigateBack (s : BrowserTab) (env : Env) (history_index : Int) : Outcome Unit :=
  let url := env.historyGet s.history history_index
  if env.isValid url then
    let s := { s with current_history_index := history_index }
    (s.navigateTo env url PushToHistory.DontPush { NavigatedBackOrForward := true }).unit
  else
    Outcome.done () s

/-- The method `BrowserTab::navOneBackward`. -/
def navOneBackward (s : BrowserTab) (env : Env) : Outcome Unit :=
  s.navigateBack env (env.historyOneBackward s.history s.current_history_index)

/-- The method `BrowserTab::navOneForward`. -/
def navOneForward (s : BrowserTab) (env : Env) : Outcome Unit :=
  s.navigateBack env (env.historyOneForward s.history s.current_history_index)

/-- The method `BrowserTab::navigateToRoot`. -/
def navigateToRoot (s : BrowserTab) (env : Env) : Outcome Unit :=
  if s.current_location.scheme == "about" then
    Outcome.done () s
  else
    let url := s.current_location.setPath "/"
    (s.navigateTo env url PushToHistory.PushImmediate RequestFlags.None).unit

/-- The method `BrowserTab::navigateToParent`. -/
def navigateToParent (s : BrowserTab) (env : Env) : Outcome Unit :=
  if s.current_location.scheme == "about" then
    Outcome.done () s
  else
    let url := s.current_location
    let url := if !url.path.endsWith "/" then url.setPath (url.path ++ "/") else url
    let url := env.resolved url (env.parseUrl "..")
    (s.navigateTo env url PushToHistory.PushImmediate RequestFlags.None).unit

/-- The method `BrowserTab::scrollToAnchor`, which moves the view of the text
browser. -/
def scrollToAnchor (s : BrowserTab) (env : Env) (anchor : QString) : BrowserTab :=
  { s with scroll_bar := env.anchorScroll anchor s.scroll_bar }

/-- The method `BrowserTab::reloadPage`. -/
def reloadPage (s : BrowserTab) (env : Env) : Outcome Unit :=
  if env.isValid s.current_location then
    (s.navigateTo env s.current_location PushToHistory.DontPush { DontReadFromCache := true }).unit
  else
    Outcome.done () s

/-- The method `BrowserTab::on_url_bar_returnPressed`; `text` is what the URL
bar holds. -/
def on_url_bar_returnPressed (s : BrowserTab) (env : Env) (text : QString) : Outcome Unit :=
  let urltext := env.trimmed text
  let urltext :=
    if urltext.startsWith "file://~" then "file://" ++ env.homePath ++ urltext.drop 8
    else urltext
  let url := env.parseUrl urltext
  let target : Option QUrl :=
    if url.scheme.isEmpty then
      let url := env.parseUrl ("internal://" ++ text)
      if env.isValid url && containsText url.host "." then
        some (env.parseUrl ("gemini://" ++ urltext))
      else if env.options.search_engine.isEmpty
          || !containsText env.options.search_engine "%1" then
        none
      else
        some (env.parseUrl (env.arg env.options.search_engine text))
    else
      some url
  match target with
  | none => Outcome.done () (s.log (Effect.notice Notice.noSearchEngine))
  | some url => (s.navigateTo env url PushToHistory.PushImmediate RequestFlags.None).unit

/-- The method `BrowserTab::on_url_bar_escapePressed`. -/
def on_url_bar_escapePressed (s : BrowserTab) : BrowserTab :=
  s.setUrlBarText s.current_location

/-- The method `BrowserTab::on_refresh_button_clicked`. -/
def on_refresh_button_clicked (s : BrowserTab) (env : Env) : Outcome Unit := s.reloadPage env

/-- The method `BrowserTab::on_root_button_clicked`. -/
def on_root_button_clicked (s : BrowserTab) (env : Env) : Outcome Unit := s.navigateToRoot env

/-- The method `BrowserTab::on_parent_button_clicked`. -/
def on_parent_button_clicked (s : BrowserTab) (env : Env) : Outcome Unit :=
  s.navigateToParent env

/-- The method `BrowserTab::on_home_button_clicked`. -/
def on_home_button_clicked (s : BrowserTab) (env : Env) : Outcome Unit :=
  (s.navigateTo env (env.parseUrl env.options.start_page) PushToHistory.PushImmediate
    RequestFlags.None).unit

/-- The method `BrowserTab::on_back_button_clicked`. -/
def on_back_button_clicked (s : BrowserTab) (env : Env) : Outcome Unit := s.navOneBackward env

/-- The method `BrowserTab::on_forward_button_clicked`. -/
def on_forward_button_clicked (s : BrowserTab) (env : Env) : Outcome Unit := s.navOneForward env

/-- The method `BrowserTab::trySetClientCertificate`; `selection` is the
identity of the selection dialog when it was accepted. -/
def trySetClientCertificate (s : BrowserTab) (query : QString)
    (selection : Option CryptoIdentity) : Bool × BrowserTab :=
  match selection with
  | none => (false, (s.log (Effect.certificateDialog query false)).disableClientCertificate)
  | some ident => (s.log (Effect.certificateDialog query true)).enableClientCertificate ident

/-- The method `BrowserTab::resetClientCertificate`. -/
def resetClientCertificate (s : BrowserTab) : BrowserTab :=
  if s.current_identity.isValid && !s.current_identity.is_persistent then
    let respo := s.nextAnswer
    let s := s.asked Question.transientSession
    if !respo then s else s.disableClientCertificate
  else
    s.disableClientCertificate

/-- The method `BrowserTab::on_enable_client_cert_button_clicked`. -/
def on_enable_client_cert_button_clicked (s : BrowserTab) (checked : Bool)
    (selection : Option CryptoIdentity) : BrowserTab :=
  if checked then (s.trySetClientCertificate "" selection).2 else s.resetClientCertificate

/-- The method `BrowserTab::on_certificateRequired`. -/
def on_certificateRequired (s : BrowserTab) (env : Env) (selection : Option CryptoIdentity)
    (reason : QString) : Outcome Unit :=
  let s := { s with network_timeout_timer := none }
  let r := s.trySetClientCertificate reason selection
  if !r.1 then
    Outcome.done () (r.2.setErrorMessage env (ErrorMessage.certificateRequired reason)).updateUI
  else
    match r.2.navigateTo env r.2.current_location PushToHistory.DontPush RequestFlags.None with
    | Outcome.done _ t => Outcome.done () t.updateUI
    | Outcome.aborted t => Outcome.aborted t

/-- The method `BrowserTab::rerenderPage`. -/
def rerenderPage (s : BrowserTab) (env : Env) : BrowserTab :=
  let scroll := s.scroll_bar
  let s := s.renderPage env s.current_buffer s.current_mime
  { s with scroll_bar := scroll }

/-- The method `BrowserTab::addProtocolHandler`. -/
def addProtocolHandler (s : BrowserTab) (handler : ProtocolHandler) : BrowserTab :=
  { s with protocol_handlers := s.protocol_handlers ++ [handler] }

/-- The method `BrowserTab::on_text_browser_customContextMenuRequested`. The
arguments are the anchor at the position, whether the text cursor has a
selection, and the entry that the user triggers in the menu, if any; an entry
that the menu does not hold or that is disabled has no effect. -/
def on_text_browser_customContextMenuRequested (s : BrowserTab) (env : Env) (anchor : QString)
    (has_selection : Bool) (choice : Option MenuAction) : Outcome Unit :=
  let real_url :=
    if (env.parseUrl anchor).isRelative then env.resolved s.current_location (env.parseUrl anchor)
    else env.parseUrl anchor
  let in_progress :=
    match s.current_handler with
    | some handler => env.handlerIsInProgress handler
    | none => false
  match choice with
  | some MenuAction.openInNewTab =>
    if !anchor.isEmpty then Outcome.done () (s.log (Effect.addNewTab real_url))
    else Outcome.done () s
  | some MenuAction.openExternal =>
    if !anchor.isEmpty && startsWithHttp real_url.scheme then
      let opened := env.openUrl real_url
      let s := s.log (Effect.openUrl real_url opened)
      if !opened then
        Outcome.done () (s.log (Effect.notice (Notice.urlHandlerFailed real_url)))
      else
        Outcome.done () s
    else
      Outcome.done () s
  | some MenuAction.followLink =>
    if !anchor.isEmpty then
      (s.navigateTo env real_url PushToHistory.PushImmediate RequestFlags.None).unit
    else
      Outcome.done () s
  | some MenuAction.back =>
    if !has_selection
        && decide (0 ≤ env.historyOneBackward s.history s.current_history_index) then
      s.on_back_button_clicked env
    else
      Outcome.done () s
  | some MenuAction.forward =>
    if !has_selection
        && decide (0 ≤ env.historyOneForward s.history s.current_history_index) then
      s.on_forward_button_clicked env
    else
      Outcome.done () s
  | some MenuAction.stop =>
    if !has_selection && in_progress then Outcome.done () (s.on_stop_button_clicked env)
    else Outcome.done () s
  | some MenuAction.refresh =>
    if !has_selection && !in_progress then s.on_refresh_button_clicked env
    else Outcome.done () s
  | _ => Outcome.done () s

end BrowserTab
/-! ## The tab as a transition system -/

/-- The methods of `BrowserTab` that read and write only widgets, settings of
the look, and members and globals that are no part of the model (`page_title`,
`no_url_style`, `current_document`, `request_state`, `kristall::favourites`),
and the three signals of the favourites popup and the signal
`requestStateChange` that the constructor and `addProtocolHandler` connect to
lambdas. -/
inductive WidgetCall where
  | focusUrlBar
  | focusSearchBar
  | openSourceView
  | on_url_bar_focused
  | on_url_bar_blurred
  | on_focusSearchbar
  | updatePageTitle
  | showFavouritesPopup
  | on_fav_button_clicked
  | on_text_browser_highlighted
  | updateUrlBarStyle
  | setUiDensity
  | updatePageMargins
  | refreshOptionalToolbarItems
  | refreshToolbarIcons
  | updateMouseCursor
  | searchBoxFind
  | on_search_box_textChanged
  | on_search_box_returnPressed
  | on_search_next_clicked
  | on_search_previous_clicked
  | on_close_search_clicked
  | resizeEvent
  | unfavourited
  | newGroupClicked
  | currentIndexChanged
  | requestStateChange
  deriving DecidableEq, Repr, Inhabited

/-- What can happen to a tab: a call of any method that `browsertab.cpp`
defines, with the arguments of the call and with what the dialogs of the call
end with, and two steps of the user, who decides the answers to the coming
question dialogs and moves the scroll bar. A call of a method of `WidgetCall`
can move the view of the text browser (a search, a new layout), so its event
carries the value of the scroll bar after the call. -/
inductive Event where
  | navigateTo (url : QUrl) (mode : PushToHistory) (flags : RequestFlags)
  | navigateBack (history_index : Int)
  | navOneBackward
  | navOneForward
  | navigateToRoot
  | navigateToParent
  | scrollToAnchor (anchor : QString)
  | reloadPage
  | on_url_bar_returnPressed (text : QString)
  | on_url_bar_escapePressed
  | on_refresh_button_clicked
  | on_root_button_clicked
  | on_parent_button_clicked
  | on_networkError (error_code : NetworkError) (reason : QString)
  | on_networkTimeout
  | on_certificateRequired (selection : Option CryptoIdentity) (reason : QString)
  | on_hostCertificateLoaded (cert : QSslCertificate)
  | on_requestCompleteText (data : QByteArray) (mime_text : QString)
  | on_requestComplete (data : QByteArray) (mime : MimeType)
  | renderPage (data : QByteArray) (mime : MimeType)
  | rerenderPage
  | on_inputRequired (inputs : List (Option QString)) (query : QString) (is_sensitive : Bool)
  | on_redirected (uri : QUrl) (is_permanent : Bool)
  | setErrorMessage (msg : ErrorMessage)
  | pushToHistory (url : QUrl)
  | on_text_browser_anchorClicked (trust : TrustStores) (input : Option QString) (url : QUrl)
      (open_in_new_tab : Bool)
  | on_stop_button_clicked
  | on_home_button_clicked
  | on_requestProgress (transferred : Nat)
  | on_back_button_clicked
  | on_forward_button_clicked
  | updateUI
  | refreshFavButton
  | setUrlBarText (url : QUrl)
  | trySetClientCertificate (query : QString) (selection : Option CryptoIdentity)
  | resetClientCertificate
  | addProtocolHandler (handler : ProtocolHandler)
  | startRequest (url : QUrl) (options : RequestOptions) (flags : RequestFlags)
  | enableClientCertificate (ident : CryptoIdentity)
  | disableClientCertificate
  | on_text_browser_customContextMenuRequested (anchor : QString) (has_selection : Bool)
      (choice : Option MenuAction)
  | on_enable_client_cert_button_clicked (checked : Bool) (selection : Option CryptoIdentity)
  | widget (call : WidgetCall) (scroll_bar : Int)
  | userAnswers (answers : List Bool)
  | scrolled (value : Int)

/-- The events whose method calls `navigateTo`, itself or through another
method. -/
def Event.callsNavigateTo : Event → Bool
  | Event.navigateTo _ _ _ => true
  | Event.navigateBack _ => true
  | Event.navOneBackward => true
  | Event.navOneForward => true
  | Event.navigateToRoot => true
  | Event.navigateToParent => true
  | Event.reloadPage => true
  | Event.on_url_bar_returnPressed _ => true
  | Event.on_refresh_button_clicked => true
  | Event.on_root_button_clicked => true
  | Event.on_parent_button_clicked => true
  | Event.on_certificateRequired _ _ => true
  | Event.on_inputRequired _ _ _ => true
  | Event.on_text_browser_anchorClicked _ _ _ _ => true
  | Event.on_home_button_clicked => true
  | Event.on_back_button_clicked => true
  | Event.on_forward_button_clicked => true
  | Event.on_text_browser_customContextMenuRequested _ _ _ => true
  | _ => false

/-- One event handled by the tab. -/
def BrowserTab.step (s : BrowserTab) (env : Env) : Event → Outcome Unit
  | Event.navigateTo url mode flags => (s.navigateTo env url mode flags).unit
  | Event.navigateBack history_index => s.navigateBack env history_index
  | Event.navOneBackward => s.navOneBackward env
  | Event.navOneForward => s.navOneForward env
  | Event.navigateToRoot => s.navigateToRoot env
  | Event.navigateToParent => s.navigateToParent env
  | Event.scrollToAnchor anchor => Outcome.done () (s.scrollToAnchor env anchor)
  | Event.reloadPage => s.reloadPage env
  | Event.on_url_bar_returnPressed text => s.on_url_bar_returnPressed env text
  | Event.on_url_bar_escapePressed => Outcome.done () s.on_url_bar_escapePressed
  | Event.on_refresh_button_clicked => s.on_refresh_button_clicked env
  | Event.on_root_button_clicked => s.on_root_button_clicked env
  | Event.on_parent_button_clicked => s.on_parent_button_clicked env
  | Event.on_networkError error_code reason => s.on_networkError env error_code reason
  | Event.on_networkTimeout => s.on_networkTimeout env
  | Event.on_certificateRequired selection reason => s.on_certificateRequired env selection reason
  | Event.on_hostCertificateLoaded cert => Outcome.done () (s.on_hostCertificateLoaded cert)
  | Event.on_requestCompleteText data mime_text =>
    Outcome.done () (s.on_requestCompleteText env data mime_text)
  | Event.on_requestComplete data mime => Outcome.done () (s.on_requestComplete env data mime)
  | Event.renderPage data mime => Outcome.done () (s.renderPage env data mime)
  | Event.rerenderPage => Outcome.done () (s.rerenderPage env)
  | Event.on_inputRequired inputs query is_sensitive =>
    (s.on_inputRequired env inputs query is_sensitive).unit
  | Event.on_redirected uri is_permanent => (s.on_redirected env uri is_permanent).unit
  | Event.setErrorMessage msg => Outcome.done () (s.setErrorMessage env msg)
  | Event.pushToHistory url => Outcome.done () (s.pushToHistory url)
  | Event.on_text_browser_anchorClicked trust input url open_in_new_tab =>
    (s.on_text_browser_anchorClicked env trust input url open_in_new_tab).unit
  | Event.on_stop_button_clicked => Outcome.done () (s.on_stop_button_clicked env)
  | Event.on_home_button_clicked => s.on_home_button_clicked env
  | Event.on_requestProgress transferred => Outcome.done () (s.on_requestProgress env transferred)
  | Event.on_back_button_clicked => s.on_back_button_clicked env
  | Event.on_forward_button_clicked => s.on_forward_button_clicked env
  | Event.updateUI => Outcome.done () s.updateUI
  | Event.refreshFavButton => Outcome.done () s.refreshFavButton
  | Event.setUrlBarText url => Outcome.done () (s.setUrlBarText url)
  | Event.trySetClientCertificate query selection =>
    Outcome.done () (s.trySetClientCertificate query selection).2
  | Event.resetClientCertificate => Outcome.done () s.resetClientCertificate
  | Event.addProtocolHandler handler => Outcome.done () (s.addProtocolHandler handler)
  | Event.startRequest url options flags => (s.startRequest env url options flags).unit
  | Event.enableClientCertificate ident => Outcome.done () (s.enableClientCertificate ident).2
  | Event.disableClientCertificate => Outcome.done () s.disableClientCertificate
  | Event.on_text_browser_customContextMenuRequested anchor has_selection choice =>
    s.on_text_browser_customContextMenuRequested env anchor has_selection choice
  | Event.on_enable_client_cert_button_clicked checked selection =>
    Outcome.done () (s.on_enable_client_cert_button_clicked checked selection)
  | Event.widget _ scroll_bar => Outcome.done () { s with scroll_bar := scroll_bar }
  | Event.userAnswers answers => Outcome.done () { s with pending_answers := answers }
  | Event.scrolled value => Outcome.done () { s with scroll_bar := value }

/-- The states a tab can be in while the setting `max_redirections` stays at
`limit`: the state after the constructor, and every state in which the handling
of an event ends. -/
inductive Reachable (limit : Int) : BrowserTab → Prop where
  | init (protocol_handlers : List ProtocolHandler) :
    Reachable limit (BrowserTab.init protocol_handlers)
  | step (s t : BrowserTab) (env : Env) (ev : Event) :
    Reachable limit s → env.options.max_redirections = limit →
    s.step env ev = Outcome.done () t → Reachable limit t

/-- The sample tab after the redirect and an input request whose dialog is
left. -/
def sampleAsked : BrowserTab :=
  (sampleRedirected.on_inputRequired (sampleEnv 3 WarnOnHostChange) [none] "name?" false).tab

/-- The sample tab after a click on a link of the page that followed. -/
def sampleClicked : BrowserTab :=
  (sampleAsked.on_text_browser_anchorClicked (sampleEnv 3 WarnOnHostChange) sampleTrust none
    (geminiUrl "example.org" "/b") false).tab

/-! # Theorems -/

/-! ### Lemmas on the host collection -/

theorem TrustedHostCollection.get_eq_none_iff (c : TrustedHostCollection) (name : QString) :
    c.get name = none ↔ ∀ h ∈ c.items, h.host_name ≠ name := by
  simp [TrustedHostCollection.get, List.find?_eq_none]

theorem TrustedHostCollection.get_some_mem {c : TrustedHostCollection} {name : QString}
    {h : TrustedHost} (hg : c.get name = some h) : h ∈ c.items ∧ h.host_name = name := by
  unfold TrustedHostCollection.get at hg
  have h1 := List.mem_of_find?_eq_some hg
  have h2 := List.find?_some hg
  exact ⟨h1, by simpa using h2⟩

theorem TrustedHostCollection.insert_of_get_none (c : TrustedHostCollection) (host : TrustedHost)
    (hg : c.get host.host_name = none) :
    c.insert host = (true, { items := c.items ++ [host] }) := by
  have hn := (TrustedHostCollection.get_eq_none_iff c host.host_name).1 hg
  unfold TrustedHostCollection.insert
  have : c.items.any (fun h => h.host_name == host.host_name) = false := by
    simp only [List.any_eq_false]
    intro x hx
    simpa using hn x hx
  simp [this]

theorem TrustedHostCollection.get_append_self (c : TrustedHostCollection) (host : TrustedHost)
    (hg : c.get host.host_name = none) :
    TrustedHostCollection.get { items := c.items ++ [host] } host.host_name = some host := by
  unfold TrustedHostCollection.get at *
  simp [List.find?_append, hg]

theorem TrustedHostCollection.unique_append (c : TrustedHostCollection) (host : TrustedHost)
    (hu : c.Unique) (hg : c.get host.host_name = none) :
    TrustedHostCollection.Unique { items := c.items ++ [host] } := by
  have hn := (TrustedHostCollection.get_eq_none_iff c host.host_name).1 hg
  unfold TrustedHostCollection.Unique at *
  simp only [List.map_append, List.map_cons, List.map_nil]
  refine List.Nodup.append hu (List.nodup_singleton _) ?_
  intro a ha hb
  obtain ⟨x, hx, rfl⟩ := List.mem_map.1 ha
  exact hn x hx (by simpa using hb)

theorem TrustedHostCollection.get_append_of_some {c : TrustedHostCollection} {name : QString}
    {e : TrustedHost} (extra : List TrustedHost) (hg : c.get name = some e) :
    TrustedHostCollection.get { items := c.items ++ extra } name = some e := by
  unfold TrustedHostCollection.get at *
  simp [List.find?_append, hg]

/-! ### Closed forms of the two store operations -/

theorem SslTrust.getTrust_pin {t : SslTrust} (now : QDateTime) {url : QUrl}
    {certificate : QSslCertificate} (hc : certificate.isNull = false)
    (hl : t.trust_level = TrustLevel.TrustOnFirstUse) (hg : t.trusted_hosts.get url.host = none) :
    t.getTrust now url certificate =
      some (TrustStatus.Trusted,
        { t with trusted_hosts := { items := t.trusted_hosts.items ++ [newPin now url certificate] } }) := by
  have hi := TrustedHostCollection.insert_of_get_none t.trusted_hosts (newPin now url certificate) hg
  simp only [newPin] at hi
  simp [SslTrust.getTrust, hc, hl, hg, hi, newPin]

theorem SslTrust.getTrust_known {t : SslTrust} (now : QDateTime) {url : QUrl}
    {certificate : QSslCertificate} {e : TrustedHost} (hc : certificate.isNull = false)
    (hl : t.trust_level ≠ TrustLevel.TrustEverything) (hg : t.trusted_hosts.get url.host = some e) :
    t.getTrust now url certificate =
      some (if e.public_key = certificate.publicKey then TrustStatus.Trusted
        else TrustStatus.Mistrusted, t) := by
  by_cases hk : e.public_key = certificate.publicKey <;>
    simp [SslTrust.getTrust, hc, hl, hg, hk]

theorem SslTrust.addTrust_closed (t : SslTrust) (now : QDateTime) (url : QUrl)
    (certificate : QSslCertificate) :
    t.addTrust now url certificate =
      if certificate.isNull = true ∨ (t.trusted_hosts.get url.host).isSome = true then
        some (false, t)
      else
        some (true,
          { t with trusted_hosts := { items := t.trusted_hosts.items ++ [newPin now url certificate] } }) := by
  by_cases hc : certificate.isNull = true
  · simp [SslTrust.addTrust, hc]
  · cases hg : t.trusted_hosts.get url.host with
    | some e => simp [SslTrust.addTrust, hc, hg]
    | none =>
      have hi := TrustedHostCollection.insert_of_get_none t.trusted_hosts (newPin now url certificate) hg
      simp only [newPin] at hi
      simp [SslTrust.addTrust, hc, hg, hi, newPin]

theorem SslTrust.getTrust_cases (t : SslTrust) (now : QDateTime) (url : QUrl)
    (certificate : QSslCertificate) :
    (∃ r, t.getTrust now url certificate = some (r, t)) ∨
    (t.trusted_hosts.get url.host = none ∧
      t.getTrust now url certificate =
        some (TrustStatus.Trusted,
          { t with trusted_hosts := { items := t.trusted_hosts.items ++ [newPin now url certificate] } })) := by
  by_cases hc : certificate.isNull = true
  · exact Or.inl ⟨TrustStatus.Untrusted, by simp [SslTrust.getTrust, hc]⟩
  · by_cases hl : t.trust_level = TrustLevel.TrustEverything
    · exact Or.inl ⟨TrustStatus.Trusted, by simp [SslTrust.getTrust, hc, hl]⟩
    · cases hg : t.trusted_hosts.get url.host with
      | some e => exact Or.inl ⟨_, SslTrust.getTrust_known now (by simpa using hc) hl hg⟩
      | none =>
        by_cases hf : t.trust_level = TrustLevel.TrustOnFirstUse
        · exact Or.inr ⟨rfl, SslTrust.getTrust_pin now (by simpa using hc) hf hg⟩
        · exact Or.inl ⟨TrustStatus.Untrusted, by simp [SslTrust.getTrust, hc, hl, hg, hf]⟩

/-! ### Claims on the trust store -/

/-- C1: under `TrustOnFirstUse`, the first `getTrust` for a host without an
entry and a non-null certificate returns `Trusted` and leaves an entry for that
host with the certificate's key; a later call for the host with the same key
returns `Trusted`, and one with any other key returns `Mistrusted`. -/
theorem C1_tofu_pinning (t : SslTrust) (now now2 now3 : QDateTime) (url url2 url3 : QUrl)
    (cert cert2 cert3 : QSslCertificate)
    (hlevel : t.trust_level = TrustLevel.TrustOnFirstUse)
    (hfresh : t.trusted_hosts.get url.host = none)
    (hcert : cert.isNull = false)
    (hurl2 : url2.host = url.host) (hcert2 : cert2.isNull = false)
    (hkey2 : cert2.publicKey = cert.publicKey)
    (hurl3 : url3.host = url.host) (hcert3 : cert3.isNull = false)
    (hkey3 : cert3.publicKey ≠ cert.publicKey) :
    ∃ t1 : SslTrust,
      t.getTrust now url cert = some (TrustStatus.Trusted, t1) ∧
      (∃ e, t1.trusted_hosts.get url.host = some e ∧ e ∈ t1.trusted_hosts.items ∧
        e.host_name = url.host ∧ e.public_key = cert.publicKey) ∧
      t1.getTrust now2 url2 cert2 = some (TrustStatus.Trusted, t1) ∧
      t1.getTrust now3 url3 cert3 = some (TrustStatus.Mistrusted, t1) := by
  refine ⟨_, SslTrust.getTrust_pin now hcert hlevel hfresh, ?_, ?_, ?_⟩
  · have hg := TrustedHostCollection.get_append_self t.trusted_hosts (newPin now url cert) hfresh
    exact ⟨newPin now url cert, hg, by simp, rfl, rfl⟩
  · have hg := TrustedHostCollection.get_append_self t.trusted_hosts (newPin now url cert) hfresh
    rw [SslTrust.getTrust_known now2 hcert2 (by simp [hlevel]) (by rw [hurl2]; exact hg)]
    simp [newPin, hkey2]
  · have hg := TrustedHostCollection.get_append_self t.trusted_hosts (newPin now url cert) hfresh
    rw [SslTrust.getTrust_known now3 hcert3 (by simp [hlevel]) (by rw [hurl3]; exact hg)]
    have : ¬ cert.publicKey = cert3.publicKey := fun h => hkey3 h.symm
    simp [newPin, this]

theorem C1_tofu_pinning_witness :
    ∃ t1 : SslTrust,
      (emptyStore TrustLevel.TrustOnFirstUse).getTrust 5 sampleUrl sampleCert
        = some (TrustStatus.Trusted, t1) ∧
      (∃ e, t1.trusted_hosts.get sampleUrl.host = some e ∧ e ∈ t1.trusted_hosts.items ∧
        e.host_name = sampleUrl.host ∧ e.public_key = sampleCert.publicKey) ∧
      t1.getTrust 6 sampleUrl sampleCert = some (TrustStatus.Trusted, t1) ∧
      t1.getTrust 7 sampleUrl otherCert = some (TrustStatus.Mistrusted, t1) :=
  C1_tofu_pinning (emptyStore TrustLevel.TrustOnFirstUse) 5 6 7 sampleUrl sampleUrl sampleUrl
    sampleCert sampleCert otherCert rfl rfl rfl rfl rfl rfl rfl rfl (by decide)

/-- C2: `getTrust` and `addTrust` always return, and every entry of the store
before the call is still there afterwards, unchanged and found under the same
host name; when `getTrust` returns `Mistrusted` the store is exactly the one
before the call. -/
theorem C2_no_silent_repinning (t : SslTrust) (now : QDateTime) (url : QUrl)
    (cert : QSslCertificate) :
    (∃ r t1, t.getTrust now url cert = some (r, t1) ∧
      t.trusted_hosts.items <+: t1.trusted_hosts.items ∧
      (∀ e ∈ t.trusted_hosts.items, e ∈ t1.trusted_hosts.items) ∧
      (∀ name e, t.trusted_hosts.get name = some e → t1.trusted_hosts.get name = some e) ∧
      (r = TrustStatus.Mistrusted → t1 = t)) ∧
    (∃ b t1, t.addTrust now url cert = some (b, t1) ∧
      t.trusted_hosts.items <+: t1.trusted_hosts.items ∧
      (∀ e ∈ t.trusted_hosts.items, e ∈ t1.trusted_hosts.items) ∧
      (∀ name e, t.trusted_hosts.get name = some e → t1.trusted_hosts.get name = some e)) := by
  constructor
  · rcases SslTrust.getTrust_cases t now url cert with ⟨r, hr⟩ | ⟨_, hr⟩
    · exact ⟨r, t, hr, List.prefix_refl _, fun e he => he, fun _ _ h => h, fun _ => rfl⟩
    · refine ⟨_, _, hr, List.prefix_append _ _, ?_, ?_, ?_⟩
      · intro e he
        simp [he]
      · intro name e he
        exact TrustedHostCollection.get_append_of_some _ he
      · intro h
        cases h
  · rw [SslTrust.addTrust_closed]
    split
    · exact ⟨false, t, rfl, List.prefix_refl _, fun e he => he, fun _ _ h => h⟩
    · refine ⟨true, _, rfl, List.prefix_append _ _, ?_, ?_⟩
      · intro e he
        simp [he]
      · intro name e he
        exact TrustedHostCollection.get_append_of_some _ he

/-- C3: `addTrust` returns false and leaves the store as it is when the
certificate is null or the host already has an entry, whatever its key;
otherwise it returns true and the store is the old one followed by one new
entry for `url.host()` with the certificate's public key. -/
theorem C3_addTrust (t : SslTrust) (now : QDateTime) (url : QUrl) (cert : QSslCertificate) :
    t.addTrust now url cert =
      if cert.isNull = true ∨ (t.trusted_hosts.get url.host).isSome = true then
        some (false, t)
      else
        some (true,
          { t with trusted_hosts :=
              { items := t.trusted_hosts.items ++
                  [{ host_name := url.host, trusted_at := now, public_key := cert.publicKey }] } }) :=
  SslTrust.addTrust_closed t now url cert

/-- C4: if no two entries of the store share a host name, the same holds
after `getTrust` and after `addTrust`, for every URL, certificate and trust
level; and both calls return, that is, `assert(ok)` never fails. -/
theorem C4_host_name_unique (t : SslTrust) (now : QDateTime) (url : QUrl)
    (cert : QSslCertificate) (hu : t.trusted_hosts.Unique) :
    (∃ r t1, t.getTrust now url cert = some (r, t1) ∧ t1.trusted_hosts.Unique) ∧
    (∃ b t1, t.addTrust now url cert = some (b, t1) ∧ t1.trusted_hosts.Unique) := by
  constructor
  · rcases SslTrust.getTrust_cases t now url cert with ⟨r, hr⟩ | ⟨hg, hr⟩
    · exact ⟨r, t, hr, hu⟩
    · exact ⟨_, _, hr, TrustedHostCollection.unique_append t.trusted_hosts (newPin now url cert) hu hg⟩
  · rw [SslTrust.addTrust_closed]
    split
    · exact ⟨false, t, rfl, hu⟩
    · rename_i h
      have hg : t.trusted_hosts.get url.host = none := by
        cases hh : t.trusted_hosts.get url.host with
        | none => rfl
        | some e => simp [hh] at h
      exact ⟨true, _, rfl, TrustedHostCollection.unique_append t.trusted_hosts (newPin now url cert) hu hg⟩

theorem C4_host_name_unique_witness :
    (∃ r t1, (pinnedStore TrustLevel.TrustOnFirstUse).getTrust 9
        { sampleUrl with host := "other.example" } otherCert = some (r, t1) ∧
      t1.trusted_hosts.Unique) ∧
    (∃ b t1, (pinnedStore TrustLevel.TrustOnFirstUse).addTrust 9
        { sampleUrl with host := "other.example" } otherCert = some (b, t1) ∧
      t1.trusted_hosts.Unique) :=
  C4_host_name_unique (pinnedStore TrustLevel.TrustOnFirstUse) 9
    { sampleUrl with host := "other.example" } otherCert
    (by simp [TrustedHostCollection.Unique, pinnedStore])

/-- C5: with a null certificate `getTrust` returns `Untrusted` and leaves the
store as it is, for every store, trust level and URL; so `isTrusted` is false. -/
theorem C5_null_certificate (t : SslTrust) (now : QDateTime) (url : QUrl)
    (cert : QSslCertificate) (hnull : cert.isNull = true) :
    t.getTrust now url cert = some (TrustStatus.Untrusted, t) ∧
    t.isTrusted now url cert = some (false, t) := by
  have h : t.getTrust now url cert = some (TrustStatus.Untrusted, t) := by
    simp [SslTrust.getTrust, hnull]
  exact ⟨h, by simp [SslTrust.isTrusted, h]⟩

theorem C5_null_certificate_witness :
    (pinnedStore TrustLevel.TrustEverything).getTrust 3 sampleUrl QSslCertificate.null
      = some (TrustStatus.Untrusted, pinnedStore TrustLevel.TrustEverything) ∧
    (pinnedStore TrustLevel.TrustEverything).isTrusted 3 sampleUrl QSslCertificate.null
      = some (false, pinnedStore TrustLevel.TrustEverything) :=
  C5_null_certificate (pinnedStore TrustLevel.TrustEverything) 3 sampleUrl QSslCertificate.null rfl

/-- C6: under `TrustEverything`, `getTrust` returns `Trusted` for every URL
and every non-null certificate, whatever the store holds for the host, and the
store is left as it is. -/
theorem C6_trust_everything (t : SslTrust) (now : QDateTime) (url : QUrl)
    (cert : QSslCertificate) (hlevel : t.trust_level = TrustLevel.TrustEverything)
    (hcert : cert.isNull = false) :
    t.getTrust now url cert = some (TrustStatus.Trusted, t) := by
  simp [SslTrust.getTrust, hcert, hlevel]

theorem C6_trust_everything_witness :
    (pinnedStore TrustLevel.TrustEverything).getTrust 3 sampleUrl otherCert
      = some (TrustStatus.Trusted, pinnedStore TrustLevel.TrustEverything) :=
  C6_trust_everything (pinnedStore TrustLevel.TrustEverything) 3 sampleUrl otherCert rfl rfl

/-- C7: under `RequireExplicitTrust`, for a host without an entry and a
non-null certificate, `getTrust` returns `Untrusted` and leaves the store as it
is; `addTrust` for that URL and certificate then succeeds, and after it the same
`getTrust` call returns `Trusted`. -/
theorem C7_require_explicit_trust (t : SslTrust) (now now1 now2 : QDateTime) (url : QUrl)
    (cert : QSslCertificate) (hlevel : t.trust_level = TrustLevel.RequireExplicitTrust)
    (hfresh : t.trusted_hosts.get url.host = none) (hcert : cert.isNull = false) :
    t.getTrust now url cert = some (TrustStatus.Untrusted, t) ∧
    ∃ t1, t.addTrust now1 url cert = some (true, t1) ∧
      t1.getTrust now2 url cert = some (TrustStatus.Trusted, t1) := by
  refine ⟨by simp [SslTrust.getTrust, hcert, hlevel, hfresh], ?_⟩
  refine ⟨{ t with trusted_hosts :=
    { items := t.trusted_hosts.items ++ [newPin now1 url cert] } }, ?_, ?_⟩
  · rw [SslTrust.addTrust_closed]
    simp [hcert, hfresh]
  · have hg := TrustedHostCollection.get_append_self t.trusted_hosts (newPin now1 url cert) hfresh
    rw [SslTrust.getTrust_known now2 hcert (by simp [hlevel]) hg]
    simp [newPin]

theorem C7_require_explicit_trust_witness :
    (emptyStore TrustLevel.RequireExplicitTrust).getTrust 1 sampleUrl sampleCert
      = some (TrustStatus.Untrusted, emptyStore TrustLevel.RequireExplicitTrust) ∧
    ∃ t1, (emptyStore TrustLevel.RequireExplicitTrust).addTrust 2 sampleUrl sampleCert
        = some (true, t1) ∧
      t1.getTrust 3 sampleUrl sampleCert = some (TrustStatus.Trusted, t1) :=
  C7_require_explicit_trust (emptyStore TrustLevel.RequireExplicitTrust) 1 2 3 sampleUrl
    sampleCert rfl rfl rfl

/-! ### How the helpers of the tab change the counter and the trace -/

theorem Frame.refl (cls : Effect → Bool) (s : BrowserTab) : Frame cls s s :=
  ⟨rfl, [], by simp, by simp⟩

theorem Frame.trans {cls : Effect → Bool} {s t u : BrowserTab}
    (h1 : Frame cls s t) (h2 : Frame cls t u) : Frame cls s u := by
  obtain ⟨c1, a1, e1, p1⟩ := h1
  obtain ⟨c2, a2, e2, p2⟩ := h2
  refine ⟨c2.trans c1, a1 ++ a2, by rw [e2, e1, List.append_assoc], ?_⟩
  intro e he
  rcases List.mem_append.1 he with h | h
  · exact p1 e h
  · exact p2 e h

theorem Frame.mono {cls cls2 : Effect → Bool} {s t : BrowserTab}
    (hm : ∀ e, cls e = true → cls2 e = true) (h : Frame cls s t) : Frame cls2 s t := by
  obtain ⟨c1, a1, e1, p1⟩ := h
  exact ⟨c1, a1, e1, fun e he => hm e (p1 e he)⟩

/-- A step that touches neither the counter nor the trace. -/
theorem Frame.of_same {cls : Effect → Bool} {s t : BrowserTab}
    (hc : t.redirection_count = s.redirection_count) (ht : t.trace = s.trace) :
    Frame cls s t :=
  ⟨hc, [], by simp [ht], by simp⟩

/-- A step that adds the listed effects. -/
theorem Frame.of_added {cls : Effect → Bool} {s t : BrowserTab} (added : List Effect)
    (hc : t.redirection_count = s.redirection_count) (ht : t.trace = s.trace ++ added)
    (hall : ∀ e ∈ added, cls e = true) : Frame cls s t :=
  ⟨hc, added, ht, hall⟩

theorem Frame.log {cls : Effect → Bool} (s : BrowserTab) (e : Effect) (he : cls e = true) :
    Frame cls s (s.log e) :=
  Frame.of_added [e] rfl rfl (by simpa using he)

theorem Frame.answered {cls : Effect → Bool} (s : BrowserTab) (q : Question) (yes : Bool)
    (rest : List Bool) (he : cls (Effect.question q yes) = true) :
    Frame cls s (s.answered q yes rest) :=
  Frame.of_added [Effect.question q yes] rfl rfl (by simpa using he)

theorem Frame.asked {cls : Effect → Bool} (s : BrowserTab) (q : Question)
    (he : ∀ yes, cls (Effect.question q yes) = true) : Frame cls s (s.asked q) :=
  Frame.answered s q _ _ (he _)

theorem Frame.updateUI {cls : Effect → Bool} (s : BrowserTab) : Frame cls s s.updateUI :=
  Frame.of_same rfl rfl

theorem Frame.disableClientCertificate {cls : Effect → Bool} (s : BrowserTab)
    (he : cls Effect.handlerDisableClientCertificate = true) :
    Frame cls s s.disableClientCertificate :=
  Frame.of_added [Effect.handlerDisableClientCertificate] rfl rfl (by simpa using he)

theorem isDelivery_isDispatch (e : Effect) (h : e.isDelivery = true) : e.isDispatch = true := by
  cases e <;> simp_all [Effect.isDelivery, Effect.isDispatch]
  all_goals (rename_i q _; cases q <;> simp_all [Effect.isDelivery, Effect.isDispatch])

theorem Frame.renderPage (s : BrowserTab) (env : Env) (data : QByteArray) (mime : MimeType) :
    Frame Effect.isDelivery s (s.renderPage env data mime) := by
  unfold BrowserTab.renderPage
  simp only [BrowserTab.log, BrowserTab.updateUI, BrowserTab.refreshFavButton]
  split_ifs
  · exact Frame.of_added [Effect.renderPage data mime, Effect.writePreviewTheme data,
      Effect.locationChanged s.current_location, Effect.cachePush s.current_location]
      rfl (by simp) (by simp [Effect.isDelivery])
  · exact Frame.of_added [Effect.renderPage data mime, Effect.writePreviewTheme data,
      Effect.locationChanged s.current_location]
      rfl (by simp) (by simp [Effect.isDelivery])
  · exact Frame.of_added [Effect.renderPage data mime,
      Effect.locationChanged s.current_location, Effect.cachePush s.current_location]
      rfl (by simp) (by simp [Effect.isDelivery])
  · exact Frame.of_added [Effect.renderPage data mime,
      Effect.locationChanged s.current_location]
      rfl (by simp) (by simp [Effect.isDelivery])

theorem Frame.completeRequest (s : BrowserTab) (env : Env) (data ref_data : QByteArray)
    (mime : MimeType) : Frame Effect.isDelivery s (s.completeRequest env data ref_data mime) := by
  unfold BrowserTab.completeRequest
  refine Frame.trans (t := { s with successfully_loaded := true }) (Frame.of_same rfl rfl) ?_
  exact Frame.trans (Frame.renderPage _ env data mime) (Frame.of_same rfl rfl)

theorem Frame.beginErrorMessage {cls : Effect → Bool} (s : BrowserTab) (msg : ErrorMessage)
    (he : cls (Effect.setErrorMessage msg) = true) : Frame cls s (s.beginErrorMessage msg) :=
  Frame.of_added [Effect.setErrorMessage msg] rfl rfl (by simpa using he)

section Unfolding

attribute [local irreducible] BrowserTab.completeRequest BrowserTab.answered
  BrowserTab.beginErrorMessage BrowserTab.enterRequestComplete BrowserTab.errorPage
  BrowserTab.charsetOf BrowserTab.convertedData BrowserTab.errorMime BrowserTab.updateUI

theorem on_requestCompleteAux_converted (env : Env) (answers : List Bool) (s : BrowserTab)
    (ref_data data : QByteArray) (mime : MimeType)
    (h : BrowserTab.convertedData env ref_data mime = some data) :
    BrowserTab.on_requestCompleteAux env answers s ref_data mime =
      (s.enterRequestComplete ref_data mime).completeRequest env data ref_data mime := by
  unfold BrowserTab.on_requestCompleteAux
  rw [h]

theorem on_requestCompleteAux_nil (env : Env) (s : BrowserTab)
    (ref_data : QByteArray) (mime : MimeType)
    (h : BrowserTab.convertedData env ref_data mime = none) :
    BrowserTab.on_requestCompleteAux env [] s ref_data mime =
      ((s.enterRequestComplete ref_data mime).answered
        (Question.charsetConversionFailed (BrowserTab.charsetOf mime)) true []).completeRequest
          env [] ref_data mime := by
  unfold BrowserTab.on_requestCompleteAux
  rw [h]

theorem on_requestCompleteAux_yes (env : Env) (rest : List Bool) (s : BrowserTab)
    (ref_data : QByteArray) (mime : MimeType)
    (h : BrowserTab.convertedData env ref_data mime = none) :
    BrowserTab.on_requestCompleteAux env (true :: rest) s ref_data mime =
      ((s.enterRequestComplete ref_data mime).answered
        (Question.charsetConversionFailed (BrowserTab.charsetOf mime)) true rest).completeRequest
          env [] ref_data mime := by
  unfold BrowserTab.on_requestCompleteAux
  rw [h]

theorem on_requestCompleteAux_no (env : Env) (rest : List Bool) (s : BrowserTab)
    (ref_data : QByteArray) (mime : MimeType)
    (h : BrowserTab.convertedData env ref_data mime = none) :
    BrowserTab.on_requestCompleteAux env (false :: rest) s ref_data mime =
      BrowserTab.updateUI (BrowserTab.on_requestCompleteAux env rest
        (((s.enterRequestComplete ref_data mime).answered
          (Question.charsetConversionFailed (BrowserTab.charsetOf mime)) false
            rest).beginErrorMessage
              (ErrorMessage.charsetConversionFailed (BrowserTab.charsetOf mime)))
        (BrowserTab.errorPage env (ErrorMessage.charsetConversionFailed (BrowserTab.charsetOf mime)))
        (BrowserTab.errorMime env)) := by
  conv_lhs => unfold BrowserTab.on_requestCompleteAux
  rw [h]

end Unfolding

theorem Frame.enterRequestComplete (s : BrowserTab) (ref_data : QByteArray) (mime : MimeType) :
    Frame Effect.isDelivery s (s.enterRequestComplete ref_data mime) :=
  Frame.of_added [Effect.requestComplete ref_data mime] rfl rfl (by simp [Effect.isDelivery])

theorem Frame.on_requestCompleteAux (env : Env) (answers : List Bool) :
    ∀ (s : BrowserTab) (ref_data : QByteArray) (mime : MimeType),
      Frame Effect.isDelivery s (BrowserTab.on_requestCompleteAux env answers s ref_data mime) := by
  induction answers with
  | nil =>
    intro s ref_data mime
    cases h : BrowserTab.convertedData env ref_data mime with
    | some data =>
      rw [on_requestCompleteAux_converted env _ s ref_data data mime h]
      exact (Frame.enterRequestComplete s ref_data mime).trans (Frame.completeRequest _ env _ _ _)
    | none =>
      rw [on_requestCompleteAux_nil env s ref_data mime h]
      exact (Frame.enterRequestComplete s ref_data mime).trans
        ((Frame.answered _ _ _ _ (by simp [Effect.isDelivery])).trans
          (Frame.completeRequest _ env _ _ _))
  | cons a rest ih =>
    intro s ref_data mime
    cases h : BrowserTab.convertedData env ref_data mime with
    | some data =>
      rw [on_requestCompleteAux_converted env _ s ref_data data mime h]
      exact (Frame.enterRequestComplete s ref_data mime).trans (Frame.completeRequest _ env _ _ _)
    | none =>
      cases a with
      | true =>
        rw [on_requestCompleteAux_yes env rest s ref_data mime h]
        exact (Frame.enterRequestComplete s ref_data mime).trans
          ((Frame.answered _ _ _ _ (by simp [Effect.isDelivery])).trans
            (Frame.completeRequest _ env _ _ _))
      | false =>
        rw [on_requestCompleteAux_no env rest s ref_data mime h]
        refine (Frame.enterRequestComplete s ref_data mime).trans
          ((Frame.answered _ (Question.charsetConversionFailed (BrowserTab.charsetOf mime))
            false rest (by simp [Effect.isDelivery])).trans ?_)
        refine (Frame.beginErrorMessage _
          (ErrorMessage.charsetConversionFailed (BrowserTab.charsetOf mime))
          (by simp [Effect.isDelivery])).trans ?_
        exact (ih _ _ _).trans (Frame.updateUI _)

theorem Frame.on_requestComplete (s : BrowserTab) (env : Env) (ref_data : QByteArray)
    (mime : MimeType) : Frame Effect.isDelivery s (s.on_requestComplete env ref_data mime) :=
  Frame.on_requestCompleteAux env _ s ref_data mime

theorem Frame.on_requestCompleteText (s : BrowserTab) (env : Env) (ref_data : QByteArray)
    (mime_text : QString) :
    Frame Effect.isDelivery s (s.on_requestCompleteText env ref_data mime_text) :=
  Frame.on_requestComplete s env ref_data _

/-- What `setErrorMessage` does to the counter and the trace: the counter
stays, and the trace gets the error message followed by delivery effects. -/
theorem setErrorMessage_trace (s : BrowserTab) (env : Env) (msg : ErrorMessage) :
    (s.setErrorMessage env msg).redirection_count = s.redirection_count ∧
    ∃ added, (s.setErrorMessage env msg).trace = s.trace ++ Effect.setErrorMessage msg :: added ∧
      ∀ e ∈ added, e.isDelivery = true := by
  unfold BrowserTab.setErrorMessage
  obtain ⟨hc, added, ht, hall⟩ :=
    (Frame.on_requestCompleteText (s.beginErrorMessage msg) env (BrowserTab.errorPage env msg)
      "text/plain charset=utf-8").trans (Frame.updateUI _)
  refine ⟨hc, added, ?_, hall⟩
  rw [ht]
  simp [BrowserTab.beginErrorMessage, BrowserTab.log]

theorem Frame.try_enable_certificate (s : BrowserTab) (env : Env) (url : QUrl) (handler : Nat) :
    Frame Effect.isDispatch s (s.try_enable_certificate env url handler).2 := by
  unfold BrowserTab.try_enable_certificate
  dsimp only
  split_ifs
  · refine (Frame.log s _ ?_).trans (Frame.asked _ _ ?_) <;> simp [Effect.isDispatch]
  · refine (Frame.log s _ ?_).trans ((Frame.asked _ _ ?_).trans
      (Frame.disableClientCertificate _ ?_)) <;> simp [Effect.isDispatch]
  · refine Frame.log s _ ?_
    simp [Effect.isDispatch]
  · refine Frame.disableClientCertificate _ ?_
    simp [Effect.isDispatch]

theorem Frame.enableClientCertificate (s : BrowserTab) (ident : CryptoIdentity) :
    Frame Effect.isDispatch s (s.enableClientCertificate ident).2 := by
  unfold BrowserTab.enableClientCertificate
  split_ifs
  · refine (Frame.log s _ ?_).trans (Frame.disableClientCertificate _ ?_) <;>
      simp [Effect.isDispatch]
  · exact Frame.of_same rfl rfl

theorem Frame.offerAutomaticCertificate (s : BrowserTab) (env : Env) (url : QUrl) :
    Frame Effect.isDispatch s (s.offerAutomaticCertificate env url) := by
  unfold BrowserTab.offerAutomaticCertificate
  split
  · exact Frame.refl _ _
  · split_ifs
    · refine Frame.asked _ _ ?_
      simp [Effect.isDispatch]
    · refine (Frame.asked _ _ ?_).trans (Frame.enableClientCertificate _ _)
      simp [Effect.isDispatch]

theorem Frame.checkIdentity (s : BrowserTab) (env : Env) (url : QUrl) :
    Frame Effect.isDispatch s (s.checkIdentity env url) := by
  unfold BrowserTab.checkIdentity
  have h1 : Frame Effect.isDispatch s
      (if (s.current_identity.isValid && url.host != s.current_location.host) = true then
        if (!s.nextAnswer) = true then
          (s.asked Question.keepCertificateNewHost).disableClientCertificate
        else s.asked Question.keepCertificateNewHost
      else s) := by
    split_ifs
    · refine (Frame.asked _ _ ?_).trans (Frame.disableClientCertificate _ ?_) <;>
        simp [Effect.isDispatch]
    · refine Frame.asked _ _ ?_
      simp [Effect.isDispatch]
    · exact Frame.refl _ _
  have h2 : ∀ s1 : BrowserTab, Frame Effect.isDispatch s1
      (if (s1.current_identity.isValid && env.isHostFiltered s1.current_identity url) = true then
        if (!s1.nextAnswer) = true then
          (s1.asked (Question.keepCertificateHostFilter url
            s1.current_identity.host_filter)).disableClientCertificate
        else s1.asked (Question.keepCertificateHostFilter url s1.current_identity.host_filter)
      else if (!s1.current_identity.isValid) = true then s1.offerAutomaticCertificate env url
      else s1) := by
    intro s1
    split_ifs
    · refine (Frame.asked _ _ ?_).trans (Frame.disableClientCertificate _ ?_) <;>
        simp [Effect.isDispatch]
    · refine Frame.asked _ _ ?_
      simp [Effect.isDispatch]
    · exact Frame.offerAutomaticCertificate _ env url
    · exact Frame.refl _ _
  exact h1.trans (h2 _)

theorem Frame.req (s : BrowserTab) (env : Env) (handler : Nat) (url : QUrl)
    (options : RequestOptions) :
    Frame Effect.isDispatch s (s.req env handler url options).tab :=
  Frame.log s _ (by simp [Effect.isDispatch])

theorem Frame.beginDispatch {cls : Effect → Bool} (s : BrowserTab) (env : Env) (url : QUrl) :
    Frame cls s (s.beginDispatch env url) :=
  Frame.of_same rfl rfl

theorem Frame.cleanCache (s : BrowserTab) (env : Env) :
    Frame Effect.isDispatch s (s.cleanCache env) :=
  Frame.of_added [Effect.cacheClean] rfl rfl (by simp [Effect.isDispatch])

theorem Frame.deliverCached (s : BrowserTab) (env : Env) (url : QUrl) (flags : RequestFlags)
    (pg : CachedPage) : Frame Effect.isDispatch s (s.deliverCached env url flags pg) := by
  unfold BrowserTab.deliverCached
  have h1 : Frame Effect.isDispatch s
      { s.log (Effect.cacheFind url true) with was_read_from_cache := true } :=
    Frame.of_added [Effect.cacheFind url true] rfl rfl (by simp [Effect.isDispatch])
  have h2 := Frame.mono isDelivery_isDispatch (Frame.on_requestComplete
    { s.log (Effect.cacheFind url true) with was_read_from_cache := true } env pg.body pg.mime)
  dsimp only
  split_ifs
  · exact h1.trans (h2.trans (Frame.of_same rfl rfl))
  · exact h1.trans h2

theorem Frame.dispatch (s : BrowserTab) (env : Env) (handler : Nat) (url : QUrl)
    (options : RequestOptions) (flags : RequestFlags) :
    Frame Effect.isDispatch s (s.dispatch env handler url options flags).tab := by
  unfold BrowserTab.dispatch
  dsimp only
  split_ifs
  · exact (Frame.beginDispatch s env url).trans (Frame.req _ env handler url options)
  · split
    · exact (Frame.beginDispatch s env url).trans ((Frame.cleanCache _ env).trans
        (Frame.deliverCached _ env url flags _))
    · refine (Frame.beginDispatch s env url).trans ((Frame.cleanCache _ env).trans
        ((Frame.log _ _ ?_).trans (Frame.req _ env handler url options)))
      simp [Effect.isDispatch]

/-- What `startRequest` does to the counter and the trace, however it ends:
the counter stays, and the trace gets the entry into `startRequest` followed by
dispatch effects. -/
theorem startRequest_trace (s : BrowserTab) (env : Env) (url : QUrl) (options : RequestOptions)
    (flags : RequestFlags) :
    (s.startRequest env url options flags).tab.redirection_count = s.redirection_count ∧
    ∃ added, (s.startRequest env url options flags).tab.trace
        = s.trace ++ Effect.startRequest url options flags :: added ∧
      ∀ e ∈ added, e.isDispatch = true := by
  have key : Frame Effect.isDispatch
      ((s.log (Effect.startRequest url options flags)).selectHandler url)
      (s.startRequest env url options flags).tab := by
    unfold BrowserTab.startRequest
    dsimp only
    split
    · exact Frame.refl _ _
    · rename_i handler _
      split_ifs
      · exact Frame.try_enable_certificate _ env url handler
      · exact (Frame.try_enable_certificate _ env url handler).trans
          ((Frame.checkIdentity _ env url).trans (Frame.try_enable_certificate _ env url handler))
      · exact (Frame.try_enable_certificate _ env url handler).trans
          ((Frame.checkIdentity _ env url).trans
            ((Frame.try_enable_certificate _ env url handler).trans
              (Frame.dispatch _ env handler url options flags)))
  obtain ⟨hc, added, ht, hall⟩ := key
  refine ⟨hc, added, ?_, hall⟩
  rw [ht]
  simp [BrowserTab.selectHandler, BrowserTab.log]


/-! ### The steps of `on_redirected` -/

theorem startRequests_append (xs ys : List Effect) :
    startRequests (xs ++ ys) = startRequests xs ++ startRequests ys := by
  simp [startRequests, List.filterMap_append]

theorem startRequestUrl_of_dispatch (e : Effect) (h : e.isDispatch = true) :
    e.startRequestUrl? = none := by
  cases e <;> simp_all [Effect.isDispatch, Effect.isDelivery, Effect.startRequestUrl?]

theorem startRequests_of_dispatch (added : List Effect)
    (h : ∀ e ∈ added, e.isDispatch = true) : startRequests added = [] := by
  induction added with
  | nil => rfl
  | cons e rest ih =>
    have he := startRequestUrl_of_dispatch e (h e (List.mem_cons_self _ _))
    have hr := ih (fun x hx => h x (List.mem_cons_of_mem _ hx))
    unfold startRequests at hr ⊢
    rw [List.filterMap_cons, he]
    exact hr

theorem startRequests_of_delivery (added : List Effect)
    (h : ∀ e ∈ added, e.isDelivery = true) : startRequests added = [] :=
  startRequests_of_dispatch added (fun e he => isDelivery_isDispatch e (h e he))

theorem isRedirectQuestion_of_dispatch (e : Effect) (h : e.isDispatch = true) :
    e.isRedirectQuestion = false := by
  cases e <;> simp_all [Effect.isDispatch, Effect.isDelivery, Effect.isRedirectQuestion]
  rename_i q _
  cases q <;> simp_all [Effect.isDispatch, Effect.isDelivery, Question.isRedirect]

theorem isRedirectQuestion_of_delivery (e : Effect) (h : e.isDelivery = true) :
    e.isRedirectQuestion = false :=
  isRedirectQuestion_of_dispatch e (isDelivery_isDispatch e h)

/-- The tab in which `on_redirected` decides, after it has stopped the timer. -/
theorem on_redirected_limit (s : BrowserTab) (env : Env) (uri : QUrl) (p : Bool)
    (h : s.redirection_count ≥ env.options.max_redirections) :
    s.on_redirected env uri p =
      Outcome.done RedirectExit.tooManyRedirections
        (BrowserTab.setErrorMessage { s with network_timeout_timer := none } env
          (ErrorMessage.tooManyRedirections (redirectTarget s.current_location uri))) := by
  unfold BrowserTab.on_redirected
  dsimp only
  rw [if_pos h]

/-- Below the limit, `on_redirected` asks for the confirmation, if one is
needed, and then ends the navigation or starts the request for the target. -/
theorem on_redirected_below (s : BrowserTab) (env : Env) (uri : QUrl) (p : Bool)
    (h : s.redirection_count < env.options.max_redirections) :
    ∃ s2 : BrowserTab,
      s2.redirection_count = s.redirection_count ∧
      s2.trace = s.trace ++
        (match s.redirectConfirmation env uri with
          | some q => [Effect.question q s.nextAnswer]
          | none => []) ∧
      s.on_redirected env uri p =
        if (match s.redirectConfirmation env uri with
          | some _ => s.nextAnswer
          | none => true) = false then
          Outcome.done RedirectExit.cancelledByUser
            (s2.setErrorMessage env
              (ErrorMessage.redirectionCancelled (redirectTarget s.current_location uri)))
        else
          match s2.startRequest env (redirectTarget s.current_location uri)
              RequestOptions.Default RequestFlags.None with
          | Outcome.aborted t => Outcome.aborted t
          | Outcome.done true t =>
            Outcome.done RedirectExit.followed
              { t with
                redirection_count := t.redirection_count + 1
                current_location := redirectTarget s.current_location uri
                url_bar := redirectTarget s.current_location uri
                history := t.history.replaceUrl t.current_history_index
                  (redirectTarget s.current_location uri) }
          | Outcome.done false t =>
            Outcome.done RedirectExit.failed
              (t.setErrorMessage env
                (ErrorMessage.redirectionFailed (redirectTarget s.current_location uri))) := by
  have hn : ¬ s.redirection_count ≥ env.options.max_redirections := not_le.2 h
  unfold BrowserTab.on_redirected BrowserTab.redirectConfirmation
  dsimp only
  rw [if_neg hn]
  cases hq : redirectQuestion env.options.redirection_policy
      (s.current_location.scheme != (redirectTarget s.current_location uri).scheme)
      (s.current_location.host != (redirectTarget s.current_location uri).host)
      (redirectTarget s.current_location uri) with
  | none =>
    refine ⟨{ s with network_timeout_timer := none }, rfl, by simp, ?_⟩
    simp only [Bool.not_true, Bool.false_eq_true, if_false, Bool.true_eq_false]
    rfl
  | some q =>
    refine ⟨BrowserTab.asked { s with network_timeout_timer := none } q, rfl, ?_, ?_⟩
    · simp [BrowserTab.asked, BrowserTab.answered, BrowserTab.nextAnswer]
    · dsimp only
      cases ha : s.nextAnswer with
      | true =>
        have : BrowserTab.nextAnswer { s with network_timeout_timer := none } = true := ha
        simp only [this, Bool.not_true, Bool.false_eq_true, if_false, Bool.true_eq_false]
        rfl
      | false =>
        have : BrowserTab.nextAnswer { s with network_timeout_timer := none } = false := ha
        simp only [this, Bool.not_false, if_true]

theorem on_redirected_at_limit (s : BrowserTab) (env : Env) (uri : QUrl) (p : Bool)
    (h : s.redirection_count ≥ env.options.max_redirections) :
    (s.on_redirected env uri p).exit? = some RedirectExit.tooManyRedirections ∧
    (s.on_redirected env uri p).tab.redirection_count = s.redirection_count ∧
    ∃ added, (s.on_redirected env uri p).tab.trace = s.trace ++
        Effect.setErrorMessage
          (ErrorMessage.tooManyRedirections (redirectTarget s.current_location uri)) :: added ∧
      ∀ e ∈ added, e.isDelivery = true := by
  rw [on_redirected_limit s env uri p h]
  obtain ⟨hc, added, ht, hall⟩ := setErrorMessage_trace
    { s with network_timeout_timer := none } env
    (ErrorMessage.tooManyRedirections (redirectTarget s.current_location uri))
  exact ⟨rfl, hc, added, ht, hall⟩

/-- The effects of the confirmation step of `on_redirected`. -/
theorem on_redirected_under_limit (s : BrowserTab) (env : Env) (uri : QUrl) (p : Bool)
    (h : s.redirection_count < env.options.max_redirections) :
    (s.on_redirected env uri p).exit? ≠ some RedirectExit.tooManyRedirections ∧
    (s.on_redirected env uri p).tab.redirection_count =
      (if (s.on_redirected env uri p).exit? = some RedirectExit.followed
        then s.redirection_count + 1 else s.redirection_count) ∧
    ∃ rest, (s.on_redirected env uri p).tab.trace = s.trace ++
        (match s.redirectConfirmation env uri with
          | some q => [Effect.question q s.nextAnswer]
          | none => []) ++ rest ∧
      (∀ e ∈ rest, e.isRedirectQuestion = false) ∧
      ((s.on_redirected env uri p).exit? = some RedirectExit.followed →
        startRequests rest = [redirectTarget s.current_location uri] ∧
        (s.on_redirected env uri p).tab.current_location
          = redirectTarget s.current_location uri) := by
  obtain ⟨s2, hc, ht, heq⟩ := on_redirected_below s env uri p h
  rw [← ht]
  by_cases hans : (match s.redirectConfirmation env uri with
      | some _ => s.nextAnswer
      | none => true) = false
  · have hval := heq
    rw [if_pos hans] at hval
    rw [hval]
    obtain ⟨hc2, added, ht2, hall⟩ := setErrorMessage_trace s2 env
      (ErrorMessage.redirectionCancelled (redirectTarget s.current_location uri))
    refine ⟨by simp [Outcome.exit?], ?_, _, ht2, ?_, ?_⟩
    · simp [Outcome.exit?, Outcome.tab, hc2, hc]
    · intro e he
      rcases List.mem_cons.1 he with rfl | he
      · rfl
      · exact isRedirectQuestion_of_delivery e (hall e he)
    · simp [Outcome.exit?]
  · have hval := heq
    rw [if_neg hans] at hval
    obtain ⟨hc3, added, ht3, hall⟩ := startRequest_trace s2 env
      (redirectTarget s.current_location uri) RequestOptions.Default RequestFlags.None
    cases hst : s2.startRequest env (redirectTarget s.current_location uri)
        RequestOptions.Default RequestFlags.None with
    | aborted t =>
      rw [hst] at hc3 ht3 hval
      rw [hval]
      refine ⟨by simp [Outcome.exit?], ?_, _, ht3, ?_, ?_⟩
      · simpa [Outcome.exit?, Outcome.tab, hc] using hc3
      · intro e he
        rcases List.mem_cons.1 he with rfl | he
        · rfl
        · exact isRedirectQuestion_of_dispatch e (hall e he)
      · simp [Outcome.exit?]
    | done b t =>
      rw [hst] at hc3 ht3 hval
      simp only [Outcome.tab] at hc3 ht3
      cases b with
      | true =>
        rw [hval]
        refine ⟨by simp [Outcome.exit?], ?_, _, ht3, ?_, ?_⟩
        · simp [Outcome.exit?, Outcome.tab, hc3, hc]
        · intro e he
          rcases List.mem_cons.1 he with rfl | he
          · rfl
          · exact isRedirectQuestion_of_dispatch e (hall e he)
        · intro _
          refine ⟨?_, rfl⟩
          have := startRequests_of_dispatch added hall
          unfold startRequests at this ⊢
          rw [List.filterMap_cons, this]
          rfl
      | false =>
        rw [hval]
        obtain ⟨hc4, added4, ht4, hall4⟩ := setErrorMessage_trace t env
          (ErrorMessage.redirectionFailed (redirectTarget s.current_location uri))
        refine ⟨by simp [Outcome.exit?], ?_,
          Effect.startRequest (redirectTarget s.current_location uri)
            RequestOptions.Default RequestFlags.None :: added ++
            Effect.setErrorMessage
              (ErrorMessage.redirectionFailed (redirectTarget s.current_location uri)) :: added4,
          ?_, ?_, ?_⟩
        · simp [Outcome.exit?, Outcome.tab, hc4, hc3, hc]
        · simp only [Outcome.tab]
          rw [ht4, ht3]
          simp
        · intro e he
          rcases List.mem_append.1 he with he | he
          · rcases List.mem_cons.1 he with rfl | he
            · rfl
            · exact isRedirectQuestion_of_dispatch e (hall e he)
          · rcases List.mem_cons.1 he with rfl | he
            · rfl
            · exact isRedirectQuestion_of_delivery e (hall4 e he)
        · simp [Outcome.exit?]

/-! ### The other operations and the counter -/

theorem navigateTo_rejected (s : BrowserTab) (env : Env) (url : QUrl) (mode : PushToHistory)
    (flags : RequestFlags) (h : env.isSchemeSupported url.scheme ≠ ProtocolSupport.Enabled) :
    s.navigateTo env url mode flags =
      Outcome.done NavigateExit.schemeRejected
        (s.log (Effect.notice (Notice.schemeNotSupported url.scheme))) := by
  unfold BrowserTab.navigateTo
  rw [if_pos h]

theorem navigateTo_cancelFailed (s : BrowserTab) (env : Env) (url : QUrl) (mode : PushToHistory)
    (flags : RequestFlags) (h : env.isSchemeSupported url.scheme = ProtocolSupport.Enabled)
    (handler : Nat) (hh : s.current_handler = some handler)
    (hc : env.handlerCancelRequest handler = false) :
    s.navigateTo env url mode flags =
      Outcome.done NavigateExit.cancelFailed
        ((s.log (Effect.cancelRequest handler false)).log (Effect.notice Notice.cancelFailed)) := by
  unfold BrowserTab.navigateTo
  rw [if_neg (by simp [h])]
  simp only [hh, hc, Bool.not_false, if_true]

/-- The state in which `navigateTo` calls `startRequest`, once its two checks
have passed. -/
theorem navigateTo_passed (s : BrowserTab) (env : Env) (url : QUrl) (mode : PushToHistory)
    (flags : RequestFlags) (h : env.isSchemeSupported url.scheme = ProtocolSupport.Enabled)
    (hc : ∀ handler, s.current_handler = some handler → env.handlerCancelRequest handler = true) :
    ∃ s1 : BrowserTab, s1.redirection_count = 0 ∧
      s.navigateTo env url mode flags =
        match s1.startRequest env url RequestOptions.Default flags with
        | Outcome.aborted t => Outcome.aborted t
        | Outcome.done false t =>
          Outcome.done NavigateExit.requestFailed
            (t.log (Effect.notice (Notice.requestFailed url)))
        | Outcome.done true t =>
          Outcome.done NavigateExit.started
            (BrowserTab.updateUI
              (if mode = PushToHistory.PushImmediate then t.pushToHistory url else t)) := by
  unfold BrowserTab.navigateTo
  rw [if_neg (by simp [h])]
  cases hh : s.current_handler with
  | none =>
    dsimp only
    simp only [Bool.not_true, Bool.false_eq_true, if_false]
    exact ⟨_, rfl, rfl⟩
  | some handler =>
    have hcc := hc handler hh
    dsimp only
    simp only [hcc, Bool.not_true, Bool.false_eq_true, if_false]
    exact ⟨_, rfl, rfl⟩

theorem navigateTo_count (s : BrowserTab) (env : Env) (url : QUrl) (mode : PushToHistory)
    (flags : RequestFlags) (h : env.isSchemeSupported url.scheme = ProtocolSupport.Enabled)
    (hc : ∀ handler, s.current_handler = some handler → env.handlerCancelRequest handler = true) :
    (s.navigateTo env url mode flags).tab.redirection_count = 0 := by
  obtain ⟨s1, h1, heq⟩ := navigateTo_passed s env url mode flags h hc
  rw [heq]
  have h2 := (startRequest_trace s1 env url RequestOptions.Default flags).1
  cases hst : s1.startRequest env url RequestOptions.Default flags with
  | aborted t =>
    rw [hst] at h2
    simpa [Outcome.tab, h1] using h2
  | done b t =>
    rw [hst] at h2
    simp only [Outcome.tab] at h2
    cases b with
    | false => simp [Outcome.tab, BrowserTab.log, h2, h1]
    | true =>
      by_cases hm : mode = PushToHistory.PushImmediate
      · simp [Outcome.tab, BrowserTab.updateUI, BrowserTab.refreshFavButton,
          BrowserTab.pushToHistory, hm, h2, h1]
      · simp [Outcome.tab, BrowserTab.updateUI, BrowserTab.refreshFavButton, hm, h2, h1]

/-- Whatever `navigateTo` does, the counter afterwards is zero or unchanged. -/
theorem navigateTo_count_cases (s : BrowserTab) (env : Env) (url : QUrl) (mode : PushToHistory)
    (flags : RequestFlags) :
    (s.navigateTo env url mode flags).tab.redirection_count = 0 ∨
    (s.navigateTo env url mode flags).tab.redirection_count = s.redirection_count := by
  by_cases h : env.isSchemeSupported url.scheme = ProtocolSupport.Enabled
  · by_cases hc : ∀ handler, s.current_handler = some handler →
        env.handlerCancelRequest handler = true
    · exact Or.inl (navigateTo_count s env url mode flags h hc)
    · push_neg at hc
      obtain ⟨handler, hh, hcf⟩ := hc
      have hcf2 : env.handlerCancelRequest handler = false := by simpa using hcf
      rw [navigateTo_cancelFailed s env url mode flags h handler hh hcf2]
      exact Or.inr rfl
  · rw [navigateTo_rejected s env url mode flags h]
    exact Or.inr rfl

theorem on_networkError_count (s : BrowserTab) (env : Env) (error_code : NetworkError)
    (reason : QString) :
    (s.on_networkError env error_code reason).tab.redirection_count = s.redirection_count := by
  unfold BrowserTab.on_networkError
  dsimp only
  split
  · rfl
  · rename_i page _
    exact ((Frame.on_requestCompleteText
      { s with network_timeout_timer := none, is_internal_location := true } env
      (env.toUtf8 (env.substitute page reason)) "text/gemini").trans (Frame.updateUI _)).1

theorem on_networkTimeout_count (s : BrowserTab) (env : Env) :
    (s.on_networkTimeout env).tab.redirection_count = s.redirection_count := by
  unfold BrowserTab.on_networkTimeout
  dsimp only
  rw [on_networkError_count]
  split <;> rfl

theorem on_redirected_count (s : BrowserTab) (env : Env) (uri : QUrl) (p : Bool) :
    (s.on_redirected env uri p).tab.redirection_count =
      if (s.on_redirected env uri p).exit? = some RedirectExit.followed
        then s.redirection_count + 1 else s.redirection_count := by
  by_cases h : s.redirection_count < env.options.max_redirections
  · exact (on_redirected_under_limit s env uri p h).2.1
  · obtain ⟨he, hc, _⟩ := on_redirected_at_limit s env uri p (not_lt.1 h)
    rw [he, hc]
    simp

theorem on_redirected_followed_below (s : BrowserTab) (env : Env) (uri : QUrl) (p : Bool)
    (h : (s.on_redirected env uri p).exit? = some RedirectExit.followed) :
    s.redirection_count < env.options.max_redirections := by
  by_contra hn
  obtain ⟨he, _⟩ := on_redirected_at_limit s env uri p (not_lt.1 hn)
  rw [he] at h
  cases h

theorem Outcome.unit_tab {α : Type} (o : Outcome α) : o.unit.tab = o.tab := by
  cases o <;> rfl

/-! ### Chains of redirects -/

theorem navigateTo_started_count (s : BrowserTab) (env : Env) (url : QUrl) (mode : PushToHistory)
    (flags : RequestFlags)
    (h : (s.navigateTo env url mode flags).exit? = some NavigateExit.started) :
    (s.navigateTo env url mode flags).tab.redirection_count = 0 := by
  by_cases hs : env.isSchemeSupported url.scheme = ProtocolSupport.Enabled
  · by_cases hc : ∀ handler, s.current_handler = some handler →
        env.handlerCancelRequest handler = true
    · exact navigateTo_count s env url mode flags hs hc
    · push_neg at hc
      obtain ⟨handler, hh, hcf⟩ := hc
      have hcf2 : env.handlerCancelRequest handler = false := by simpa using hcf
      rw [navigateTo_cancelFailed s env url mode flags hs handler hh hcf2] at h
      simp [Outcome.exit?] at h
  · rw [navigateTo_rejected s env url mode flags hs] at h
    simp [Outcome.exit?] at h

theorem confirmation_startRequests (q : Option Question) (yes : Bool) :
    startRequests (match q with
      | some q => [Effect.question q yes]
      | none => []) = [] := by
  cases q <;> rfl

/-- A chain of redirects that stays below the limit and in which no redirect
is declined and no request fails to start: every redirect is followed, the
counter goes up by one each time, and `startRequest` is called once for each
target. -/
theorem redirectChain_followed (limit : Int) :
    ∀ (hops : List RedirectEvent) (s : BrowserTab),
      (∀ ev ∈ hops, ev.env.options.max_redirections = limit) →
      s.redirection_count + hops.length ≤ limit →
      (∀ o ∈ redirectChain s hops, o.cooperative = true) →
      (redirectChain s hops).map Outcome.exit?
        = List.replicate hops.length (some RedirectExit.followed) ∧
      (redirectChainEnd s hops).redirection_count = s.redirection_count + hops.length ∧
      startRequests (redirectChainEnd s hops).trace
        = startRequests s.trace ++ chainTargets s.current_location (hops.map (fun ev => ev.uri)) := by
  intro hops
  induction hops with
  | nil =>
    intro s _ _ _
    simp [redirectChain, redirectChainEnd, chainTargets]
  | cons ev rest ih =>
    intro s hmax hle hok
    have hlim : s.redirection_count < ev.env.options.max_redirections := by
      rw [hmax ev (List.mem_cons_self _ _)]
      have : (0 : Int) ≤ rest.length := Int.natCast_nonneg _
      simp only [List.length_cons, Nat.cast_add, Nat.cast_one] at hle
      omega
    obtain ⟨hne, hcount, added, htrace, _, hfol⟩ :=
      on_redirected_under_limit s ev.env ev.uri ev.is_permanent hlim
    cases ho : s.on_redirected ev.env ev.uri ev.is_permanent with
    | aborted t =>
      have hmem : Outcome.aborted t ∈ redirectChain s (ev :: rest) := by
        simp [redirectChain, ho]
      have := hok _ hmem
      simp [Outcome.cooperative] at this
    | done e t =>
      have hchain : redirectChain s (ev :: rest) = Outcome.done e t :: redirectChain t rest := by
        simp [redirectChain, ho]
      have hend : redirectChainEnd s (ev :: rest) = redirectChainEnd t rest := by
        simp [redirectChainEnd, ho]
      rw [ho] at hne hcount htrace hfol
      have hcoop := hok (Outcome.done e t) (by rw [hchain]; exact List.mem_cons_self _ _)
      have he : e = RedirectExit.followed := by
        cases e
        · simp [Outcome.exit?] at hne
        · simp [Outcome.cooperative] at hcoop
        · rfl
        · simp [Outcome.cooperative] at hcoop
      subst he
      simp only [Outcome.exit?, Outcome.tab, if_true] at hcount htrace hfol
      obtain ⟨hreq, hloc⟩ := hfol trivial
      obtain ⟨h1, h2, h3⟩ := ih t
        (fun x hx => hmax x (List.mem_cons_of_mem _ hx))
        (by
          rw [hcount]
          simp only [List.length_cons, Nat.cast_add, Nat.cast_one] at hle
          omega)
        (fun o ho2 => hok o (by rw [hchain]; exact List.mem_cons_of_mem _ ho2))
      rw [hchain, hend]
      refine ⟨?_, ?_, ?_⟩
      · simp [List.map_cons, Outcome.exit?, h1, List.replicate_succ]
      · rw [h2, hcount]
        simp only [List.length_cons, Nat.cast_add, Nat.cast_one]
        omega
      · rw [h3, htrace, startRequests_append, startRequests_append,
          confirmation_startRequests, hreq, hloc]
        simp [chainTargets]

/-! ### Claims on redirects -/

/-- C8: after `navigateTo` has started a navigation, let `n` be
`max_redirections` and let `n + 1` `redirected` signals follow one another.
If none of the first `n` redirects is declined by the user and no request fails
to start, then each of the first `n` is followed, with one call of
`startRequest` for its target, and the last one ends with the error message
"Too many consecutive redirections" without a call of `startRequest`. -/
theorem C8_redirect_bound (n : Nat) (s0 : BrowserTab) (env0 : Env) (url : QUrl)
    (mode : PushToHistory) (flags : RequestFlags)
    (hops : List RedirectEvent) (last : RedirectEvent)
    (hnav : (s0.navigateTo env0 url mode flags).exit? = some NavigateExit.started)
    (hlen : hops.length = n)
    (hmax : ∀ ev ∈ hops ++ [last], ev.env.options.max_redirections = n)
    (hok : ∀ o ∈ redirectChain (s0.navigateTo env0 url mode flags).tab hops,
      o.cooperative = true) :
    (redirectChain (s0.navigateTo env0 url mode flags).tab hops).map Outcome.exit?
      = List.replicate n (some RedirectExit.followed) ∧
    (redirectChainEnd (s0.navigateTo env0 url mode flags).tab hops).redirection_count = n ∧
    startRequests (redirectChainEnd (s0.navigateTo env0 url mode flags).tab hops).trace
      = startRequests (s0.navigateTo env0 url mode flags).tab.trace ++
        chainTargets (s0.navigateTo env0 url mode flags).tab.current_location
          (hops.map (fun ev => ev.uri)) ∧
    ((redirectChainEnd (s0.navigateTo env0 url mode flags).tab hops).on_redirected
      last.env last.uri last.is_permanent).exit? = some RedirectExit.tooManyRedirections ∧
    (∃ added,
      ((redirectChainEnd (s0.navigateTo env0 url mode flags).tab hops).on_redirected
        last.env last.uri last.is_permanent).tab.trace
        = (redirectChainEnd (s0.navigateTo env0 url mode flags).tab hops).trace ++
          Effect.setErrorMessage (ErrorMessage.tooManyRedirections
            (redirectTarget
              (redirectChainEnd (s0.navigateTo env0 url mode flags).tab hops).current_location
              last.uri)) :: added ∧
      ∀ e ∈ added, e.isDelivery = true) ∧
    startRequests ((redirectChainEnd (s0.navigateTo env0 url mode flags).tab hops).on_redirected
        last.env last.uri last.is_permanent).tab.trace
      = startRequests (redirectChainEnd (s0.navigateTo env0 url mode flags).tab hops).trace ∧
    ((redirectChainEnd (s0.navigateTo env0 url mode flags).tab hops).on_redirected
        last.env last.uri last.is_permanent).tab.redirection_count = n := by
  have h0 := navigateTo_started_count s0 env0 url mode flags hnav
  obtain ⟨h1, h2, h3⟩ := redirectChain_followed n hops (s0.navigateTo env0 url mode flags).tab
    (fun ev hev => hmax ev (List.mem_append_left _ hev))
    (by rw [h0, hlen]; simp) hok
  rw [h0, hlen] at h2
  rw [hlen] at h1
  have hlast : (redirectChainEnd (s0.navigateTo env0 url mode flags).tab hops).redirection_count
      ≥ last.env.options.max_redirections := by
    rw [h2, hmax last (by simp)]
    simp
  obtain ⟨he, hc, added, ht, hall⟩ := on_redirected_at_limit
    (redirectChainEnd (s0.navigateTo env0 url mode flags).tab hops)
    last.env last.uri last.is_permanent hlast
  refine ⟨h1, by simpa using h2, h3, he, ⟨added, ht, hall⟩, ?_, ?_⟩
  · rw [ht, startRequests_append]
    have : startRequests (Effect.setErrorMessage (ErrorMessage.tooManyRedirections
        (redirectTarget
          (redirectChainEnd (s0.navigateTo env0 url mode flags).tab hops).current_location
          last.uri)) :: added) = [] := by
      have hd := startRequests_of_delivery added hall
      unfold startRequests at hd ⊢
      rw [List.filterMap_cons]
      exact hd
    rw [this, List.append_nil]
  · rw [hc]
    simpa using h2

/-- C8 with `max_redirections = 3`: of four redirects in a row, three are
followed and the fourth ends the navigation. -/
theorem C8_redirect_bound_witness :
    (redirectChain (sampleTab.navigateTo (sampleEnv 3 WarnOnHostChange)
        (geminiUrl "example.org" "/") PushToHistory.PushImmediate RequestFlags.None).tab
        sampleRedirects).map Outcome.exit?
      = List.replicate 3 (some RedirectExit.followed) ∧
    (redirectChainEnd (sampleTab.navigateTo (sampleEnv 3 WarnOnHostChange)
        (geminiUrl "example.org" "/") PushToHistory.PushImmediate RequestFlags.None).tab
        sampleRedirects).redirection_count = (3 : Nat) ∧
    startRequests (redirectChainEnd (sampleTab.navigateTo (sampleEnv 3 WarnOnHostChange)
        (geminiUrl "example.org" "/") PushToHistory.PushImmediate RequestFlags.None).tab
        sampleRedirects).trace
      = startRequests (sampleTab.navigateTo (sampleEnv 3 WarnOnHostChange)
          (geminiUrl "example.org" "/") PushToHistory.PushImmediate RequestFlags.None).tab.trace ++
        chainTargets (sampleTab.navigateTo (sampleEnv 3 WarnOnHostChange)
          (geminiUrl "example.org" "/") PushToHistory.PushImmediate
            RequestFlags.None).tab.current_location
          (sampleRedirects.map (fun ev => ev.uri)) ∧
    ((redirectChainEnd (sampleTab.navigateTo (sampleEnv 3 WarnOnHostChange)
        (geminiUrl "example.org" "/") PushToHistory.PushImmediate RequestFlags.None).tab
        sampleRedirects).on_redirected
      sampleLastRedirect.env sampleLastRedirect.uri sampleLastRedirect.is_permanent).exit?
        = some RedirectExit.tooManyRedirections ∧
    (∃ added,
      ((redirectChainEnd (sampleTab.navigateTo (sampleEnv 3 WarnOnHostChange)
        (geminiUrl "example.org" "/") PushToHistory.PushImmediate RequestFlags.None).tab
        sampleRedirects).on_redirected
        sampleLastRedirect.env sampleLastRedirect.uri sampleLastRedirect.is_permanent).tab.trace
        = (redirectChainEnd (sampleTab.navigateTo (sampleEnv 3 WarnOnHostChange)
            (geminiUrl "example.org" "/") PushToHistory.PushImmediate RequestFlags.None).tab
            sampleRedirects).trace ++
          Effect.setErrorMessage (ErrorMessage.tooManyRedirections
            (redirectTarget
              (redirectChainEnd (sampleTab.navigateTo (sampleEnv 3 WarnOnHostChange)
                (geminiUrl "example.org" "/") PushToHistory.PushImmediate RequestFlags.None).tab
                sampleRedirects).current_location
              sampleLastRedirect.uri)) :: added ∧
      ∀ e ∈ added, e.isDelivery = true) ∧
    startRequests ((redirectChainEnd (sampleTab.navigateTo (sampleEnv 3 WarnOnHostChange)
        (geminiUrl "example.org" "/") PushToHistory.PushImmediate RequestFlags.None).tab
        sampleRedirects).on_redirected
        sampleLastRedirect.env sampleLastRedirect.uri sampleLastRedirect.is_permanent).tab.trace
      = startRequests (redirectChainEnd (sampleTab.navigateTo (sampleEnv 3 WarnOnHostChange)
          (geminiUrl "example.org" "/") PushToHistory.PushImmediate RequestFlags.None).tab
          sampleRedirects).trace ∧
    ((redirectChainEnd (sampleTab.navigateTo (sampleEnv 3 WarnOnHostChange)
        (geminiUrl "example.org" "/") PushToHistory.PushImmediate RequestFlags.None).tab
        sampleRedirects).on_redirected
        sampleLastRedirect.env sampleLastRedirect.uri sampleLastRedirect.is_permanent).tab.redirection_count
      = (3 : Nat) :=
  C8_redirect_bound 3 sampleTab (sampleEnv 3 WarnOnHostChange) (geminiUrl "example.org" "/")
    PushToHistory.PushImmediate RequestFlags.None sampleRedirects sampleLastRedirect
    (by decide) (by decide) (by decide) (by decide)

/-! ### The redirect confirmation -/

theorem bitAnd_three (p : Int)
    (h : bitAnd p (bitOr WarnOnHostChange WarnOnSchemeChange) ≠ 0) :
    bitAnd p WarnOnSchemeChange ≠ 0 ∨ bitAnd p WarnOnHostChange ≠ 0 := by
  by_contra hc
  push_neg at hc
  obtain ⟨h1, h2⟩ := hc
  apply h
  have e3 : ((bitOr WarnOnHostChange WarnOnSchemeChange) % 2 ^ 32).toNat = 1 ||| 2 := by decide
  have e1 : (WarnOnSchemeChange % 2 ^ 32).toNat = 1 := by decide
  have e2 : (WarnOnHostChange % 2 ^ 32).toNat = 2 := by decide
  unfold bitAnd at h1 h2 ⊢
  rw [e1] at h1
  rw [e2] at h2
  rw [e3, Nat.and_or_distrib_left, h1, h2]
  rfl

/-- The condition under which `on_redirected` asks for a confirmation. -/
theorem redirectQuestion_isSome (policy : Int) (cross_protocol cross_host : Bool) (uri : QUrl) :
    (redirectQuestion policy cross_protocol cross_host uri).isSome = true ↔
      (policy = WarnAlways ∨
        (bitAnd policy WarnOnSchemeChange ≠ 0 ∧ cross_protocol = true) ∨
        (bitAnd policy WarnOnHostChange ≠ 0 ∧ cross_host = true)) := by
  unfold redirectQuestion
  split_ifs with h1 h2 h3 h4
  · simp [h1]
  · rcases bitAnd_three policy h2.1 with hb | hb
    · simp [hb, h2.2.1]
    · simp [hb, h2.2.2]
  · simp [h3.1, h3.2]
  · simp [h4.1, h4.2]
  · constructor
    · intro h
      cases h
    · rintro (h | h | h)
      · exact absurd h h1
      · exact absurd h h3
      · exact absurd h h4

theorem redirectQuestion_isRedirect (policy : Int) (cross_protocol cross_host : Bool)
    (uri : QUrl) (q : Question)
    (h : redirectQuestion policy cross_protocol cross_host uri = some q) :
    q.isRedirect = true := by
  unfold redirectQuestion at h
  split_ifs at h <;> cases h <;> rfl

/-- The number of redirect confirmations that `on_redirected` shows for a
redirect below the limit: one if the chain of branches gives a question, none
otherwise. -/
theorem on_redirected_confirmations (s : BrowserTab) (env : Env) (uri : QUrl) (p : Bool)
    (h : s.redirection_count < env.options.max_redirections) :
    (((s.on_redirected env uri p).tab.trace.drop s.trace.length).filter
      Effect.isRedirectQuestion).length =
      if (s.redirectConfirmation env uri).isSome = true then 1 else 0 := by
  obtain ⟨_, _, rest, ht, hrest, _⟩ := on_redirected_under_limit s env uri p h
  rw [ht, List.append_assoc, List.drop_left, List.filter_append]
  have hr : rest.filter Effect.isRedirectQuestion = [] := by
    rw [List.filter_eq_nil_iff]
    intro e he
    simp [hrest e he]
  rw [hr, List.append_nil]
  cases hq : s.redirectConfirmation env uri with
  | none => simp
  | some q =>
    have hqr := redirectQuestion_isRedirect _ _ _ _ q hq
    simp [Effect.isRedirectQuestion, hqr]

/-- C10: for a redirect below the limit, `on_redirected` shows a redirect
confirmation, and only one, exactly if the policy is `WarnAlways`, or it has
the bit `WarnOnSchemeChange` and the scheme of the target differs from the
current one, or it has the bit `WarnOnHostChange` and the host of the target
differs from the current one. So `WarnNever` never asks, `WarnAlways` always
asks, and `WarnOnHostChange` alone asks exactly on a change of host. -/
theorem C10_redirect_warning (s : BrowserTab) (env : Env) (uri : QUrl) (is_permanent : Bool)
    (hbelow : s.redirection_count < env.options.max_redirections) :
    ((((s.on_redirected env uri is_permanent).tab.trace.drop s.trace.length).filter
        Effect.isRedirectQuestion).length =
      if env.options.redirection_policy = WarnAlways ∨
          (bitAnd env.options.redirection_policy WarnOnSchemeChange ≠ 0 ∧
            (redirectTarget s.current_location uri).scheme ≠ s.current_location.scheme) ∨
          (bitAnd env.options.redirection_policy WarnOnHostChange ≠ 0 ∧
            (redirectTarget s.current_location uri).host ≠ s.current_location.host)
        then 1 else 0) ∧
    (env.options.redirection_policy = WarnNever →
      (((s.on_redirected env uri is_permanent).tab.trace.drop s.trace.length).filter
        Effect.isRedirectQuestion).length = 0) ∧
    (env.options.redirection_policy = WarnAlways →
      (((s.on_redirected env uri is_permanent).tab.trace.drop s.trace.length).filter
        Effect.isRedirectQuestion).length = 1) ∧
    (env.options.redirection_policy = WarnOnHostChange →
      (((s.on_redirected env uri is_permanent).tab.trace.drop s.trace.length).filter
        Effect.isRedirectQuestion).length =
        if (redirectTarget s.current_location uri).host ≠ s.current_location.host
          then 1 else 0) := by
  have hmain := on_redirected_confirmations s env uri is_permanent hbelow
  have hiff := redirectQuestion_isSome env.options.redirection_policy
    (s.current_location.scheme != (redirectTarget s.current_location uri).scheme)
    (s.current_location.host != (redirectTarget s.current_location uri).host)
    (redirectTarget s.current_location uri)
  have hcond : (s.redirectConfirmation env uri).isSome = true ↔
      (env.options.redirection_policy = WarnAlways ∨
        (bitAnd env.options.redirection_policy WarnOnSchemeChange ≠ 0 ∧
          (redirectTarget s.current_location uri).scheme ≠ s.current_location.scheme) ∨
        (bitAnd env.options.redirection_policy WarnOnHostChange ≠ 0 ∧
          (redirectTarget s.current_location uri).host ≠ s.current_location.host)) := by
    unfold BrowserTab.redirectConfirmation
    rw [hiff]
    simp only [bne_iff_ne, ne_eq]
    constructor
    · rintro (h | ⟨h1, h2⟩ | ⟨h1, h2⟩)
      · exact Or.inl h
      · exact Or.inr (Or.inl ⟨h1, fun e => h2 e.symm⟩)
      · exact Or.inr (Or.inr ⟨h1, fun e => h2 e.symm⟩)
    · rintro (h | ⟨h1, h2⟩ | ⟨h1, h2⟩)
      · exact Or.inl h
      · exact Or.inr (Or.inl ⟨h1, fun e => h2 e.symm⟩)
      · exact Or.inr (Or.inr ⟨h1, fun e => h2 e.symm⟩)
  have hfirst : (((s.on_redirected env uri is_permanent).tab.trace.drop s.trace.length).filter
        Effect.isRedirectQuestion).length =
      if env.options.redirection_policy = WarnAlways ∨
          (bitAnd env.options.redirection_policy WarnOnSchemeChange ≠ 0 ∧
            (redirectTarget s.current_location uri).scheme ≠ s.current_location.scheme) ∨
          (bitAnd env.options.redirection_policy WarnOnHostChange ≠ 0 ∧
            (redirectTarget s.current_location uri).host ≠ s.current_location.host)
        then 1 else 0 := by
    rw [hmain]
    by_cases hc : (s.redirectConfirmation env uri).isSome = true
    · rw [if_pos hc, if_pos (hcond.1 hc)]
    · rw [if_neg hc, if_neg (fun h => hc (hcond.2 h))]
  refine ⟨hfirst, ?_, ?_, ?_⟩
  · intro hp
    rw [hfirst, hp]
    have e1 : bitAnd WarnNever WarnOnSchemeChange = 0 := by decide
    have e2 : bitAnd WarnNever WarnOnHostChange = 0 := by decide
    have e3 : ¬ WarnNever = WarnAlways := by decide
    simp [e1, e2, e3]
  · intro hp
    rw [hfirst, hp]
    simp
  · intro hp
    rw [hfirst, hp]
    have e1 : bitAnd WarnOnHostChange WarnOnSchemeChange = 0 := by decide
    have e2 : bitAnd WarnOnHostChange WarnOnHostChange ≠ 0 := by decide
    have e3 : ¬ WarnOnHostChange = WarnAlways := by decide
    simp [e1, e2, e3]

theorem C10_redirect_warning_witness :
    ((((sampleNavigated.on_redirected (sampleEnv 3 WarnOnHostChange)
          (geminiUrl "other.example" "/") false).tab.trace.drop
          sampleNavigated.trace.length).filter Effect.isRedirectQuestion).length =
      if (sampleEnv 3 WarnOnHostChange).options.redirection_policy = WarnAlways ∨
          (bitAnd (sampleEnv 3 WarnOnHostChange).options.redirection_policy WarnOnSchemeChange ≠ 0 ∧
            (redirectTarget sampleNavigated.current_location
              (geminiUrl "other.example" "/")).scheme ≠ sampleNavigated.current_location.scheme) ∨
          (bitAnd (sampleEnv 3 WarnOnHostChange).options.redirection_policy WarnOnHostChange ≠ 0 ∧
            (redirectTarget sampleNavigated.current_location
              (geminiUrl "other.example" "/")).host ≠ sampleNavigated.current_location.host)
        then 1 else 0) ∧
    ((sampleEnv 3 WarnOnHostChange).options.redirection_policy = WarnNever →
      (((sampleNavigated.on_redirected (sampleEnv 3 WarnOnHostChange)
          (geminiUrl "other.example" "/") false).tab.trace.drop
          sampleNavigated.trace.length).filter Effect.isRedirectQuestion).length = 0) ∧
    ((sampleEnv 3 WarnOnHostChange).options.redirection_policy = WarnAlways →
      (((sampleNavigated.on_redirected (sampleEnv 3 WarnOnHostChange)
          (geminiUrl "other.example" "/") false).tab.trace.drop
          sampleNavigated.trace.length).filter Effect.isRedirectQuestion).length = 1) ∧
    ((sampleEnv 3 WarnOnHostChange).options.redirection_policy = WarnOnHostChange →
      (((sampleNavigated.on_redirected (sampleEnv 3 WarnOnHostChange)
          (geminiUrl "other.example" "/") false).tab.trace.drop
          sampleNavigated.trace.length).filter Effect.isRedirectQuestion).length =
        if (redirectTarget sampleNavigated.current_location
            (geminiUrl "other.example" "/")).host ≠ sampleNavigated.current_location.host
          then 1 else 0) :=
  C10_redirect_warning sampleNavigated (sampleEnv 3 WarnOnHostChange)
    (geminiUrl "other.example" "/") false (by decide)

/-! ### The delivery of a page -/

theorem Delivered.same (s : BrowserTab) : Delivered s s :=
  { protocol_handlers := rfl, current_handler := rfl, current_location := rfl,
    current_identity := rfl, current_server_certificate := rfl, redirection_count := rfl,
    was_read_from_cache := rfl, history := rfl, current_history_index := rfl, url_bar := rfl,
    scroll_bar := rfl, is_internal_location := fun h => h, cache := fun _ => rfl,
    trace := ⟨[], by simp, by simp, by simp⟩ }

theorem Delivered.keeps_uncacheable {s t : BrowserTab} (h : Delivered s t) (hs : s.uncacheable) :
    t.uncacheable := by
  rcases hs with hi | hr | hv
  · exact Or.inl (h.is_internal_location hi)
  · exact Or.inr (Or.inl (by rw [h.was_read_from_cache]; exact hr))
  · exact Or.inr (Or.inr (by rw [h.current_identity]; exact hv))

theorem Delivered.andThen {s t u : BrowserTab} (h1 : Delivered s t) (h2 : Delivered t u) :
    Delivered s u := by
  obtain ⟨a1, e1, d1, q1⟩ := h1.trace
  obtain ⟨a2, e2, d2, q2⟩ := h2.trace
  exact
    { protocol_handlers := h2.protocol_handlers.trans h1.protocol_handlers
      current_handler := h2.current_handler.trans h1.current_handler
      current_location := h2.current_location.trans h1.current_location
      current_identity := h2.current_identity.trans h1.current_identity
      current_server_certificate :=
        h2.current_server_certificate.trans h1.current_server_certificate
      redirection_count := h2.redirection_count.trans h1.redirection_count
      was_read_from_cache := h2.was_read_from_cache.trans h1.was_read_from_cache
      history := h2.history.trans h1.history
      current_history_index := h2.current_history_index.trans h1.current_history_index
      url_bar := h2.url_bar.trans h1.url_bar
      scroll_bar := h2.scroll_bar.trans h1.scroll_bar
      is_internal_location := fun h => h2.is_internal_location (h1.is_internal_location h)
      cache := fun h => (h2.cache (h1.keeps_uncacheable h)).trans (h1.cache h)
      trace := by
        refine ⟨a1 ++ a2, by rw [e2, e1, List.append_assoc], ?_, ?_⟩
        · intro e he
          rcases List.mem_append.1 he with h | h
          · exact d1 e h
          · exact d2 e h
        · intro hs e he
          rcases List.mem_append.1 he with h | h
          · exact q1 hs e h
          · exact q2 (h1.keeps_uncacheable hs) e h }

/-- A step that keeps the members of `Delivered` and adds the listed effects,
none of them an insertion into the cache. -/
theorem Delivered.by_added {s t : BrowserTab} (added : List Effect)
    (h1 : t.protocol_handlers = s.protocol_handlers)
    (h2 : t.current_handler = s.current_handler)
    (h3 : t.current_location = s.current_location)
    (h4 : t.current_identity = s.current_identity)
    (h5 : t.current_server_certificate = s.current_server_certificate)
    (h6 : t.redirection_count = s.redirection_count)
    (h7 : t.was_read_from_cache = s.was_read_from_cache)
    (h8 : t.history = s.history)
    (h9 : t.current_history_index = s.current_history_index)
    (h10 : t.url_bar = s.url_bar)
    (h11 : t.scroll_bar = s.scroll_bar)
    (h12 : s.is_internal_location = true → t.is_internal_location = true)
    (h13 : t.cache = s.cache)
    (ht : t.trace = s.trace ++ added)
    (hd : ∀ e ∈ added, e.isDelivery = true)
    (hq : ∀ e ∈ added, e.isCachePush = false) : Delivered s t :=
  { protocol_handlers := h1, current_handler := h2, current_location := h3,
    current_identity := h4, current_server_certificate := h5, redirection_count := h6,
    was_read_from_cache := h7, history := h8, current_history_index := h9, url_bar := h10,
    scroll_bar := h11, is_internal_location := h12, cache := fun _ => h13,
    trace := ⟨added, ht, hd, fun _ => hq⟩ }

theorem Delivered.of_enterRequestComplete (s : BrowserTab) (ref_data : QByteArray)
    (mime : MimeType) : Delivered s (s.enterRequestComplete ref_data mime) :=
  Delivered.by_added [Effect.requestComplete ref_data mime] rfl rfl rfl rfl rfl rfl rfl rfl rfl
    rfl rfl (fun h => h) rfl rfl (by simp [Effect.isDelivery]) (by simp [Effect.isCachePush])

theorem Delivered.of_answered (s : BrowserTab) (charset : QString) (yes : Bool)
    (rest : List Bool) :
    Delivered s (s.answered (Question.charsetConversionFailed charset) yes rest) :=
  Delivered.by_added [Effect.question (Question.charsetConversionFailed charset) yes]
    rfl rfl rfl rfl rfl rfl rfl rfl rfl rfl rfl (fun h => h) rfl rfl
    (by simp [Effect.isDelivery]) (by simp [Effect.isCachePush])

theorem Delivered.of_beginErrorMessage (s : BrowserTab) (charset : QString) :
    Delivered s (s.beginErrorMessage (ErrorMessage.charsetConversionFailed charset)) :=
  Delivered.by_added [Effect.setErrorMessage (ErrorMessage.charsetConversionFailed charset)]
    rfl rfl rfl rfl rfl rfl rfl rfl rfl rfl rfl (fun _ => rfl) rfl rfl
    (by simp [Effect.isDelivery]) (by simp [Effect.isCachePush])

theorem Delivered.of_updateUI (s : BrowserTab) : Delivered s s.updateUI :=
  Delivered.by_added [] rfl rfl rfl rfl rfl rfl rfl rfl rfl rfl rfl (fun h => h) rfl
    (by simp [BrowserTab.updateUI, BrowserTab.refreshFavButton]) (by simp) (by simp)

/-- Which types the chain of branches of `renderPage` leaves cacheable: the
type `text`, unless the page is shown as a theme preview. -/
theorem renderKind_will_cache (plaintext_only : Bool) (mime : MimeType) :
    (renderKind plaintext_only mime).will_cache =
      (mime.is "text" && !(!plaintext_only && mime.is2 "text" "x-kristall-theme")) := by
  unfold renderKind
  cases plaintext_only <;> by_cases ht : mime.type = "text" <;>
    by_cases h4 : mime.subtype = "x-kristall-theme" <;>
    simp [MimeType.is2, MimeType.is, ht, h4] <;>
    (try split_ifs) <;> simp_all

/-- The insertion condition of `renderPage`, spelled out: the type is `text`,
the page is not a theme preview, the location is not internal, the page was not
read from the cache and no client identity is active. -/
theorem willPush_iff (s : BrowserTab) (env : Env) (mime : MimeType) :
    s.willPush env mime = true ↔
      (mime.type = "text" ∧
        ¬ (env.options.text_display ≠ TextDisplay.PlainText ∧ mime.subtype = "x-kristall-theme")) ∧
      s.is_internal_location = false ∧ s.was_read_from_cache = false ∧
      s.current_identity.isValid = false := by
  unfold BrowserTab.willPush
  rw [renderKind_will_cache]
  by_cases hp : env.options.text_display = TextDisplay.PlainText
  · simp [MimeType.is2, MimeType.is, and_assoc, hp]
  · simp [MimeType.is2, MimeType.is, and_assoc, hp]
    intro h1 _ _ _ h2
    exact absurd h1 h2

theorem willPush_of_uncacheable (s : BrowserTab) (env : Env) (mime : MimeType)
    (h : s.uncacheable) : s.willPush env mime = false := by
  unfold BrowserTab.willPush
  rcases h with h | h | h <;> simp [h]

/-- The cache after `renderPage`. -/
theorem renderPage_cache (s : BrowserTab) (env : Env) (data : QByteArray) (mime : MimeType) :
    (s.renderPage env data mime).cache =
      if s.willPush env mime = true then
        s.cache.push env.options env.now s.current_location data mime
      else s.cache := by
  unfold BrowserTab.renderPage BrowserTab.willPush
  simp only [BrowserTab.log, BrowserTab.updateUI, BrowserTab.refreshFavButton]
  split_ifs <;> rfl

/-- The trace after `renderPage`. -/
theorem renderPage_trace (s : BrowserTab) (env : Env) (data : QByteArray) (mime : MimeType) :
    (s.renderPage env data mime).trace =
      s.trace ++ (Effect.renderPage data mime ::
        ((if (renderKind (decide (env.options.text_display = TextDisplay.PlainText))
              mime).theme_preview = true then [Effect.writePreviewTheme data] else []) ++
          (Effect.locationChanged s.current_location ::
            (if s.willPush env mime = true then [Effect.cachePush s.current_location]
             else [])))) := by
  unfold BrowserTab.renderPage BrowserTab.willPush
  simp only [BrowserTab.log, BrowserTab.updateUI, BrowserTab.refreshFavButton]
  split_ifs <;> simp

theorem Delivered.of_renderPage (s : BrowserTab) (env : Env) (data : QByteArray) (mime : MimeType) :
    Delivered s (s.renderPage env data mime) := by
  have hc := renderPage_cache s env data mime
  have ht := renderPage_trace s env data mime
  have hf := Frame.renderPage s env data mime
  refine
    { protocol_handlers := ?_, current_handler := ?_, current_location := ?_,
      current_identity := ?_, current_server_certificate := ?_, redirection_count := ?_,
      was_read_from_cache := ?_, history := ?_, current_history_index := ?_, url_bar := ?_,
      scroll_bar := ?_, is_internal_location := ?_, cache := ?_, trace := ?_ }
  case refine_13 =>
    intro hu
    rw [hc, willPush_of_uncacheable s env mime hu]
    simp
  case refine_14 =>
    refine ⟨_, ht, ?_, ?_⟩
    · obtain ⟨_, added, hadd, hall⟩ := hf
      rw [ht] at hadd
      rw [List.append_cancel_left hadd]
      exact hall
    · intro hu e he
      rw [willPush_of_uncacheable s env mime hu] at he
      simp only [Bool.false_eq_true, if_false, List.mem_cons, List.mem_append,
        List.mem_singleton, List.not_mem_nil, or_false] at he
      rcases he with rfl | h | rfl
      · rfl
      · split_ifs at h
        · simp at h
          subst h
          rfl
        · simp at h
      · rfl
  all_goals
    unfold BrowserTab.renderPage
    simp only [BrowserTab.log, BrowserTab.updateUI, BrowserTab.refreshFavButton]
    split_ifs <;> first | rfl | exact fun h => h

/-- A step that changes none of the members of `Delivered` nor the trace. -/
theorem Delivered.by_same {s t : BrowserTab}
    (h1 : t.protocol_handlers = s.protocol_handlers)
    (h2 : t.current_handler = s.current_handler)
    (h3 : t.current_location = s.current_location)
    (h4 : t.current_identity = s.current_identity)
    (h5 : t.current_server_certificate = s.current_server_certificate)
    (h6 : t.redirection_count = s.redirection_count)
    (h7 : t.was_read_from_cache = s.was_read_from_cache)
    (h8 : t.history = s.history)
    (h9 : t.current_history_index = s.current_history_index)
    (h10 : t.url_bar = s.url_bar)
    (h11 : t.scroll_bar = s.scroll_bar)
    (h12 : t.is_internal_location = s.is_internal_location)
    (h13 : t.cache = s.cache)
    (ht : t.trace = s.trace) : Delivered s t :=
  Delivered.by_added [] h1 h2 h3 h4 h5 h6 h7 h8 h9 h10 h11 (fun h => by rw [h12]; exact h) h13
    (by simp [ht]) (by simp) (by simp)

theorem Delivered.of_completeRequest (s : BrowserTab) (env : Env) (data ref_data : QByteArray)
    (mime : MimeType) : Delivered s (s.completeRequest env data ref_data mime) := by
  unfold BrowserTab.completeRequest
  have h1 : Delivered s { s with successfully_loaded := true } :=
    Delivered.by_same rfl rfl rfl rfl rfl rfl rfl rfl rfl rfl rfl rfl rfl rfl
  have h2 := Delivered.of_renderPage { s with successfully_loaded := true } env data mime
  exact h1.andThen (h2.andThen
    (Delivered.by_same rfl rfl rfl rfl rfl rfl rfl rfl rfl rfl rfl rfl rfl rfl))

/-- After the rendering part of `on_requestComplete` the tab counts as
successfully loaded and the favourite button is enabled. -/
theorem completeRequest_loaded (s : BrowserTab) (env : Env) (data ref_data : QByteArray)
    (mime : MimeType) :
    (s.completeRequest env data ref_data mime).successfully_loaded = true ∧
      (s.completeRequest env data ref_data mime).fav_button_enabled = true := by
  unfold BrowserTab.completeRequest BrowserTab.renderPage
  simp only [BrowserTab.log, BrowserTab.updateUI, BrowserTab.refreshFavButton]
  split_ifs <;> exact ⟨rfl, rfl⟩

/-- What is rendered by the rendering part of `on_requestComplete`. -/
theorem completeRequest_buffer (s : BrowserTab) (env : Env) (data ref_data : QByteArray)
    (mime : MimeType) :
    (s.completeRequest env data ref_data mime).current_buffer = data ∧
      (s.completeRequest env data ref_data mime).current_mime = mime ∧
      ∃ rest, (s.completeRequest env data ref_data mime).trace =
        s.trace ++ Effect.renderPage data mime :: rest := by
  unfold BrowserTab.completeRequest
  refine ⟨?_, ?_, ?_⟩
  · unfold BrowserTab.renderPage
    simp only [BrowserTab.log, BrowserTab.updateUI, BrowserTab.refreshFavButton]
    split_ifs <;> rfl
  · unfold BrowserTab.renderPage
    simp only [BrowserTab.log, BrowserTab.updateUI, BrowserTab.refreshFavButton]
    split_ifs <;> rfl
  · exact ⟨_, renderPage_trace { s with successfully_loaded := true } env data mime⟩

/-- The part of `on_requestComplete` after its entry. -/
theorem Delivered.of_on_requestCompleteAux (env : Env) (answers : List Bool) :
    ∀ (s : BrowserTab) (ref_data : QByteArray) (mime : MimeType),
      Delivered (s.enterRequestComplete ref_data mime)
        (BrowserTab.on_requestCompleteAux env answers s ref_data mime) := by
  induction answers with
  | nil =>
    intro s ref_data mime
    cases h : BrowserTab.convertedData env ref_data mime with
    | some data =>
      rw [on_requestCompleteAux_converted env _ s ref_data data mime h]
      exact Delivered.of_completeRequest _ env _ _ _
    | none =>
      rw [on_requestCompleteAux_nil env s ref_data mime h]
      exact (Delivered.of_answered _ _ _ _).andThen (Delivered.of_completeRequest _ env _ _ _)
  | cons a rest ih =>
    intro s ref_data mime
    cases h : BrowserTab.convertedData env ref_data mime with
    | some data =>
      rw [on_requestCompleteAux_converted env _ s ref_data data mime h]
      exact Delivered.of_completeRequest _ env _ _ _
    | none =>
      cases a with
      | true =>
        rw [on_requestCompleteAux_yes env rest s ref_data mime h]
        exact (Delivered.of_answered _ _ _ _).andThen (Delivered.of_completeRequest _ env _ _ _)
      | false =>
        rw [on_requestCompleteAux_no env rest s ref_data mime h]
        refine (Delivered.of_answered _ (BrowserTab.charsetOf mime) false rest).andThen ?_
        refine (Delivered.of_beginErrorMessage _ (BrowserTab.charsetOf mime)).andThen ?_
        exact (Delivered.of_enterRequestComplete _ _ _).andThen
          ((ih _ _ _).andThen (Delivered.of_updateUI _))

theorem Delivered.of_on_requestComplete (s : BrowserTab) (env : Env) (ref_data : QByteArray)
    (mime : MimeType) : Delivered s (s.on_requestComplete env ref_data mime) :=
  (Delivered.of_enterRequestComplete s ref_data mime).andThen
    (Delivered.of_on_requestCompleteAux env _ s ref_data mime)

/-- The trace of `on_requestComplete`: the entry with the data and the type it
was called with, then delivery effects, without an insertion into the cache
where the tab was not cacheable. -/
theorem on_requestComplete_trace (s : BrowserTab) (env : Env) (ref_data : QByteArray)
    (mime : MimeType) :
    ∃ rest, (s.on_requestComplete env ref_data mime).trace =
        s.trace ++ Effect.requestComplete ref_data mime :: rest ∧
      (∀ e ∈ rest, e.isDelivery = true) ∧
      (s.uncacheable → ∀ e ∈ rest, e.isCachePush = false) := by
  have hd := Delivered.of_on_requestCompleteAux env s.pending_answers s ref_data mime
  obtain ⟨rest, ht, hall, hq⟩ := hd.trace
  refine ⟨rest, ?_, hall, fun hu =>
    hq ((Delivered.of_enterRequestComplete s ref_data mime).keeps_uncacheable hu)⟩
  unfold BrowserTab.on_requestComplete
  rw [ht]
  simp [BrowserTab.enterRequestComplete, BrowserTab.log]

/-- After `on_requestComplete` the tab counts as successfully loaded and the
favourite button is enabled, whatever was delivered. -/
theorem on_requestCompleteAux_loaded (env : Env) (answers : List Bool) :
    ∀ (s : BrowserTab) (ref_data : QByteArray) (mime : MimeType),
      (BrowserTab.on_requestCompleteAux env answers s ref_data mime).successfully_loaded = true ∧
      (BrowserTab.on_requestCompleteAux env answers s ref_data mime).fav_button_enabled = true := by
  induction answers with
  | nil =>
    intro s ref_data mime
    cases h : BrowserTab.convertedData env ref_data mime with
    | some data =>
      rw [on_requestCompleteAux_converted env _ s ref_data data mime h]
      exact completeRequest_loaded _ env _ _ _
    | none =>
      rw [on_requestCompleteAux_nil env s ref_data mime h]
      exact completeRequest_loaded _ env _ _ _
  | cons a rest ih =>
    intro s ref_data mime
    cases h : BrowserTab.convertedData env ref_data mime with
    | some data =>
      rw [on_requestCompleteAux_converted env _ s ref_data data mime h]
      exact completeRequest_loaded _ env _ _ _
    | none =>
      cases a with
      | true =>
        rw [on_requestCompleteAux_yes env rest s ref_data mime h]
        exact completeRequest_loaded _ env _ _ _
      | false =>
        rw [on_requestCompleteAux_no env rest s ref_data mime h]
        exact ⟨(ih _ _ _).1, (ih _ _ _).1⟩

/-- The delivery of the error page by `setErrorMessage`. -/
theorem Delivered.of_setErrorMessage (s : BrowserTab) (env : Env) (msg : ErrorMessage) :
    Delivered (s.beginErrorMessage msg) (s.setErrorMessage env msg) := by
  unfold BrowserTab.setErrorMessage BrowserTab.on_requestCompleteText
  exact (Delivered.of_on_requestComplete _ env _ _).andThen (Delivered.of_updateUI _)

/-- The trace of `setErrorMessage`: the message, the delivery of its error
page, and delivery effects without an insertion into the cache. -/
theorem setErrorMessage_delivery (s : BrowserTab) (env : Env) (msg : ErrorMessage) :
    ∃ rest, (s.setErrorMessage env msg).trace =
        s.trace ++ Effect.setErrorMessage msg ::
          Effect.requestComplete (BrowserTab.errorPage env msg) (BrowserTab.errorMime env) ::
            rest ∧
      ∀ e ∈ rest, e.isDelivery = true ∧ e.isCachePush = false := by
  have hu : (s.beginErrorMessage msg).uncacheable := Or.inl rfl
  obtain ⟨rest, ht, hall, hq⟩ := on_requestComplete_trace (s.beginErrorMessage msg) env
    (BrowserTab.errorPage env msg) (BrowserTab.errorMime env)
  refine ⟨rest, ?_, fun e he => ⟨hall e he, hq hu e he⟩⟩
  have h2 : (s.setErrorMessage env msg).trace =
      ((s.beginErrorMessage msg).on_requestComplete env (BrowserTab.errorPage env msg)
        (BrowserTab.errorMime env)).trace := rfl
  rw [h2, ht]
  simp [BrowserTab.beginErrorMessage, BrowserTab.log]

/-- After `setErrorMessage` the tab counts as successfully loaded. -/
theorem setErrorMessage_loaded (s : BrowserTab) (env : Env) (msg : ErrorMessage) :
    (s.setErrorMessage env msg).successfully_loaded = true ∧
      (s.setErrorMessage env msg).fav_button_enabled = true := by
  have h := on_requestCompleteAux_loaded env (s.beginErrorMessage msg).pending_answers
    (s.beginErrorMessage msg) (BrowserTab.errorPage env msg)
    (env.parseMime "text/plain charset=utf-8")
  exact ⟨h.1, h.1⟩

/-! ### Claims on declined redirects and on the checks of `navigateTo` -/

/-- When the confirmation of a redirect is asked and answered No,
`on_redirected` ends with `setErrorMessage` in the tab that has asked. -/
theorem on_redirected_declined (s : BrowserTab) (env : Env) (uri : QUrl) (p : Bool)
    (q : Question) (h : s.redirection_count < env.options.max_redirections)
    (hq : s.redirectConfirmation env uri = some q) (hno : s.nextAnswer = false) :
    s.on_redirected env uri p =
      Outcome.done RedirectExit.cancelledByUser
        ((BrowserTab.answered { s with network_timeout_timer := none } q false
            s.pending_answers.tail).setErrorMessage env
          (ErrorMessage.redirectionCancelled (redirectTarget s.current_location uri))) := by
  obtain ⟨s2, _, _, heq⟩ := on_redirected_below s env uri p h
  have hn : ¬ s.redirection_count ≥ env.options.max_redirections := not_le.2 h
  have hno2 : BrowserTab.nextAnswer { s with network_timeout_timer := none } = false := hno
  unfold BrowserTab.redirectConfirmation at hq
  unfold BrowserTab.on_redirected
  dsimp only
  rw [if_neg hn]
  simp only [hq, hno2, Bool.not_false, if_true, BrowserTab.asked]

/-- C11: when `on_redirected` asks for the confirmation of a redirect and the
user does not answer Yes, the navigation ends with the error page
"Redirection to ... cancelled by user": the trace gets the question with the
answer No, the error message and the delivery of its page, `startRequest` is
not called, and `redirection_count`, `current_location`, the history and the
cache are those of before. -/
theorem C11_redirect_declined (s : BrowserTab) (env : Env) (uri : QUrl) (p : Bool)
    (q : Question) (hlim : s.redirection_count < env.options.max_redirections)
    (hq : s.redirectConfirmation env uri = some q) (hno : s.nextAnswer = false) :
    ∃ t rest,
      s.on_redirected env uri p = Outcome.done RedirectExit.cancelledByUser t ∧
      t.trace = s.trace ++ Effect.question q false ::
        Effect.setErrorMessage
          (ErrorMessage.redirectionCancelled (redirectTarget s.current_location uri)) ::
        Effect.requestComplete
          (env.toUtf8 ("An error happened:\r\n" ++ ("Redirection to " ++
            env.urlToString (redirectTarget s.current_location uri) ++ " cancelled by user")))
          (env.parseMime "text/plain charset=utf-8") :: rest ∧
      (∀ e ∈ rest, e.isDelivery = true) ∧
      startRequests t.trace = startRequests s.trace ∧
      t.redirection_count = s.redirection_count ∧
      t.current_location = s.current_location ∧
      t.is_internal_location = true ∧
      t.history = s.history ∧
      t.cache = s.cache := by
  have heq := on_redirected_declined s env uri p q hlim hq hno
  have hd := Delivered.of_setErrorMessage
    (BrowserTab.answered { s with network_timeout_timer := none } q false s.pending_answers.tail)
    env (ErrorMessage.redirectionCancelled (redirectTarget s.current_location uri))
  obtain ⟨rest, ht, hall⟩ := setErrorMessage_delivery
    (BrowserTab.answered { s with network_timeout_timer := none } q false s.pending_answers.tail)
    env (ErrorMessage.redirectionCancelled (redirectTarget s.current_location uri))
  have ht2 : ((BrowserTab.answered { s with network_timeout_timer := none } q false
        s.pending_answers.tail).setErrorMessage env
        (ErrorMessage.redirectionCancelled (redirectTarget s.current_location uri))).trace =
      s.trace ++ Effect.question q false ::
        Effect.setErrorMessage
          (ErrorMessage.redirectionCancelled (redirectTarget s.current_location uri)) ::
        Effect.requestComplete
          (env.toUtf8 ("An error happened:\r\n" ++ ("Redirection to " ++
            env.urlToString (redirectTarget s.current_location uri) ++ " cancelled by user")))
          (env.parseMime "text/plain charset=utf-8") :: rest := by
    rw [ht]
    simp [BrowserTab.answered, BrowserTab.errorPage, BrowserTab.errorMime, ErrorMessage.text]
  refine ⟨_, rest, heq, ht2, fun e he => (hall e he).1, ?_, hd.redirection_count,
    hd.current_location, hd.is_internal_location rfl, hd.history, hd.cache (Or.inl rfl)⟩
  rw [ht2, startRequests_append]
  have hr : startRequests rest = [] := startRequests_of_delivery rest (fun e he => (hall e he).1)
  have : startRequests (Effect.question q false ::
        Effect.setErrorMessage
          (ErrorMessage.redirectionCancelled (redirectTarget s.current_location uri)) ::
        Effect.requestComplete
          (env.toUtf8 ("An error happened:\r\n" ++ ("Redirection to " ++
            env.urlToString (redirectTarget s.current_location uri) ++ " cancelled by user")))
          (env.parseMime "text/plain charset=utf-8") :: rest) = [] := by
    unfold startRequests at hr ⊢
    simp only [List.filterMap_cons, Effect.startRequestUrl?]
    exact hr
  rw [this, List.append_nil]

theorem C11_redirect_declined_witness :
    sampleDeclining.redirection_count < (sampleEnv 3 WarnAlways).options.max_redirections ∧
    sampleDeclining.redirectConfirmation (sampleEnv 3 WarnAlways) (geminiUrl "example.org" "/a") =
      some (Question.redirectAlways (geminiUrl "example.org" "/a")) ∧
    sampleDeclining.nextAnswer = false ∧
    ∃ t rest,
      sampleDeclining.on_redirected (sampleEnv 3 WarnAlways) (geminiUrl "example.org" "/a") false =
        Outcome.done RedirectExit.cancelledByUser t ∧
      t.trace = sampleDeclining.trace ++
        Effect.question (Question.redirectAlways (geminiUrl "example.org" "/a")) false ::
        Effect.setErrorMessage
          (ErrorMessage.redirectionCancelled
            (redirectTarget sampleDeclining.current_location (geminiUrl "example.org" "/a"))) ::
        Effect.requestComplete
          ((sampleEnv 3 WarnAlways).toUtf8 ("An error happened:\r\n" ++ ("Redirection to " ++
            (sampleEnv 3 WarnAlways).urlToString
              (redirectTarget sampleDeclining.current_location (geminiUrl "example.org" "/a")) ++
            " cancelled by user")))
          ((sampleEnv 3 WarnAlways).parseMime "text/plain charset=utf-8") :: rest ∧
      (∀ e ∈ rest, e.isDelivery = true) ∧
      startRequests t.trace = startRequests sampleDeclining.trace ∧
      t.redirection_count = sampleDeclining.redirection_count ∧
      t.current_location = sampleDeclining.current_location ∧
      t.is_internal_location = true ∧
      t.history = sampleDeclining.history ∧
      t.cache = sampleDeclining.cache :=
  ⟨by decide, by decide, rfl,
    C11_redirect_declined sampleDeclining (sampleEnv 3 WarnAlways) (geminiUrl "example.org" "/a")
      false (Question.redirectAlways (geminiUrl "example.org" "/a")) (by decide) (by decide) rfl⟩

/-- The state in which `navigateTo` calls `startRequest` after the running
request has been cancelled. -/
theorem navigateTo_cancelled (s : BrowserTab) (env : Env) (url : QUrl) (mode : PushToHistory)
    (flags : RequestFlags) (h : env.isSchemeSupported url.scheme = ProtocolSupport.Enabled)
    (handler : Nat) (hh : s.current_handler = some handler)
    (hc : env.handlerCancelRequest handler = true) :
    ∃ s1 : BrowserTab, s1.trace = s.trace ++ [Effect.cancelRequest handler true] ∧
      s.navigateTo env url mode flags =
        match s1.startRequest env url RequestOptions.Default flags with
        | Outcome.aborted t => Outcome.aborted t
        | Outcome.done false t =>
          Outcome.done NavigateExit.requestFailed
            (t.log (Effect.notice (Notice.requestFailed url)))
        | Outcome.done true t =>
          Outcome.done NavigateExit.started
            (BrowserTab.updateUI
              (if mode = PushToHistory.PushImmediate then t.pushToHistory url else t)) := by
  unfold BrowserTab.navigateTo
  rw [if_neg (by simp [h])]
  dsimp only
  simp only [hh, hc, Bool.not_true, Bool.false_eq_true, if_false]
  refine ⟨_, ?_, rfl⟩
  split <;> rfl

/-- C13: `navigateTo` with a location whose scheme is not reported as
`Enabled` returns after the warning with the tab as it was: the running
request is not cancelled, `redirection_count`, the cache and the history are
untouched, and `startRequest` is not called. -/
theorem C13_scheme_rejected (s : BrowserTab) (env : Env) (url : QUrl) (mode : PushToHistory)
    (flags : RequestFlags) (h : env.isSchemeSupported url.scheme ≠ ProtocolSupport.Enabled) :
    s.navigateTo env url mode flags =
      Outcome.done NavigateExit.schemeRejected
        { s with trace := s.trace ++ [Effect.notice (Notice.schemeNotSupported url.scheme)] } ∧
    (s.navigateTo env url mode flags).tab.redirection_count = s.redirection_count ∧
    (s.navigateTo env url mode flags).tab.current_handler = s.current_handler ∧
    (s.navigateTo env url mode flags).tab.current_location = s.current_location ∧
    (s.navigateTo env url mode flags).tab.successfully_loaded = s.successfully_loaded ∧
    (s.navigateTo env url mode flags).tab.cache = s.cache ∧
    (s.navigateTo env url mode flags).tab.history = s.history ∧
    startRequests (s.navigateTo env url mode flags).tab.trace = startRequests s.trace := by
  rw [navigateTo_rejected s env url mode flags h]
  refine ⟨rfl, rfl, rfl, rfl, rfl, rfl, rfl, ?_⟩
  simp [Outcome.tab, BrowserTab.log, startRequests, Effect.startRequestUrl?]

theorem C13_scheme_rejected_witness :
    (sampleEnv 3 WarnNever).isSchemeSupported ftpUrl.scheme ≠ ProtocolSupport.Enabled ∧
    sampleNavigated.navigateTo (sampleEnv 3 WarnNever) ftpUrl PushToHistory.PushImmediate
        RequestFlags.None =
      Outcome.done NavigateExit.schemeRejected
        { sampleNavigated with
          trace := sampleNavigated.trace ++
            [Effect.notice (Notice.schemeNotSupported ftpUrl.scheme)] } :=
  ⟨by decide,
    (C13_scheme_rejected sampleNavigated (sampleEnv 3 WarnNever) ftpUrl
      PushToHistory.PushImmediate RequestFlags.None (by decide)).1⟩

/-- C12, as stated, fails on a location whose scheme is not enabled: the
sample tab has a current handler, and `navigateTo` returns after the warning
without a call of `cancelRequest`. -/
theorem C12_counterexample :
    sampleNavigated.current_handler = some 0 ∧
    sampleNavigated.navigateTo (sampleEnv 3 WarnNever) ftpUrl PushToHistory.PushImmediate
        RequestFlags.None =
      Outcome.done NavigateExit.schemeRejected
        (sampleNavigated.log (Effect.notice (Notice.schemeNotSupported "ftp"))) ∧
    (sampleNavigated.log (Effect.notice (Notice.schemeNotSupported "ftp"))).trace.any
      Effect.isCancelRequest = false :=
  ⟨by decide, navigateTo_rejected sampleNavigated (sampleEnv 3 WarnNever) ftpUrl
    PushToHistory.PushImmediate RequestFlags.None (by decide), by decide⟩

/-- C12, amended: when `navigateTo` is called with a location whose scheme is
enabled while a current handler exists, `cancelRequest` is called on it first.
If it returns false, the navigation ends with the tab as it was, the trace
having only the call and the warning; if it returns true, `startRequest` is
called for the location next. -/
theorem C12_single_flight (s : BrowserTab) (env : Env) (url : QUrl) (mode : PushToHistory)
    (flags : RequestFlags) (handler : Nat)
    (hs : env.isSchemeSupported url.scheme = ProtocolSupport.Enabled)
    (hh : s.current_handler = some handler) :
    (env.handlerCancelRequest handler = false →
      s.navigateTo env url mode flags =
        Outcome.done NavigateExit.cancelFailed
          { s with trace := s.trace ++
            [Effect.cancelRequest handler false, Effect.notice Notice.cancelFailed] } ∧
      startRequests (s.navigateTo env url mode flags).tab.trace = startRequests s.trace) ∧
    (env.handlerCancelRequest handler = true →
      ∃ rest, (s.navigateTo env url mode flags).tab.trace =
        s.trace ++ Effect.cancelRequest handler true ::
          Effect.startRequest url RequestOptions.Default flags :: rest) := by
  constructor
  · intro hc
    rw [navigateTo_cancelFailed s env url mode flags hs handler hh hc]
    constructor
    · simp [BrowserTab.log]
    · simp [Outcome.tab, BrowserTab.log, startRequests, Effect.startRequestUrl?]
  · intro hc
    obtain ⟨s1, ht1, heq⟩ := navigateTo_cancelled s env url mode flags hs handler hh hc
    obtain ⟨_, added, ht, _⟩ := startRequest_trace s1 env url RequestOptions.Default flags
    rw [heq]
    cases hst : s1.startRequest env url RequestOptions.Default flags with
    | aborted t =>
      rw [hst] at ht
      simp only [Outcome.tab] at ht
      exact ⟨added, by simp [Outcome.tab, ht, ht1]⟩
    | done b t =>
      rw [hst] at ht
      simp only [Outcome.tab] at ht
      cases b with
      | false => exact ⟨added ++ [Effect.notice (Notice.requestFailed url)],
          by simp [Outcome.tab, BrowserTab.log, ht, ht1]⟩
      | true =>
        refine ⟨added, ?_⟩
        by_cases hm : mode = PushToHistory.PushImmediate
        · simp [Outcome.tab, BrowserTab.updateUI, BrowserTab.refreshFavButton,
            BrowserTab.pushToHistory, hm, ht, ht1]
        · simp [Outcome.tab, BrowserTab.updateUI, BrowserTab.refreshFavButton, hm, ht, ht1]

theorem C12_single_flight_witness :
    refusingEnv.isSchemeSupported (geminiUrl "example.org" "/b").scheme =
      ProtocolSupport.Enabled ∧
    sampleNavigated.current_handler = some 0 ∧
    refusingEnv.handlerCancelRequest 0 = false ∧
    sampleNavigated.navigateTo refusingEnv (geminiUrl "example.org" "/b")
        PushToHistory.PushImmediate RequestFlags.None =
      Outcome.done NavigateExit.cancelFailed
        { sampleNavigated with trace := sampleNavigated.trace ++
          [Effect.cancelRequest 0 false, Effect.notice Notice.cancelFailed] } :=
  ⟨by decide, by decide, rfl,
    ((C12_single_flight sampleNavigated refusingEnv (geminiUrl "example.org" "/b")
      PushToHistory.PushImmediate RequestFlags.None 0 (by decide) (by decide)).1 rfl).1⟩

/-! ### Claims on the cache -/

/-- What `renderPage` adds to the trace when it does not insert into the cache. -/
theorem renderPage_no_push (s : BrowserTab) (env : Env) (data : QByteArray) (mime : MimeType)
    (h : s.willPush env mime = false) :
    ∃ added, (s.renderPage env data mime).trace = s.trace ++ added ∧
      ∀ e ∈ added, e.isCachePush = false := by
  refine ⟨_, renderPage_trace s env data mime, ?_⟩
  intro e he
  rw [h] at he
  simp only [Bool.false_eq_true, if_false, List.mem_cons, List.mem_append,
    List.mem_singleton, List.not_mem_nil, or_false] at he
  rcases he with rfl | h | rfl
  · rfl
  · split_ifs at h
    · simp at h
      subst h
      rfl
    · simp at h
  · rfl

/-- C14: `renderPage` puts the page into the cache exactly when the type is
`text` and the page is not shown as a theme preview, the location is not
internal, the page was not read from the cache and no client identity is
valid; otherwise the cache stays as it is and no insertion is made, in
particular for every type other than `text`, for every internal location, for
every page read from the cache and whenever a client identity is valid. A
location with the scheme `about` or `file` is internal from `startRequest` on,
and so is every error page of `setErrorMessage`. -/
theorem C14_cache_insertion (s : BrowserTab) (env : Env) (data : QByteArray) (mime : MimeType) :
    ∃ added, (s.renderPage env data mime).trace = s.trace ++ added ∧
      (((mime.type = "text" ∧
          ¬ (env.options.text_display ≠ TextDisplay.PlainText ∧
            mime.subtype = "x-kristall-theme")) ∧
        s.is_internal_location = false ∧ s.was_read_from_cache = false ∧
        s.current_identity.isValid = false) →
        (s.renderPage env data mime).cache =
          s.cache.push env.options env.now s.current_location data mime ∧
        Effect.cachePush s.current_location ∈ added) ∧
      (¬ ((mime.type = "text" ∧
          ¬ (env.options.text_display ≠ TextDisplay.PlainText ∧
            mime.subtype = "x-kristall-theme")) ∧
        s.is_internal_location = false ∧ s.was_read_from_cache = false ∧
        s.current_identity.isValid = false) →
        (s.renderPage env data mime).cache = s.cache ∧
        ∀ e ∈ added, e.isCachePush = false) ∧
      ((mime.type ≠ "text" ∨ s.is_internal_location = true ∨ s.was_read_from_cache = true ∨
          s.current_identity.isValid = true) →
        (s.renderPage env data mime).cache = s.cache ∧
        ∀ e ∈ added, e.isCachePush = false) ∧
      (∀ url : QUrl, (s.beginDispatch env url).is_internal_location =
        (url.scheme == "about" || url.scheme == "file")) ∧
      (∀ msg : ErrorMessage, (s.beginErrorMessage msg).is_internal_location = true) := by
  have hc := renderPage_cache s env data mime
  have ht := renderPage_trace s env data mime
  have hiff := willPush_iff s env mime
  have hno : s.willPush env mime = false →
      (s.renderPage env data mime).cache = s.cache ∧
      ∀ e ∈ (Effect.renderPage data mime ::
        ((if (renderKind (decide (env.options.text_display = TextDisplay.PlainText))
              mime).theme_preview = true then [Effect.writePreviewTheme data] else []) ++
          (Effect.locationChanged s.current_location ::
            (if s.willPush env mime = true then [Effect.cachePush s.current_location]
             else [])))), e.isCachePush = false := by
    intro hw
    obtain ⟨added, ht2, hall⟩ := renderPage_no_push s env data mime hw
    rw [ht] at ht2
    rw [List.append_cancel_left ht2]
    refine ⟨?_, hall⟩
    rw [hc, hw]
    simp
  refine ⟨_, ht, ?_, ?_, ?_, fun _ => rfl, fun _ => rfl⟩
  · intro hcond
    have hw := hiff.2 hcond
    rw [hc, hw]
    simp
  · intro hcond
    have hw : s.willPush env mime = false := by
      cases h : s.willPush env mime with
      | false => rfl
      | true => exact absurd (hiff.1 h) hcond
    exact hno hw
  · intro hcls
    have hw : s.willPush env mime = false := by
      cases h : s.willPush env mime with
      | false => rfl
      | true =>
        obtain ⟨⟨h1, _⟩, h2, h3, h4⟩ := hiff.1 h
        rcases hcls with h | h | h | h
        · exact absurd h1 h
        · rw [h2] at h
          exact absurd h (by decide)
        · rw [h3] at h
          exact absurd h (by decide)
        · rw [h4] at h
          exact absurd h (by decide)
    exact hno hw

theorem C14_cache_insertion_witness :
    ((samplePage.mime.type = "text" ∧
        ¬ ((sampleEnv 3 WarnNever).options.text_display ≠ TextDisplay.PlainText ∧
          samplePage.mime.subtype = "x-kristall-theme")) ∧
      sampleTab.is_internal_location = false ∧ sampleTab.was_read_from_cache = false ∧
      sampleTab.current_identity.isValid = false) ∧
    (sampleTab.renderPage (sampleEnv 3 WarnNever) samplePage.body samplePage.mime).cache =
      sampleTab.cache.push (sampleEnv 3 WarnNever).options (sampleEnv 3 WarnNever).now
        sampleTab.current_location samplePage.body samplePage.mime :=
  ⟨by decide,
    (C14_cache_insertion sampleTab (sampleEnv 3 WarnNever) samplePage.body samplePage.mime).elim
      (fun _ h => (h.2.1 (by decide)).1)⟩

/-! ### The identity checks of `startRequest` -/

theorem Prepared.unchanged (s : BrowserTab) : Prepared s s :=
  ⟨rfl, rfl, rfl, rfl, rfl, rfl, rfl, rfl, rfl, rfl, rfl, rfl, rfl, rfl, rfl, rfl, rfl,
    ⟨[], by simp, by simp⟩⟩

theorem Prepared.followedBy {s t u : BrowserTab} (h1 : Prepared s t) (h2 : Prepared t u) :
    Prepared s u := by
  obtain ⟨a1, e1, p1⟩ := h1.trace
  obtain ⟨a2, e2, p2⟩ := h2.trace
  exact
    { protocol_handlers := h2.protocol_handlers.trans h1.protocol_handlers
      current_handler := h2.current_handler.trans h1.current_handler
      current_location := h2.current_location.trans h1.current_location
      current_server_certificate :=
        h2.current_server_certificate.trans h1.current_server_certificate
      current_mime := h2.current_mime.trans h1.current_mime
      current_buffer := h2.current_buffer.trans h1.current_buffer
      redirection_count := h2.redirection_count.trans h1.redirection_count
      successfully_loaded := h2.successfully_loaded.trans h1.successfully_loaded
      is_internal_location := h2.is_internal_location.trans h1.is_internal_location
      was_read_from_cache := h2.was_read_from_cache.trans h1.was_read_from_cache
      network_timeout_timer := h2.network_timeout_timer.trans h1.network_timeout_timer
      history := h2.history.trans h1.history
      current_history_index := h2.current_history_index.trans h1.current_history_index
      url_bar := h2.url_bar.trans h1.url_bar
      fav_button_enabled := h2.fav_button_enabled.trans h1.fav_button_enabled
      scroll_bar := h2.scroll_bar.trans h1.scroll_bar
      cache := h2.cache.trans h1.cache
      trace := by
        refine ⟨a1 ++ a2, by rw [e2, e1, List.append_assoc], ?_⟩
        intro e he
        rcases List.mem_append.1 he with h | h
        · exact p1 e h
        · exact p2 e h }

theorem Prepared.of_log (s : BrowserTab) (e : Effect) (he : e.isIdentity = true) :
    Prepared s (s.log e) :=
  ⟨rfl, rfl, rfl, rfl, rfl, rfl, rfl, rfl, rfl, rfl, rfl, rfl, rfl, rfl, rfl, rfl, rfl,
    ⟨[e], rfl, by simpa using he⟩⟩

theorem Prepared.of_asked (s : BrowserTab) (q : Question)
    (he : ∀ yes, (Effect.question q yes).isIdentity = true) : Prepared s (s.asked q) :=
  ⟨rfl, rfl, rfl, rfl, rfl, rfl, rfl, rfl, rfl, rfl, rfl, rfl, rfl, rfl, rfl, rfl, rfl,
    ⟨[Effect.question q s.nextAnswer], rfl, by simpa using he _⟩⟩

theorem Prepared.of_disableClientCertificate (s : BrowserTab) :
    Prepared s s.disableClientCertificate :=
  ⟨rfl, rfl, rfl, rfl, rfl, rfl, rfl, rfl, rfl, rfl, rfl, rfl, rfl, rfl, rfl, rfl, rfl,
    ⟨[Effect.handlerDisableClientCertificate], rfl, by simp [Effect.isIdentity]⟩⟩

theorem Prepared.of_enableClientCertificate (s : BrowserTab) (ident : CryptoIdentity) :
    Prepared s (s.enableClientCertificate ident).2 := by
  unfold BrowserTab.enableClientCertificate
  split_ifs
  · exact (Prepared.of_log s _ (by simp [Effect.isIdentity])).followedBy
      (Prepared.of_disableClientCertificate _)
  · exact ⟨rfl, rfl, rfl, rfl, rfl, rfl, rfl, rfl, rfl, rfl, rfl, rfl, rfl, rfl, rfl, rfl, rfl,
      ⟨[], by simp, by simp⟩⟩

theorem Prepared.of_try_enable_certificate (s : BrowserTab) (env : Env) (url : QUrl)
    (handler : Nat) : Prepared s (s.try_enable_certificate env url handler).2 := by
  unfold BrowserTab.try_enable_certificate
  dsimp only
  split_ifs
  · exact (Prepared.of_log s _ (by simp [Effect.isIdentity])).followedBy
      (Prepared.of_asked _ _ (by simp [Effect.isIdentity]))
  · exact (Prepared.of_log s _ (by simp [Effect.isIdentity])).followedBy
      ((Prepared.of_asked _ _ (by simp [Effect.isIdentity])).followedBy
        (Prepared.of_disableClientCertificate _))
  · exact Prepared.of_log s _ (by simp [Effect.isIdentity])
  · exact Prepared.of_disableClientCertificate _

theorem Prepared.of_offerAutomaticCertificate (s : BrowserTab) (env : Env) (url : QUrl) :
    Prepared s (s.offerAutomaticCertificate env url) := by
  unfold BrowserTab.offerAutomaticCertificate
  split
  · exact Prepared.unchanged _
  · split_ifs
    · exact Prepared.of_asked _ _ (by simp [Effect.isIdentity])
    · exact (Prepared.of_asked _ _ (by simp [Effect.isIdentity])).followedBy
        (Prepared.of_enableClientCertificate _ _)

theorem Prepared.of_checkIdentity (s : BrowserTab) (env : Env) (url : QUrl) :
    Prepared s (s.checkIdentity env url) := by
  unfold BrowserTab.checkIdentity
  have h1 : Prepared s
      (if (s.current_identity.isValid && url.host != s.current_location.host) = true then
        if (!s.nextAnswer) = true then
          (s.asked Question.keepCertificateNewHost).disableClientCertificate
        else s.asked Question.keepCertificateNewHost
      else s) := by
    split_ifs
    · exact (Prepared.of_asked _ _ (by simp [Effect.isIdentity])).followedBy
        (Prepared.of_disableClientCertificate _)
    · exact Prepared.of_asked _ _ (by simp [Effect.isIdentity])
    · exact Prepared.unchanged _
  have h2 : ∀ s1 : BrowserTab, Prepared s1
      (if (s1.current_identity.isValid && env.isHostFiltered s1.current_identity url) = true then
        if (!s1.nextAnswer) = true then
          (s1.asked (Question.keepCertificateHostFilter url
            s1.current_identity.host_filter)).disableClientCertificate
        else s1.asked (Question.keepCertificateHostFilter url s1.current_identity.host_filter)
      else if (!s1.current_identity.isValid) = true then s1.offerAutomaticCertificate env url
      else s1) := by
    intro s1
    split_ifs
    · exact (Prepared.of_asked _ _ (by simp [Effect.isIdentity])).followedBy
        (Prepared.of_disableClientCertificate _)
    · exact Prepared.of_asked _ _ (by simp [Effect.isIdentity])
    · exact Prepared.of_offerAutomaticCertificate _ env url
    · exact Prepared.unchanged _
  exact h1.followedBy (h2 _)

/-- The ways `startRequest` can go: it aborts when no adapter supports the
scheme; it returns false when enabling the client certificate was refused and
the user chose not to go on; or it reaches its last part, `dispatch`, with the
selected adapter, in a tab that differs from the one after the selection only
by the identity checks. -/
theorem startRequest_cases (s : BrowserTab) (env : Env) (url : QUrl) (options : RequestOptions)
    (flags : RequestFlags) :
    (List.findIdx? (fun h : ProtocolHandler => h.supportsScheme url.scheme) s.protocol_handlers
        = none ∧
      s.startRequest env url options flags =
        Outcome.aborted ((s.log (Effect.startRequest url options flags)).selectHandler url)) ∨
    ∃ handler,
      List.findIdx? (fun h : ProtocolHandler => h.supportsScheme url.scheme) s.protocol_handlers
        = some handler ∧
      ((∃ t, Prepared ((s.log (Effect.startRequest url options flags)).selectHandler url) t ∧
          s.startRequest env url options flags = Outcome.done false t) ∨
       (∃ s1, Prepared ((s.log (Effect.startRequest url options flags)).selectHandler url) s1 ∧
          s.startRequest env url options flags = s1.dispatch env handler url options flags)) := by
  unfold BrowserTab.startRequest
  dsimp only
  cases hh : List.findIdx? (fun h : ProtocolHandler => h.supportsScheme url.scheme)
      s.protocol_handlers with
  | none =>
    left
    have : ((s.log (Effect.startRequest url options flags)).selectHandler url).current_handler
        = none := hh
    refine ⟨rfl, ?_⟩
    simp only [this]
  | some handler =>
    right
    have : ((s.log (Effect.startRequest url options flags)).selectHandler url).current_handler
        = some handler := hh
    refine ⟨handler, rfl, ?_⟩
    simp only [this]
    split_ifs
    · left
      exact ⟨_, Prepared.of_try_enable_certificate _ env url handler, rfl⟩
    · left
      exact ⟨_, (Prepared.of_try_enable_certificate _ env url handler).followedBy
        ((Prepared.of_checkIdentity _ env url).followedBy
          (Prepared.of_try_enable_certificate _ env url handler)), rfl⟩
    · right
      exact ⟨_, (Prepared.of_try_enable_certificate _ env url handler).followedBy
        ((Prepared.of_checkIdentity _ env url).followedBy
          (Prepared.of_try_enable_certificate _ env url handler)), rfl⟩

/-! ### The last part of `startRequest`: cache or adapter -/

theorem isAdapterRequest_of_delivery (e : Effect) (h : e.isDelivery = true) :
    e.isAdapterRequest = false ∧ e.isCacheRead = false := by
  cases e <;> simp_all [Effect.isAdapterRequest, Effect.isCacheRead, Effect.isDelivery]

/-- With the flag `DontReadFromCache` or a valid identity, the last part of
`startRequest` is the call of the adapter. -/
theorem dispatch_bypass (s : BrowserTab) (env : Env) (handler : Nat) (url : QUrl)
    (options : RequestOptions) (flags : RequestFlags)
    (h : flags.DontReadFromCache = true ∨ s.current_identity.isValid = true) :
    s.dispatch env handler url options flags =
      Outcome.done (env.handlerStartRequest handler url.removeFragment options)
        ((s.beginDispatch env url).log
          (Effect.handlerStartRequest handler url.removeFragment options
            (env.handlerStartRequest handler url.removeFragment options))) := by
  have hc : (flags.DontReadFromCache || (s.beginDispatch env url).current_identity.isValid)
      = true := by
    have : (s.beginDispatch env url).current_identity = s.current_identity := rfl
    rw [this]
    rcases h with h | h <;> simp [h]
  unfold BrowserTab.dispatch
  dsimp only
  rw [if_pos hc]
  rfl

/-- Without the flag and without a valid identity, a page found in the
cleaned cache is delivered. -/
theorem dispatch_hit (s : BrowserTab) (env : Env) (handler : Nat) (url : QUrl)
    (options : RequestOptions) (flags : RequestFlags) (pg : CachedPage)
    (hflag : flags.DontReadFromCache = false) (hid : s.current_identity.isValid = false)
    (hfind : (s.cache.clean env.options env.now).find url = some pg) :
    s.dispatch env handler url options flags =
      Outcome.done true
        (((s.beginDispatch env url).cleanCache env).deliverCached env url flags pg) := by
  have hc : ¬ (flags.DontReadFromCache || (s.beginDispatch env url).current_identity.isValid)
      = true := by
    have : (s.beginDispatch env url).current_identity = s.current_identity := rfl
    rw [this, hflag, hid]
    simp
  have hf : ((s.beginDispatch env url).cleanCache env).cache.find url = some pg := hfind
  unfold BrowserTab.dispatch
  dsimp only
  rw [if_neg hc]
  simp only [hf]

/-- Without the flag and without a valid identity, a page that is not in the
cleaned cache is requested from the adapter. -/
theorem dispatch_miss (s : BrowserTab) (env : Env) (handler : Nat) (url : QUrl)
    (options : RequestOptions) (flags : RequestFlags)
    (hflag : flags.DontReadFromCache = false) (hid : s.current_identity.isValid = false)
    (hfind : (s.cache.clean env.options env.now).find url = none) :
    s.dispatch env handler url options flags =
      Outcome.done (env.handlerStartRequest handler url.removeFragment options)
        ((((s.beginDispatch env url).cleanCache env).log (Effect.cacheFind url false)).log
          (Effect.handlerStartRequest handler url.removeFragment options
            (env.handlerStartRequest handler url.removeFragment options))) := by
  have hc : ¬ (flags.DontReadFromCache || (s.beginDispatch env url).current_identity.isValid)
      = true := by
    have : (s.beginDispatch env url).current_identity = s.current_identity := rfl
    rw [this, hflag, hid]
    simp
  have hf : ((s.beginDispatch env url).cleanCache env).cache.find url = none := hfind
  unfold BrowserTab.dispatch
  dsimp only
  rw [if_neg hc]
  simp only [hf]
  rfl

/-- The delivery of a cached page by `startRequest`. -/
theorem deliverCached_spec (s : BrowserTab) (env : Env) (url : QUrl) (flags : RequestFlags)
    (pg : CachedPage) :
    ∃ rest, (s.deliverCached env url flags pg).trace =
        s.trace ++ Effect.cacheFind url true :: Effect.requestComplete pg.body pg.mime :: rest ∧
      (∀ e ∈ rest, e.isDelivery = true ∧ e.isCachePush = false) ∧
      (s.deliverCached env url flags pg).was_read_from_cache = true ∧
      (s.deliverCached env url flags pg).cache = s.cache ∧
      (s.deliverCached env url flags pg).scroll_bar =
        (if flags.NavigatedBackOrForward = true ∧ pg.scroll_pos ≠ -1 then pg.scroll_pos
          else s.scroll_bar) ∧
      (s.deliverCached env url flags pg).current_location = s.current_location ∧
      (s.deliverCached env url flags pg).current_identity = s.current_identity ∧
      (s.deliverCached env url flags pg).current_handler = s.current_handler := by
  have hu : BrowserTab.uncacheable
      { s.log (Effect.cacheFind url true) with was_read_from_cache := true } := Or.inr (Or.inl rfl)
  have hd := Delivered.of_on_requestComplete
    { s.log (Effect.cacheFind url true) with was_read_from_cache := true } env pg.body pg.mime
  obtain ⟨rest, ht, hall, hq⟩ := on_requestComplete_trace
    { s.log (Effect.cacheFind url true) with was_read_from_cache := true } env pg.body pg.mime
  have ht2 : ((BrowserTab.on_requestComplete
      { s.log (Effect.cacheFind url true) with was_read_from_cache := true } env pg.body
        pg.mime)).trace =
      s.trace ++ Effect.cacheFind url true :: Effect.requestComplete pg.body pg.mime :: rest := by
    rw [ht]
    simp [BrowserTab.log]
  refine ⟨rest, ?_, fun e he => ⟨hall e he, hq hu e he⟩, ?_, ?_, ?_, ?_, ?_, ?_⟩
  all_goals unfold BrowserTab.deliverCached
  all_goals dsimp only
  · split_ifs <;> exact ht2
  · split_ifs <;> exact hd.was_read_from_cache
  · split_ifs <;> exact hd.cache hu
  · by_cases hc : (flags.NavigatedBackOrForward && pg.scroll_pos != -1) = true
    · rw [if_pos hc]
      have hc2 : flags.NavigatedBackOrForward = true ∧ pg.scroll_pos ≠ -1 := by
        simpa using hc
      rw [if_pos hc2]
    · rw [if_neg hc]
      have hc2 : ¬ (flags.NavigatedBackOrForward = true ∧ pg.scroll_pos ≠ -1) := by
        simpa using hc
      rw [if_neg hc2]
      exact hd.scroll_bar
  · split_ifs <;> exact hd.current_location
  · split_ifs <;> exact hd.current_identity
  · split_ifs <;> exact hd.current_handler

/-- The last part of `startRequest` leaves the identity as it is. -/
theorem dispatch_identity (s : BrowserTab) (env : Env) (handler : Nat) (url : QUrl)
    (options : RequestOptions) (flags : RequestFlags) :
    (s.dispatch env handler url options flags).tab.current_identity = s.current_identity := by
  by_cases h : flags.DontReadFromCache = true ∨ s.current_identity.isValid = true
  · rw [dispatch_bypass s env handler url options flags h]
    rfl
  · have hflag : flags.DontReadFromCache = false := by
      cases hf : flags.DontReadFromCache with
      | false => rfl
      | true => exact absurd (Or.inl hf) h
    have hid : s.current_identity.isValid = false := by
      cases hf : s.current_identity.isValid with
      | false => rfl
      | true => exact absurd (Or.inr hf) h
    cases hfind : (s.cache.clean env.options env.now).find url with
    | none =>
      rw [dispatch_miss s env handler url options flags hflag hid hfind]
      rfl
    | some pg =>
      rw [dispatch_hit s env handler url options flags pg hflag hid hfind]
      obtain ⟨_, _, _, _, _, _, _, hi, _⟩ :=
        deliverCached_spec ((s.beginDispatch env url).cleanCache env) env url flags pg
      exact hi

/-- The path of `startRequest` to its last part when no identity is valid and
none is enabled automatically on the location: the certificate is disabled by
both calls of `try_enable_certificate`, nothing is asked. -/
theorem startRequest_plain (s : BrowserTab) (env : Env) (url : QUrl) (options : RequestOptions)
    (flags : RequestFlags) (handler : Nat)
    (hid : s.current_identity.isValid = false)
    (hauto : env.identities.find? (fun i => env.isAutomaticallyEnabledOn i url) = none)
    (hsel : List.findIdx? (fun h : ProtocolHandler => h.supportsScheme url.scheme)
      s.protocol_handlers = some handler) :
    s.startRequest env url options flags =
      BrowserTab.dispatch
        (((s.log (Effect.startRequest url options flags)).selectHandler
          url).disableClientCertificate.disableClientCertificate)
        env handler url options flags := by
  have h0 : ((s.log (Effect.startRequest url options flags)).selectHandler url).current_handler
      = some handler := hsel
  have h1 : ∀ t : BrowserTab, t.current_identity.isValid = false →
      t.try_enable_certificate env url handler = (true, t.disableClientCertificate) := by
    intro t ht
    unfold BrowserTab.try_enable_certificate
    simp [ht]
  have h2 : ∀ t : BrowserTab, t.current_identity.isValid = false →
      t.checkIdentity env url = t := by
    intro t ht
    unfold BrowserTab.checkIdentity BrowserTab.offerAutomaticCertificate
    simp [ht, hauto]
  have h3 : ∀ t : BrowserTab, t.disableClientCertificate.current_identity.isValid = false :=
    fun _ => rfl
  unfold BrowserTab.startRequest
  dsimp only
  simp only [h0]
  have hid0 : ((s.log (Effect.startRequest url options flags)).selectHandler
      url).current_identity.isValid = false := hid
  rw [h1 _ hid0]
  simp only [Bool.not_true, Bool.false_eq_true, if_false]
  rw [h2 _ (h3 _), h1 _ (h3 _)]
  simp only [Bool.not_true, Bool.false_eq_true, if_false]

/-- The last part of `startRequest` on a cache hit. -/
theorem dispatch_hit_spec (s : BrowserTab) (env : Env) (handler : Nat) (url : QUrl)
    (options : RequestOptions) (flags : RequestFlags) (pg : CachedPage)
    (hflag : flags.DontReadFromCache = false) (hid : s.current_identity.isValid = false)
    (hfind : (s.cache.clean env.options env.now).find url = some pg) :
    ∃ t rest,
      s.dispatch env handler url options flags = Outcome.done true t ∧
      t.trace = s.trace ++ Effect.cacheClean :: Effect.cacheFind url true ::
        Effect.requestComplete pg.body pg.mime :: rest ∧
      (∀ e ∈ rest, e.isDelivery = true ∧ e.isCachePush = false ∧ e.isAdapterRequest = false) ∧
      t.was_read_from_cache = true ∧
      t.cache = s.cache.clean env.options env.now ∧
      t.scroll_bar =
        (if flags.NavigatedBackOrForward = true ∧ pg.scroll_pos ≠ -1 then pg.scroll_pos
          else s.scroll_bar) ∧
      t.current_location = url := by
  obtain ⟨rest, ht, hall, hw, hc, hs, hl, _, _⟩ :=
    deliverCached_spec ((s.beginDispatch env url).cleanCache env) env url flags pg
  refine ⟨_, rest, dispatch_hit s env handler url options flags pg hflag hid hfind, ?_,
    fun e he => ⟨(hall e he).1, (hall e he).2, (isAdapterRequest_of_delivery e (hall e he).1).1⟩,
    hw, hc, hs, hl⟩
  rw [ht]
  simp [BrowserTab.cleanCache, BrowserTab.beginDispatch, BrowserTab.log,
    BrowserTab.setUrlBarText]

/-- C16: in `startRequest` without `DontReadFromCache` and without a valid
identity, when the cleaned cache has an entry for the location:
`startRequest` of the adapter is not called, `on_requestComplete` is entered
with the body and the type of the entry, `was_read_from_cache` is true and
nothing is pushed into the cache, the result is true, and the scroll position
of the entry is restored exactly when `flags` contains `NavigatedBackOrForward`
and the position is not `-1`. The first part is on the last part of
`startRequest`, for the tab at dispatch time; the second on `startRequest` as
a whole, when no identity is enabled automatically on the location. -/
theorem C16_cache_hit (s : BrowserTab) (env : Env) (handler : Nat) (url : QUrl)
    (options : RequestOptions) (flags : RequestFlags) (pg : CachedPage)
    (hflag : flags.DontReadFromCache = false) (hid : s.current_identity.isValid = false)
    (hfind : (s.cache.clean env.options env.now).find url = some pg) :
    (∃ t rest,
      s.dispatch env handler url options flags = Outcome.done true t ∧
      t.trace = s.trace ++ Effect.cacheClean :: Effect.cacheFind url true ::
        Effect.requestComplete pg.body pg.mime :: rest ∧
      (∀ e ∈ rest, e.isDelivery = true ∧ e.isCachePush = false ∧ e.isAdapterRequest = false) ∧
      t.was_read_from_cache = true ∧
      t.cache = s.cache.clean env.options env.now ∧
      t.scroll_bar =
        (if flags.NavigatedBackOrForward = true ∧ pg.scroll_pos ≠ -1 then pg.scroll_pos
          else s.scroll_bar) ∧
      t.current_location = url) ∧
    (env.identities.find? (fun i => env.isAutomaticallyEnabledOn i url) = none →
      List.findIdx? (fun h : ProtocolHandler => h.supportsScheme url.scheme) s.protocol_handlers
        = some handler →
      ∃ t rest,
        s.startRequest env url options flags = Outcome.done true t ∧
        t.trace = s.trace ++ Effect.startRequest url options flags ::
          Effect.handlerDisableClientCertificate :: Effect.handlerDisableClientCertificate ::
          Effect.cacheClean :: Effect.cacheFind url true ::
          Effect.requestComplete pg.body pg.mime :: rest ∧
        (∀ e ∈ rest,
          e.isDelivery = true ∧ e.isCachePush = false ∧ e.isAdapterRequest = false) ∧
        t.was_read_from_cache = true ∧
        t.cache = s.cache.clean env.options env.now ∧
        t.scroll_bar =
          (if flags.NavigatedBackOrForward = true ∧ pg.scroll_pos ≠ -1 then pg.scroll_pos
            else s.scroll_bar) ∧
        t.current_location = url) := by
  refine ⟨dispatch_hit_spec s env handler url options flags pg hflag hid hfind, ?_⟩
  intro hauto hsel
  obtain ⟨t, rest, heq, ht, hall, hw, hc, hs, hl⟩ := dispatch_hit_spec
    (((s.log (Effect.startRequest url options flags)).selectHandler
      url).disableClientCertificate.disableClientCertificate)
    env handler url options flags pg hflag rfl hfind
  refine ⟨t, rest, ?_, ?_, hall, hw, hc, hs, hl⟩
  · rw [startRequest_plain s env url options flags handler hid hauto hsel]
    exact heq
  · rw [ht]
    simp [BrowserTab.disableClientCertificate, BrowserTab.selectHandler, BrowserTab.log]

theorem C16_cache_hit_witness :
    ({ NavigatedBackOrForward := true } : RequestFlags).DontReadFromCache = false ∧
    sampleCached.current_identity.isValid = false ∧
    (sampleCached.cache.clean (sampleEnv 3 WarnNever).options
      (sampleEnv 3 WarnNever).now).find (geminiUrl "example.org" "/") = some samplePage ∧
    ∃ t rest,
      sampleCached.startRequest (sampleEnv 3 WarnNever) (geminiUrl "example.org" "/")
        RequestOptions.Default { NavigatedBackOrForward := true } = Outcome.done true t ∧
      t.trace = sampleCached.trace ++
        Effect.startRequest (geminiUrl "example.org" "/") RequestOptions.Default
          { NavigatedBackOrForward := true } ::
        Effect.handlerDisableClientCertificate :: Effect.handlerDisableClientCertificate ::
        Effect.cacheClean :: Effect.cacheFind (geminiUrl "example.org" "/") true ::
        Effect.requestComplete samplePage.body samplePage.mime :: rest ∧
      (∀ e ∈ rest, e.isDelivery = true ∧ e.isCachePush = false ∧ e.isAdapterRequest = false) ∧
      t.was_read_from_cache = true ∧
      t.cache = sampleCached.cache.clean (sampleEnv 3 WarnNever).options
        (sampleEnv 3 WarnNever).now ∧
      t.scroll_bar =
        (if ({ NavigatedBackOrForward := true } : RequestFlags).NavigatedBackOrForward = true ∧
            samplePage.scroll_pos ≠ -1 then samplePage.scroll_pos
          else sampleCached.scroll_bar) ∧
      t.current_location = geminiUrl "example.org" "/" :=
  ⟨rfl, by decide, by decide,
    (C16_cache_hit sampleCached (sampleEnv 3 WarnNever) 0 (geminiUrl "example.org" "/")
      RequestOptions.Default { NavigatedBackOrForward := true } samplePage rfl (by decide)
      (by decide)).2 (by decide) (by decide)⟩

/-! ### Claims on error pages -/

theorem errorPageFile_injective : Function.Injective BrowserTab.errorPageFile := by
  intro a b h
  cases a <;> cases b <;> first | rfl | exact absurd h (by decide)

theorem errorPagePath_injective : Function.Injective BrowserTab.errorPagePath := by
  intro a b h
  cases a <;> cases b <;> first | rfl | exact absurd h (by decide)

/-- What `on_networkError` does when the error page can be opened. -/
theorem on_networkError_done (s : BrowserTab) (env : Env) (error_code : NetworkError)
    (reason page : QString)
    (hres : env.readResource (":/error_page/" ++ BrowserTab.errorPageFile error_code)
      = some page) :
    s.on_networkError env error_code reason =
      Outcome.done ()
        (BrowserTab.updateUI
          (BrowserTab.on_requestComplete
            { s with network_timeout_timer := none, is_internal_location := true } env
            (env.toUtf8 (env.substitute page reason)) (env.parseMime "text/gemini"))) := by
  unfold BrowserTab.on_networkError
  dsimp only
  simp only [hres]
  rfl

/-- C17: `on_networkError` maps the 14 kinds of `NetworkError` to 14
different files `:/error_page/<KindName>.gemini`; when the file can be opened
it substitutes the reason into the template, sets `is_internal_location` and
delivers the result through `on_requestComplete` with the type `text/gemini`,
and nothing is pushed into the cache. -/
theorem C17_error_page (s : BrowserTab) (env : Env) (error_code : NetworkError)
    (reason page : QString)
    (hres : env.readResource (":/error_page/" ++ BrowserTab.errorPageFile error_code)
      = some page) :
    (∀ c : NetworkError, c ∈ NetworkError.all) ∧ NetworkError.all.length = 14 ∧
    NetworkError.all.map BrowserTab.errorPageFile =
      [ "UnknownError.gemini", "ProtocolViolation.gemini", "HostNotFound.gemini",
        "ConnectionRefused.gemini", "ResourceNotFound.gemini", "BadRequest.gemini",
        "ProxyRequest.gemini", "InternalServerError.gemini", "InvalidClientCertificate.gemini",
        "UntrustedHost.gemini", "MistrustedHost.gemini", "Unauthorized.gemini",
        "TlsFailure.gemini", "Timeout.gemini" ] ∧
    Function.Injective BrowserTab.errorPageFile ∧
    Function.Injective (fun c : NetworkError => ":/error_page/" ++ BrowserTab.errorPageFile c) ∧
    ∃ t rest,
      s.on_networkError env error_code reason = Outcome.done () t ∧
      t.trace = s.trace ++
        Effect.requestComplete (env.toUtf8 (env.substitute page reason))
          (env.parseMime "text/gemini") :: rest ∧
      (∀ e ∈ rest, e.isDelivery = true ∧ e.isCachePush = false) ∧
      t.is_internal_location = true ∧
      t.cache = s.cache := by
  refine ⟨?_, rfl, rfl, errorPageFile_injective, errorPagePath_injective, ?_⟩
  · intro c
    cases c <;> simp [NetworkError.all]
  · have hu : BrowserTab.uncacheable
        { s with network_timeout_timer := none, is_internal_location := true } := Or.inl rfl
    have hd := (Delivered.of_on_requestComplete
      { s with network_timeout_timer := none, is_internal_location := true } env
      (env.toUtf8 (env.substitute page reason)) (env.parseMime "text/gemini")).andThen
      (Delivered.of_updateUI _)
    obtain ⟨rest, ht, hall, hq⟩ := on_requestComplete_trace
      { s with network_timeout_timer := none, is_internal_location := true } env
      (env.toUtf8 (env.substitute page reason)) (env.parseMime "text/gemini")
    exact ⟨_, rest, on_networkError_done s env error_code reason page hres, ht,
      fun e he => ⟨hall e he, hq hu e he⟩, hd.is_internal_location rfl, hd.cache hu⟩

theorem C17_error_page_witness :
    (sampleEnv 3 WarnNever).readResource
      (":/error_page/" ++ BrowserTab.errorPageFile NetworkError.HostNotFound) = some "%1" ∧
    Function.Injective BrowserTab.errorPageFile ∧
    ∃ t rest,
      sampleNavigated.on_networkError (sampleEnv 3 WarnNever) NetworkError.HostNotFound
        "no such host" = Outcome.done () t ∧
      t.trace = sampleNavigated.trace ++
        Effect.requestComplete
          ((sampleEnv 3 WarnNever).toUtf8 ((sampleEnv 3 WarnNever).substitute "%1" "no such host"))
          ((sampleEnv 3 WarnNever).parseMime "text/gemini") :: rest ∧
      (∀ e ∈ rest, e.isDelivery = true ∧ e.isCachePush = false) ∧
      t.is_internal_location = true ∧
      t.cache = sampleNavigated.cache :=
  have h := C17_error_page sampleNavigated (sampleEnv 3 WarnNever) NetworkError.HostNotFound
    "no such host" "%1" rfl
  ⟨rfl, h.2.2.2.1, h.2.2.2.2.2⟩

/-- After `on_networkError` has delivered its error page the tab counts as
successfully loaded and the favourite button is enabled. -/
theorem on_networkError_loaded (s : BrowserTab) (env : Env) (error_code : NetworkError)
    (reason page : QString)
    (hres : env.readResource (":/error_page/" ++ BrowserTab.errorPageFile error_code)
      = some page) :
    (s.on_networkError env error_code reason).exit? = some () ∧
    (s.on_networkError env error_code reason).tab.successfully_loaded = true ∧
    (s.on_networkError env error_code reason).tab.fav_button_enabled = true ∧
    (s.on_networkError env error_code reason).tab.is_internal_location = true := by
  rw [on_networkError_done s env error_code reason page hres]
  have h := on_requestCompleteAux_loaded env s.pending_answers
    { s with network_timeout_timer := none, is_internal_location := true }
    (env.toUtf8 (env.substitute page reason)) (env.parseMime "text/gemini")
  have hd := (Delivered.of_on_requestComplete
    { s with network_timeout_timer := none, is_internal_location := true } env
    (env.toUtf8 (env.substitute page reason)) (env.parseMime "text/gemini")).andThen
    (Delivered.of_updateUI _)
  exact ⟨rfl, h.1, h.1, hd.is_internal_location rfl⟩

/-- C18, evaluated: the sample tab is not successfully loaded while its
request runs; after `on_networkError` for an unknown host has delivered the
error page, and likewise after `setErrorMessage`, `successfully_loaded` is true
and `refreshFavButton` has enabled the favourite button, on an internal
location. -/
theorem C18_error_page_counts_as_loaded :
    sampleNavigated.successfully_loaded = false ∧
    (sampleNavigated.on_networkError (sampleEnv 3 WarnNever) NetworkError.HostNotFound
      "no such host").exit? = some () ∧
    (sampleNavigated.on_networkError (sampleEnv 3 WarnNever) NetworkError.HostNotFound
      "no such host").tab.successfully_loaded = true ∧
    (sampleNavigated.on_networkError (sampleEnv 3 WarnNever) NetworkError.HostNotFound
      "no such host").tab.fav_button_enabled = true ∧
    (sampleNavigated.on_networkError (sampleEnv 3 WarnNever) NetworkError.HostNotFound
      "no such host").tab.is_internal_location = true ∧
    (sampleNavigated.setErrorMessage (sampleEnv 3 WarnNever)
      (ErrorMessage.redirectionFailed ftpUrl)).successfully_loaded = true ∧
    (sampleNavigated.setErrorMessage (sampleEnv 3 WarnNever)
      (ErrorMessage.redirectionFailed ftpUrl)).fav_button_enabled = true :=
  have h := on_networkError_loaded sampleNavigated (sampleEnv 3 WarnNever)
    NetworkError.HostNotFound "no such host" "%1" rfl
  have h2 := setErrorMessage_loaded sampleNavigated (sampleEnv 3 WarnNever)
    (ErrorMessage.redirectionFailed ftpUrl)
  ⟨by decide, h.1, h.2.1, h.2.2.1, h.2.2.2, h2.1, h2.2⟩

/-- When the conversion of the character set fails and the user answers Yes,
`on_requestComplete` renders an empty buffer. -/
theorem on_requestComplete_unconverted (s : BrowserTab) (env : Env) (ref_data : QByteArray)
    (mime : MimeType) (rest : List Bool)
    (hconv : BrowserTab.convertedData env ref_data mime = none)
    (hans : s.pending_answers = true :: rest) :
    (s.on_requestComplete env ref_data mime).current_buffer = [] ∧
    ∃ more, (s.on_requestComplete env ref_data mime).trace =
      s.trace ++ Effect.requestComplete ref_data mime ::
        Effect.question (Question.charsetConversionFailed (BrowserTab.charsetOf mime)) true ::
        Effect.renderPage [] mime :: more := by
  unfold BrowserTab.on_requestComplete
  rw [hans, on_requestCompleteAux_yes env rest s ref_data mime hconv]
  obtain ⟨hb, _, more, ht⟩ := completeRequest_buffer
    ((s.enterRequestComplete ref_data mime).answered
      (Question.charsetConversionFailed (BrowserTab.charsetOf mime)) true rest) env [] ref_data mime
  refine ⟨hb, more, ?_⟩
  rw [ht]
  simp [BrowserTab.answered, BrowserTab.enterRequestComplete, BrowserTab.log]

/-- C19, evaluated: a text in ISO-8859-1 of two bytes whose conversion gives
no bytes, with a user who answers Yes to "display unconverted data anyways":
`renderPage` gets the empty byte array, not the two bytes received. -/
theorem C19_unconverted_data_is_dropped :
    BrowserTab.convertedData failingConversionEnv [72, 233] latin1Mime = none ∧
    sampleAccepting.nextAnswer = true ∧
    (sampleAccepting.on_requestComplete failingConversionEnv [72, 233] latin1Mime).current_buffer
      = [] ∧
    ∃ more, (sampleAccepting.on_requestComplete failingConversionEnv [72, 233] latin1Mime).trace =
      sampleAccepting.trace ++ Effect.requestComplete [72, 233] latin1Mime ::
        Effect.question (Question.charsetConversionFailed "ISO-8859-1") true ::
        Effect.renderPage [] latin1Mime :: more :=
  have hconv : BrowserTab.convertedData failingConversionEnv [72, 233] latin1Mime = none := by
    decide
  have hcs : BrowserTab.charsetOf latin1Mime = "ISO-8859-1" := by decide
  have h := on_requestComplete_unconverted sampleAccepting failingConversionEnv [72, 233]
    latin1Mime [] hconv rfl
  ⟨hconv, rfl, h.1, hcs ▸ h.2⟩

/-- Where `startRequest` meets its assertion: no registered adapter supports
the scheme. -/
theorem startRequest_aborted_iff (s : BrowserTab) (env : Env) (url : QUrl)
    (options : RequestOptions) (flags : RequestFlags) :
    (∃ t, s.startRequest env url options flags = Outcome.aborted t) ↔
      List.findIdx? (fun h : ProtocolHandler => h.supportsScheme url.scheme) s.protocol_handlers
        = none := by
  rcases startRequest_cases s env url options flags with ⟨hn, heq⟩ | ⟨handler, hsel, hcase⟩
  · exact ⟨fun _ => hn, fun _ => ⟨_, heq⟩⟩
  · constructor
    · rintro ⟨t, ht⟩
      rcases hcase with ⟨t2, _, heq⟩ | ⟨s1, _, heq⟩
      · rw [heq] at ht
        cases ht
      · rw [heq] at ht
        unfold BrowserTab.dispatch at ht
        dsimp only at ht
        split_ifs at ht
        · cases ht
        · split at ht
          · cases ht
          · cases ht
    · intro hn
      rw [hn] at hsel
      cases hsel

/-- C20, evaluated: the sample tab has adapters for gemini, https and http.
A redirect to an `ftp` location, whose scheme is neither enabled nor supported
by an adapter, is passed by `on_redirected` to `startRequest` unchecked and
meets the assertion on `current_handler`, while `navigateTo` rejects the same
location. -/
theorem C20_redirect_meets_assertion :
    (sampleEnv 3 WarnNever).isSchemeSupported ftpUrl.scheme ≠ ProtocolSupport.Enabled ∧
    List.findIdx? (fun h : ProtocolHandler => h.supportsScheme ftpUrl.scheme)
      sampleNavigated.protocol_handlers = none ∧
    (sampleNavigated.on_redirected (sampleEnv 3 WarnNever) ftpUrl false).exit? = none ∧
    (sampleNavigated.navigateTo (sampleEnv 3 WarnNever) ftpUrl PushToHistory.PushImmediate
      RequestFlags.None).exit? = some NavigateExit.schemeRejected :=
  ⟨by decide, by decide, by decide, by decide⟩

/-! ### The timeout -/

theorem completeRequest_timer (s : BrowserTab) (env : Env) (data ref_data : QByteArray)
    (mime : MimeType) :
    (s.completeRequest env data ref_data mime).network_timeout_timer =
      s.network_timeout_timer := by
  unfold BrowserTab.completeRequest BrowserTab.renderPage
  simp only [BrowserTab.log, BrowserTab.updateUI, BrowserTab.refreshFavButton]
  split_ifs <;> rfl

/-- After `on_requestComplete` the timeout timer is stopped. -/
theorem on_requestCompleteAux_timer (env : Env) (answers : List Bool) :
    ∀ (s : BrowserTab) (ref_data : QByteArray) (mime : MimeType),
      (BrowserTab.on_requestCompleteAux env answers s ref_data mime).network_timeout_timer
        = none := by
  induction answers with
  | nil =>
    intro s ref_data mime
    cases h : BrowserTab.convertedData env ref_data mime with
    | some data =>
      rw [on_requestCompleteAux_converted env _ s ref_data data mime h, completeRequest_timer]
      rfl
    | none =>
      rw [on_requestCompleteAux_nil env s ref_data mime h, completeRequest_timer]
      rfl
  | cons a rest ih =>
    intro s ref_data mime
    cases h : BrowserTab.convertedData env ref_data mime with
    | some data =>
      rw [on_requestCompleteAux_converted env _ s ref_data data mime h, completeRequest_timer]
      rfl
    | none =>
      cases a with
      | true =>
        rw [on_requestCompleteAux_yes env rest s ref_data mime h, completeRequest_timer]
        rfl
      | false =>
        rw [on_requestCompleteAux_no env rest s ref_data mime h]
        exact ih _ _ _

/-- What `on_networkError` leaves behind when the error page can be opened:
the delivery of the page, a stopped timer and an internal location. -/
theorem on_networkError_spec (s : BrowserTab) (env : Env) (error_code : NetworkError)
    (reason page : QString)
    (hres : env.readResource (":/error_page/" ++ BrowserTab.errorPageFile error_code)
      = some page) :
    ∃ t rest,
      s.on_networkError env error_code reason = Outcome.done () t ∧
      t.trace = s.trace ++
        Effect.requestComplete (env.toUtf8 (env.substitute page reason))
          (env.parseMime "text/gemini") :: rest ∧
      (∀ e ∈ rest, e.isDelivery = true ∧ e.isCachePush = false) ∧
      t.network_timeout_timer = none ∧
      t.is_internal_location = true ∧
      t.current_handler = s.current_handler ∧
      t.cache = s.cache := by
  have hu : BrowserTab.uncacheable
      { s with network_timeout_timer := none, is_internal_location := true } := Or.inl rfl
  have hd := (Delivered.of_on_requestComplete
    { s with network_timeout_timer := none, is_internal_location := true } env
    (env.toUtf8 (env.substitute page reason)) (env.parseMime "text/gemini")).andThen
    (Delivered.of_updateUI _)
  obtain ⟨rest, ht, hall, hq⟩ := on_requestComplete_trace
    { s with network_timeout_timer := none, is_internal_location := true } env
    (env.toUtf8 (env.substitute page reason)) (env.parseMime "text/gemini")
  have htimer := on_requestCompleteAux_timer env s.pending_answers
    { s with network_timeout_timer := none, is_internal_location := true }
    (env.toUtf8 (env.substitute page reason)) (env.parseMime "text/gemini")
  exact ⟨_, rest, on_networkError_done s env error_code reason page hres, ht,
    fun e he => ⟨hall e he, hq hu e he⟩, htimer, hd.is_internal_location rfl,
    hd.current_handler, hd.cache hu⟩

theorem isCancelRequest_of_delivery (e : Effect) (h : e.isDelivery = true) :
    e.isCancelRequest = false := by
  cases e <;> simp_all [Effect.isCancelRequest, Effect.isDelivery]

/-- C24: `on_networkTimeout` calls `cancelRequest` on the current handler, if
there is one, and then, whatever the call returned, delivers the error page of
`Timeout` through `on_networkError`, with the timer stopped and
`is_internal_location` set; and `on_requestProgress` starts the timer anew
with the whole interval `network_timeout`. -/
theorem C24_timeout (s : BrowserTab) (env : Env) (page : QString)
    (hres : env.readResource ":/error_page/Timeout.gemini" = some page) :
    (∃ t rest,
      s.on_networkTimeout env = Outcome.done () t ∧
      t.trace = s.trace ++
        (match s.current_handler with
          | some handler => [Effect.cancelRequest handler (env.handlerCancelRequest handler)]
          | none => []) ++
        Effect.requestComplete
          (env.toUtf8 (env.substitute page "The server didn't respond in time."))
          (env.parseMime "text/gemini") :: rest ∧
      (∀ e ∈ rest, e.isDelivery = true ∧ e.isCancelRequest = false) ∧
      t.network_timeout_timer = none ∧
      t.is_internal_location = true) ∧
    ∀ (u : BrowserTab) (transferred : Nat),
      (u.on_requestProgress env transferred).network_timeout_timer =
        some env.options.network_timeout := by
  refine ⟨?_, fun _ _ => rfl⟩
  have hp : ":/error_page/" ++ BrowserTab.errorPageFile NetworkError.Timeout =
      ":/error_page/Timeout.gemini" := by decide
  have key : ∀ s1 : BrowserTab, ∃ t rest,
      s1.on_networkError env NetworkError.Timeout "The server didn't respond in time." =
        Outcome.done () t ∧
      t.trace = s1.trace ++
        Effect.requestComplete
          (env.toUtf8 (env.substitute page "The server didn't respond in time."))
          (env.parseMime "text/gemini") :: rest ∧
      (∀ e ∈ rest, e.isDelivery = true ∧ e.isCancelRequest = false) ∧
      t.network_timeout_timer = none ∧
      t.is_internal_location = true := by
    intro s1
    obtain ⟨t, rest, heq, ht, hall, htimer, hint, _, _⟩ := on_networkError_spec s1 env
      NetworkError.Timeout "The server didn't respond in time." page (by rw [hp]; exact hres)
    exact ⟨t, rest, heq, ht,
      fun e he => ⟨(hall e he).1, isCancelRequest_of_delivery e (hall e he).1⟩, htimer, hint⟩
  unfold BrowserTab.on_networkTimeout
  dsimp only
  cases hh : s.current_handler with
  | none =>
    obtain ⟨t, rest, heq, ht, hall, htimer, hint⟩ := key s
    exact ⟨t, rest, heq, by simpa using ht, hall, htimer, hint⟩
  | some handler =>
    obtain ⟨t, rest, heq, ht, hall, htimer, hint⟩ :=
      key (s.log (Effect.cancelRequest handler (env.handlerCancelRequest handler)))
    refine ⟨t, rest, heq, ?_, hall, htimer, hint⟩
    rw [ht]
    simp [BrowserTab.log]

theorem C24_timeout_witness :
    refusingEnv.readResource ":/error_page/Timeout.gemini" = some "%1" ∧
    sampleNavigated.current_handler = some 0 ∧
    refusingEnv.handlerCancelRequest 0 = false ∧
    ∃ t rest,
      sampleNavigated.on_networkTimeout refusingEnv = Outcome.done () t ∧
      t.trace = sampleNavigated.trace ++
        (match sampleNavigated.current_handler with
          | some handler =>
            [Effect.cancelRequest handler (refusingEnv.handlerCancelRequest handler)]
          | none => []) ++
        Effect.requestComplete
          (refusingEnv.toUtf8 (refusingEnv.substitute "%1" "The server didn't respond in time."))
          (refusingEnv.parseMime "text/gemini") :: rest ∧
      (∀ e ∈ rest, e.isDelivery = true ∧ e.isCancelRequest = false) ∧
      t.network_timeout_timer = none ∧
      t.is_internal_location = true :=
  ⟨rfl, by decide, rfl, (C24_timeout sampleNavigated refusingEnv "%1" rfl).1⟩

/-! ### Claims on the target of a redirect -/

theorem afterConfirmation_trace (s : BrowserTab) (env : Env) (uri : QUrl) :
    (s.afterConfirmation env uri).trace = s.trace ++
      (match s.redirectConfirmation env uri with
        | some q => [Effect.question q s.nextAnswer]
        | none => []) ∧
    (s.afterConfirmation env uri).cache = s.cache ∧
    (s.afterConfirmation env uri).current_identity = s.current_identity ∧
    (s.afterConfirmation env uri).protocol_handlers = s.protocol_handlers ∧
    (s.afterConfirmation env uri).scroll_bar = s.scroll_bar := by
  unfold BrowserTab.afterConfirmation
  cases s.redirectConfirmation env uri with
  | none => simp
  | some q => exact ⟨rfl, rfl, rfl, rfl, rfl⟩

/-- Below the limit, when no confirmation is needed or the user answers Yes,
`on_redirected` calls `startRequest` for the target, with the default options
and flags. -/
theorem on_redirected_accepted (s : BrowserTab) (env : Env) (uri : QUrl) (p : Bool)
    (h : s.redirection_count < env.options.max_redirections)
    (hans : ∀ q, s.redirectConfirmation env uri = some q → s.nextAnswer = true) :
    s.on_redirected env uri p =
      match (s.afterConfirmation env uri).startRequest env
          (redirectTarget s.current_location uri) RequestOptions.Default RequestFlags.None with
      | Outcome.aborted t => Outcome.aborted t
      | Outcome.done true t =>
        Outcome.done RedirectExit.followed
          { t with
            redirection_count := t.redirection_count + 1
            current_location := redirectTarget s.current_location uri
            url_bar := redirectTarget s.current_location uri
            history := t.history.replaceUrl t.current_history_index
              (redirectTarget s.current_location uri) }
      | Outcome.done false t =>
        Outcome.done RedirectExit.failed
          (t.setErrorMessage env
            (ErrorMessage.redirectionFailed (redirectTarget s.current_location uri))) := by
  have hn : ¬ s.redirection_count ≥ env.options.max_redirections := not_le.2 h
  unfold BrowserTab.afterConfirmation
  unfold BrowserTab.redirectConfirmation at hans ⊢
  unfold BrowserTab.on_redirected
  dsimp only
  rw [if_neg hn]
  cases hq : redirectQuestion env.options.redirection_policy
      (s.current_location.scheme != (redirectTarget s.current_location uri).scheme)
      (s.current_location.host != (redirectTarget s.current_location uri).host)
      (redirectTarget s.current_location uri) with
  | none =>
    simp only [Bool.not_true, Bool.false_eq_true, if_false]
    rfl
  | some q =>
    have ha : BrowserTab.nextAnswer { s with network_timeout_timer := none } = true :=
      hans q hq
    simp only [ha, Bool.not_true, Bool.false_eq_true, if_false]
    rfl

/-- C21, as stated, fails when the target of the redirect is in the cache:
the sample tab, with the sample page cached and a request for another page
running, follows a redirect to the cached page; the cache is looked up, the
page is delivered from it and no adapter is called. -/
theorem C21_counterexample :
    (sampleCachedNavigated.on_redirected (sampleEnv 3 WarnNever) (geminiUrl "example.org" "/")
      false).exit? = some RedirectExit.followed ∧
    ((sampleCachedNavigated.on_redirected (sampleEnv 3 WarnNever) (geminiUrl "example.org" "/")
      false).tab.trace.drop sampleCachedNavigated.trace.length).any
        (fun e => decide (e = Effect.cacheFind (geminiUrl "example.org" "/") true)) = true ∧
    ((sampleCachedNavigated.on_redirected (sampleEnv 3 WarnNever) (geminiUrl "example.org" "/")
      false).tab.trace.drop sampleCachedNavigated.trace.length).any
        Effect.isAdapterRequest = false ∧
    (sampleCachedNavigated.on_redirected (sampleEnv 3 WarnNever) (geminiUrl "example.org" "/")
      false).tab.current_buffer = samplePage.body := by
  refine ⟨by decide, by decide, by decide, by decide⟩

/-- C21, amended: when `on_redirected` follows a redirect, it calls
`startRequest` for the target with the default flags, so the cache is cleaned
and looked up as for any request. With no valid identity and none enabled
automatically on the target: a cached target is delivered from the cache, the
adapter is not called and the redirect counts as followed; only a target that
is not in the cache is requested from the selected adapter. -/
theorem C21_redirect_consults_cache (s : BrowserTab) (env : Env) (uri : QUrl) (p : Bool)
    (handler : Nat)
    (hlim : s.redirection_count < env.options.max_redirections)
    (hans : ∀ q, s.redirectConfirmation env uri = some q → s.nextAnswer = true)
    (hid : s.current_identity.isValid = false)
    (hauto : env.identities.find?
      (fun i => env.isAutomaticallyEnabledOn i (redirectTarget s.current_location uri)) = none)
    (hsel : List.findIdx?
      (fun h : ProtocolHandler => h.supportsScheme (redirectTarget s.current_location uri).scheme)
      s.protocol_handlers = some handler) :
    (∀ pg, (s.cache.clean env.options env.now).find (redirectTarget s.current_location uri)
        = some pg →
      ∃ t rest,
        s.on_redirected env uri p = Outcome.done RedirectExit.followed t ∧
        t.trace = (s.afterConfirmation env uri).trace ++
          Effect.startRequest (redirectTarget s.current_location uri) RequestOptions.Default
            RequestFlags.None ::
          Effect.handlerDisableClientCertificate :: Effect.handlerDisableClientCertificate ::
          Effect.cacheClean ::
          Effect.cacheFind (redirectTarget s.current_location uri) true ::
          Effect.requestComplete pg.body pg.mime :: rest ∧
        (∀ e ∈ rest, e.isDelivery = true ∧ e.isAdapterRequest = false) ∧
        t.was_read_from_cache = true) ∧
    ((s.cache.clean env.options env.now).find (redirectTarget s.current_location uri) = none →
      ∃ rest,
        (s.on_redirected env uri p).tab.trace = (s.afterConfirmation env uri).trace ++
          Effect.startRequest (redirectTarget s.current_location uri) RequestOptions.Default
            RequestFlags.None ::
          Effect.handlerDisableClientCertificate :: Effect.handlerDisableClientCertificate ::
          Effect.cacheClean ::
          Effect.cacheFind (redirectTarget s.current_location uri) false ::
          Effect.handlerStartRequest handler
            (redirectTarget s.current_location uri).removeFragment RequestOptions.Default
            (env.handlerStartRequest handler
              (redirectTarget s.current_location uri).removeFragment RequestOptions.Default) ::
          rest ∧
        (s.on_redirected env uri p).exit? =
          some (if env.handlerStartRequest handler
              (redirectTarget s.current_location uri).removeFragment RequestOptions.Default = true
            then RedirectExit.followed else RedirectExit.failed)) := by
  obtain ⟨_, hcache, hident, hhand, _⟩ := afterConfirmation_trace s env uri
  have hid2 : (s.afterConfirmation env uri).current_identity.isValid = false := by
    rw [hident]
    exact hid
  have hsel2 : List.findIdx?
      (fun h : ProtocolHandler => h.supportsScheme (redirectTarget s.current_location uri).scheme)
      (s.afterConfirmation env uri).protocol_handlers = some handler := by
    rw [hhand]
    exact hsel
  have hplain := startRequest_plain (s.afterConfirmation env uri) env
    (redirectTarget s.current_location uri) RequestOptions.Default RequestFlags.None handler
    hid2 hauto hsel2
  have heq := on_redirected_accepted s env uri p hlim hans
  constructor
  · intro pg hfind
    obtain ⟨t, rest, hd, ht, hall, hw, _, _, _⟩ := dispatch_hit_spec
      (((s.afterConfirmation env uri).log (Effect.startRequest
        (redirectTarget s.current_location uri) RequestOptions.Default
        RequestFlags.None)).selectHandler
        (redirectTarget s.current_location uri)).disableClientCertificate.disableClientCertificate
      env handler (redirectTarget s.current_location uri) RequestOptions.Default
      RequestFlags.None pg rfl rfl (by rw [← hcache] at hfind; exact hfind)
    rw [hplain, hd] at heq
    refine ⟨_, rest, heq, ?_, fun e he => ⟨(hall e he).1, (hall e he).2.2⟩, hw⟩
    show t.trace = _
    rw [ht]
    simp [BrowserTab.disableClientCertificate, BrowserTab.selectHandler, BrowserTab.log]
  · intro hfind
    have hm := dispatch_miss
      (((s.afterConfirmation env uri).log (Effect.startRequest
        (redirectTarget s.current_location uri) RequestOptions.Default
        RequestFlags.None)).selectHandler
        (redirectTarget s.current_location uri)).disableClientCertificate.disableClientCertificate
      env handler (redirectTarget s.current_location uri) RequestOptions.Default
      RequestFlags.None rfl rfl (by rw [← hcache] at hfind; exact hfind)
    rw [hplain, hm] at heq
    rw [heq]
    cases hr : env.handlerStartRequest handler
        (redirectTarget s.current_location uri).removeFragment RequestOptions.Default with
    | true =>
      refine ⟨[], ?_, by simp [Outcome.exit?]⟩
      simp [Outcome.tab, BrowserTab.disableClientCertificate, BrowserTab.selectHandler,
        BrowserTab.log, BrowserTab.cleanCache, BrowserTab.beginDispatch,
        BrowserTab.setUrlBarText]
    | false =>
      obtain ⟨_, added, ht, _⟩ := setErrorMessage_trace
        (BrowserTab.log (BrowserTab.log (BrowserTab.cleanCache (BrowserTab.beginDispatch
          (BrowserTab.disableClientCertificate (BrowserTab.disableClientCertificate
            (BrowserTab.selectHandler (BrowserTab.log (s.afterConfirmation env uri)
              (Effect.startRequest (redirectTarget s.current_location uri)
                RequestOptions.Default RequestFlags.None))
              (redirectTarget s.current_location uri))))
          env (redirectTarget s.current_location uri)) env)
          (Effect.cacheFind (redirectTarget s.current_location uri) false))
          (Effect.handlerStartRequest handler
            (redirectTarget s.current_location uri).removeFragment RequestOptions.Default false))
        env (ErrorMessage.redirectionFailed (redirectTarget s.current_location uri))
      refine ⟨Effect.setErrorMessage
        (ErrorMessage.redirectionFailed (redirectTarget s.current_location uri)) :: added, ?_,
        by simp [Outcome.exit?]⟩
      simp only [Outcome.tab]
      rw [ht]
      simp [BrowserTab.disableClientCertificate, BrowserTab.selectHandler,
        BrowserTab.log, BrowserTab.cleanCache, BrowserTab.beginDispatch,
        BrowserTab.setUrlBarText]

theorem C21_redirect_consults_cache_witness :
    sampleCachedNavigated.redirection_count < (sampleEnv 3 WarnNever).options.max_redirections ∧
    sampleCachedNavigated.redirectConfirmation (sampleEnv 3 WarnNever)
      (geminiUrl "example.org" "/") = none ∧
    sampleCachedNavigated.current_identity.isValid = false ∧
    (sampleCachedNavigated.cache.clean (sampleEnv 3 WarnNever).options
      (sampleEnv 3 WarnNever).now).find
        (redirectTarget sampleCachedNavigated.current_location (geminiUrl "example.org" "/"))
      = some samplePage ∧
    ∃ t, sampleCachedNavigated.on_redirected (sampleEnv 3 WarnNever)
        (geminiUrl "example.org" "/") false = Outcome.done RedirectExit.followed t ∧
      t.was_read_from_cache = true :=
  have hq : sampleCachedNavigated.redirectConfirmation (sampleEnv 3 WarnNever)
      (geminiUrl "example.org" "/") = none := by decide
  ⟨by decide, hq, by decide, by decide,
    let ⟨t, _, h1, _, _, h4⟩ :=
      (C21_redirect_consults_cache sampleCachedNavigated (sampleEnv 3 WarnNever)
        (geminiUrl "example.org" "/") false 0 (by decide)
        (fun _ h => Option.noConfusion (hq.symm.trans h)) (by decide) (by decide)
        (by decide)).1 samplePage (by decide)
    ⟨t, h1, h4⟩⟩

/-- The target of a relative redirect has the scheme and the host of the
current location, so it is classified as neither cross-scheme nor cross-host;
its port, path, query and fragment are those of the reference. -/
theorem redirectTarget_relative (current_location uri : QUrl) (h : uri.isRelative = true) :
    (redirectTarget current_location uri).scheme = current_location.scheme ∧
    (redirectTarget current_location uri).host = current_location.host ∧
    (current_location.scheme != (redirectTarget current_location uri).scheme) = false ∧
    (current_location.host != (redirectTarget current_location uri).host) = false ∧
    (redirectTarget current_location uri).port = uri.port ∧
    (redirectTarget current_location uri).path = uri.path ∧
    (redirectTarget current_location uri).query = uri.query ∧
    (redirectTarget current_location uri).fragment = uri.fragment := by
  unfold redirectTarget
  rw [if_pos h]
  simp [QUrl.setScheme, QUrl.setHost]

/-- C22, evaluated: the sample tab is on `gemini://example.org:1966/dir/page`
and gets a redirect to the relative reference `other`. The location that
`on_redirected` passes to `startRequest` has the scheme and the host of the
current location, and no confirmation is asked under `WarnOnHostChange`; but
its port is the default one, not 1966, and its path is `other` as given, not a
path below `/dir/`. -/
theorem C22_relative_redirect_not_resolved :
    relativeUrl.isRelative = true ∧
    samplePortTab.current_location = portUrl ∧
    redirectTarget portUrl relativeUrl =
      { scheme := "gemini", host := "example.org", port := -1, path := "other", query := "",
        fragment := "" } ∧
    (redirectTarget portUrl relativeUrl).port ≠ portUrl.port ∧
    samplePortTab.redirectConfirmation (sampleEnv 3 WarnOnHostChange) relativeUrl = none ∧
    (samplePortTab.on_redirected (sampleEnv 3 WarnOnHostChange) relativeUrl false).exit?
      = some RedirectExit.followed ∧
    startRequests ((samplePortTab.on_redirected (sampleEnv 3 WarnOnHostChange) relativeUrl
      false).tab.trace.drop samplePortTab.trace.length) =
      [{ scheme := "gemini", host := "example.org", port := -1, path := "other", query := "",
         fragment := "" }] ∧
    (samplePortTab.on_redirected (sampleEnv 3 WarnOnHostChange) relativeUrl
      false).tab.current_location.port = -1 := by
  refine ⟨by decide, rfl, by decide, by decide, by decide, by decide, by decide, by decide⟩

/-! ### The identity policy -/

theorem checkIdentity_eq (s : BrowserTab) (env : Env) (url : QUrl) :
    s.checkIdentity env url = (s.checkNewHost url).checkHostFilter env url := rfl

theorem IdentityStep.stay (s : BrowserTab) : IdentityStep s s :=
  ⟨⟨[], by simp, Or.inl rfl, by simp⟩⟩

theorem IdentityStep.next {s t u : BrowserTab} (h1 : IdentityStep s t) (h2 : IdentityStep t u) :
    IdentityStep s u := by
  obtain ⟨a1, e1, i1, d1⟩ := h1.trace
  obtain ⟨a2, e2, i2, d2⟩ := h2.trace
  refine ⟨⟨a1 ++ a2, by rw [e2, e1, List.append_assoc], ?_, ?_⟩⟩
  · rcases i2 with i2 | i2 | i2
    · rcases i1 with i1 | i1 | i1
      · exact Or.inl (i2.trans i1)
      · exact Or.inr (Or.inl (i2.trans i1))
      · exact Or.inr (Or.inr (by simp [i1]))
    · exact Or.inr (Or.inl i2)
    · exact Or.inr (Or.inr (by simp [i2]))
  · intro hd ha
    rw [List.any_append, Bool.or_eq_false_iff] at ha
    rw [List.any_append, Bool.or_eq_true] at hd
    by_cases hd2 : a2.any Effect.isDeclinedKeep = true
    · obtain ⟨hi, hm⟩ := d2 hd2 ha.2
      exact ⟨hi, List.mem_append_right _ hm⟩
    · have hd1 : a1.any Effect.isDeclinedKeep = true := by
        rcases hd with h | h
        · exact h
        · exact absurd h hd2
      obtain ⟨hi, hm⟩ := d1 hd1 ha.1
      refine ⟨?_, List.mem_append_left _ hm⟩
      rcases i2 with i2 | i2 | i2
      · exact i2.trans hi
      · exact i2
      · rw [ha.2] at i2
        cases i2

/-- A step that keeps the identity and adds effects none of which is a
declined question to keep the certificate. -/
theorem IdentityStep.of_effects {s t : BrowserTab} (added : List Effect)
    (ht : t.trace = s.trace ++ added) (hi : t.current_identity = s.current_identity)
    (hd : added.any Effect.isDeclinedKeep = false) : IdentityStep s t :=
  ⟨⟨added, ht, Or.inl hi, fun h => by rw [hd] at h; cases h⟩⟩

/-- A step that resets the identity and calls `disableClientCertificate`. -/
theorem IdentityStep.of_reset {s t : BrowserTab} (added : List Effect)
    (ht : t.trace = s.trace ++ added) (hi : t.current_identity = CryptoIdentity.none)
    (hm : Effect.handlerDisableClientCertificate ∈ added) : IdentityStep s t :=
  ⟨⟨added, ht, Or.inr (Or.inl hi), fun _ _ => ⟨hi, hm⟩⟩⟩

theorem IdentityStep.of_disable (s : BrowserTab) : IdentityStep s s.disableClientCertificate :=
  IdentityStep.of_reset [Effect.handlerDisableClientCertificate] rfl rfl (by simp)

theorem IdentityStep.of_enable (s : BrowserTab) (ident : CryptoIdentity) (name : QString) :
    IdentityStep s
      (BrowserTab.enableClientCertificate
        (s.answered (Question.automaticCertificate name) true s.pending_answers.tail) ident).2 := by
  unfold BrowserTab.enableClientCertificate
  split_ifs
  · exact IdentityStep.of_reset
      [Effect.question (Question.automaticCertificate name) true,
        Effect.notice Notice.invalidIdentity, Effect.handlerDisableClientCertificate]
      (by simp [BrowserTab.disableClientCertificate, BrowserTab.log, BrowserTab.answered])
      rfl (by simp)
  · exact ⟨⟨[Effect.question (Question.automaticCertificate name) true], rfl,
      Or.inr (Or.inr (by simp [Effect.isAcceptedAutomatic])),
      fun h => by simp [Effect.isDeclinedKeep, Question.isKeepCertificate] at h⟩⟩

theorem IdentityStep.of_offer (s : BrowserTab) (env : Env) (url : QUrl) :
    IdentityStep s (s.offerAutomaticCertificate env url) := by
  unfold BrowserTab.offerAutomaticCertificate
  split
  · exact IdentityStep.stay _
  · rename_i ident _
    by_cases ha : s.nextAnswer = true
    · have : (!s.nextAnswer) = false := by simp [ha]
      simp only [this, Bool.false_eq_true, if_false]
      have hs : s.asked (Question.automaticCertificate ident.display_name) =
          s.answered (Question.automaticCertificate ident.display_name) true
            s.pending_answers.tail := by
        unfold BrowserTab.asked
        rw [ha]
      rw [hs]
      exact IdentityStep.of_enable s ident ident.display_name
    · have : (!s.nextAnswer) = true := by simpa using ha
      simp only [this, if_true]
      refine IdentityStep.of_effects
        [Effect.question (Question.automaticCertificate ident.display_name) s.nextAnswer]
        rfl rfl ?_
      cases s.nextAnswer <;> simp [Effect.isDeclinedKeep, Question.isKeepCertificate]

/-- A question to keep the certificate: answered No, the identity is reset
and `disableClientCertificate` is called; answered Yes, nothing changes. -/
theorem IdentityStep.of_keep_question (s : BrowserTab) (q : Question) :
    IdentityStep s
      (if (!s.nextAnswer) = true then (s.asked q).disableClientCertificate else s.asked q) := by
  by_cases ha : s.nextAnswer = true
  · have : (!s.nextAnswer) = false := by simp [ha]
    simp only [this, Bool.false_eq_true, if_false]
    refine IdentityStep.of_effects [Effect.question q s.nextAnswer] rfl rfl ?_
    rw [ha]
    simp [Effect.isDeclinedKeep]
  · have : (!s.nextAnswer) = true := by simpa using ha
    simp only [this, if_true]
    exact IdentityStep.of_reset
      [Effect.question q s.nextAnswer, Effect.handlerDisableClientCertificate]
      (by simp [BrowserTab.disableClientCertificate, BrowserTab.log, BrowserTab.asked,
        BrowserTab.answered])
      rfl (by simp)

theorem IdentityStep.of_new_host_check (s : BrowserTab) (url : QUrl) :
    IdentityStep s (s.checkNewHost url) := by
  unfold BrowserTab.checkNewHost
  by_cases hc : (s.current_identity.isValid && url.host != s.current_location.host) = true
  · rw [if_pos hc]
    exact IdentityStep.of_keep_question s _
  · rw [if_neg hc]
    exact IdentityStep.stay _

theorem IdentityStep.of_host_filter_check (s : BrowserTab) (env : Env) (url : QUrl) :
    IdentityStep s (s.checkHostFilter env url) := by
  unfold BrowserTab.checkHostFilter
  by_cases hc : (s.current_identity.isValid && env.isHostFiltered s.current_identity url) = true
  · rw [if_pos hc]
    exact IdentityStep.of_keep_question s _
  · rw [if_neg hc]
    split_ifs
    · exact IdentityStep.of_offer s env url
    · exact IdentityStep.stay _

theorem IdentityStep.of_identity_checks (s : BrowserTab) (env : Env) (url : QUrl) :
    IdentityStep s (s.checkIdentity env url) := by
  rw [checkIdentity_eq]
  exact (IdentityStep.of_new_host_check s url).next (IdentityStep.of_host_filter_check _ env url)

theorem IdentityStep.of_certificate (s : BrowserTab) (env : Env) (url : QUrl) (handler : Nat) :
    IdentityStep s (s.try_enable_certificate env url handler).2 := by
  unfold BrowserTab.try_enable_certificate
  dsimp only
  split_ifs
  · refine IdentityStep.of_effects
      [Effect.handlerEnableClientCertificate handler
          (env.handlerEnableClientCertificate handler s.current_identity),
        Effect.question (Question.certificateUnsupported url.scheme)
          (s.log (Effect.handlerEnableClientCertificate handler
            (env.handlerEnableClientCertificate handler s.current_identity))).nextAnswer]
      (by simp [BrowserTab.asked, BrowserTab.answered, BrowserTab.log]) rfl ?_
    cases (s.log (Effect.handlerEnableClientCertificate handler
      (env.handlerEnableClientCertificate handler s.current_identity))).nextAnswer <;>
      simp [Effect.isDeclinedKeep, Question.isKeepCertificate]
  · exact IdentityStep.of_reset
      [Effect.handlerEnableClientCertificate handler
          (env.handlerEnableClientCertificate handler s.current_identity),
        Effect.question (Question.certificateUnsupported url.scheme)
          (s.log (Effect.handlerEnableClientCertificate handler
            (env.handlerEnableClientCertificate handler s.current_identity))).nextAnswer,
        Effect.handlerDisableClientCertificate]
      (by simp [BrowserTab.asked, BrowserTab.answered, BrowserTab.log,
        BrowserTab.disableClientCertificate]) rfl (by simp)
  · exact IdentityStep.of_effects
      [Effect.handlerEnableClientCertificate handler
        (env.handlerEnableClientCertificate handler s.current_identity)]
      rfl rfl (by simp [Effect.isDeclinedKeep])
  · exact IdentityStep.of_disable s

/-- When `try_enable_certificate` returns false, the identity is still the
valid one it could not enable. -/
theorem try_enable_certificate_false (s : BrowserTab) (env : Env) (url : QUrl) (handler : Nat)
    (h : (s.try_enable_certificate env url handler).1 = false) :
    (s.try_enable_certificate env url handler).2.current_identity.isValid = true := by
  unfold BrowserTab.try_enable_certificate at h ⊢
  dsimp only at h ⊢
  split_ifs at h ⊢ with h1 h2 h3
  exact h1

/-- With a valid identity that the adapter accepts, `try_enable_certificate`
only records the call. -/
theorem try_enable_certificate_accepted (s : BrowserTab) (env : Env) (url : QUrl)
    (handler : Nat) (hv : s.current_identity.isValid = true)
    (he : env.handlerEnableClientCertificate handler s.current_identity = true) :
    s.try_enable_certificate env url handler =
      (true, s.log (Effect.handlerEnableClientCertificate handler true)) := by
  unfold BrowserTab.try_enable_certificate
  simp [hv, he]

theorem isDeclinedKeep_of_fetch (e : Effect) (h : e.isFetch = true) :
    e.isDeclinedKeep = false ∧ e.isAcceptedAutomatic = false ∧ e.isIdentity = false := by
  cases e with
  | question q yes =>
    cases q <;> cases yes <;>
      simp_all [Effect.isFetch, Effect.isDelivery, Effect.isDeclinedKeep,
        Effect.isAcceptedAutomatic, Effect.isIdentity, Question.isKeepCertificate]
  | _ =>
    simp_all [Effect.isFetch, Effect.isDelivery, Effect.isDeclinedKeep,
      Effect.isAcceptedAutomatic, Effect.isIdentity]

theorem isFetch_of_delivery (e : Effect) (h : e.isDelivery = true) : e.isFetch = true := by
  cases e <;> simp_all [Effect.isFetch, Effect.isDelivery]

/-- What the last part of `startRequest` adds to the trace. -/
theorem dispatch_added (s : BrowserTab) (env : Env) (handler : Nat) (url : QUrl)
    (options : RequestOptions) (flags : RequestFlags) :
    ∃ added, (s.dispatch env handler url options flags).tab.trace = s.trace ++ added ∧
      ∀ e ∈ added, e.isFetch = true := by
  by_cases h : flags.DontReadFromCache = true ∨ s.current_identity.isValid = true
  · rw [dispatch_bypass s env handler url options flags h]
    exact ⟨[Effect.handlerStartRequest handler url.removeFragment options
      (env.handlerStartRequest handler url.removeFragment options)], rfl,
      by simp [Effect.isFetch]⟩
  · have hflag : flags.DontReadFromCache = false := by
      cases hf : flags.DontReadFromCache with
      | false => rfl
      | true => exact absurd (Or.inl hf) h
    have hid : s.current_identity.isValid = false := by
      cases hf : s.current_identity.isValid with
      | false => rfl
      | true => exact absurd (Or.inr hf) h
    cases hfind : (s.cache.clean env.options env.now).find url with
    | none =>
      rw [dispatch_miss s env handler url options flags hflag hid hfind]
      exact ⟨[Effect.cacheClean, Effect.cacheFind url false,
        Effect.handlerStartRequest handler url.removeFragment options
          (env.handlerStartRequest handler url.removeFragment options)],
        by simp [Outcome.tab, BrowserTab.log, BrowserTab.cleanCache, BrowserTab.beginDispatch,
          BrowserTab.setUrlBarText],
        by simp [Effect.isFetch]⟩
    | some pg =>
      obtain ⟨t, rest, heq, ht, hall, _⟩ :=
        dispatch_hit_spec s env handler url options flags pg hflag hid hfind
      rw [heq]
      refine ⟨Effect.cacheClean :: Effect.cacheFind url true ::
        Effect.requestComplete pg.body pg.mime :: rest, ht, ?_⟩
      intro e he
      simp only [List.mem_cons] at he
      rcases he with rfl | rfl | rfl | he
      · rfl
      · rfl
      · rfl
      · exact isFetch_of_delivery e (hall e he).1

theorem any_eq_false_of_forall (p : Effect → Bool) (l : List Effect)
    (h : ∀ e ∈ l, p e = false) : l.any p = false := by
  induction l with
  | nil => rfl
  | cons a rest ih =>
    rw [List.any_cons, h a (List.mem_cons_self _ _),
      ih (fun e he => h e (List.mem_cons_of_mem _ he))]
    rfl

theorem IdentityStep.of_fetch (s : BrowserTab) (env : Env) (handler : Nat) (url : QUrl)
    (options : RequestOptions) (flags : RequestFlags) :
    IdentityStep s (s.dispatch env handler url options flags).tab := by
  obtain ⟨added, ht, hall⟩ := dispatch_added s env handler url options flags
  exact IdentityStep.of_effects added ht (dispatch_identity s env handler url options flags)
    (any_eq_false_of_forall _ _ (fun e he => (isDeclinedKeep_of_fetch e (hall e he)).1))

/-- The ways `startRequest` can go, with what each does to the identity. -/
theorem startRequest_identity_cases (s : BrowserTab) (env : Env) (url : QUrl)
    (options : RequestOptions) (flags : RequestFlags) :
    (s.startRequest env url options flags =
      Outcome.aborted ((s.log (Effect.startRequest url options flags)).selectHandler url)) ∨
    (∃ t, s.startRequest env url options flags = Outcome.done false t ∧
      t.current_identity.isValid = true ∧ IdentityStep s t) ∨
    (∃ handler s1,
      List.findIdx? (fun h : ProtocolHandler => h.supportsScheme url.scheme) s.protocol_handlers
        = some handler ∧
      s.startRequest env url options flags = s1.dispatch env handler url options flags ∧
      IdentityStep s s1 ∧
      Prepared ((s.log (Effect.startRequest url options flags)).selectHandler url) s1) := by
  have h0 : IdentityStep s ((s.log (Effect.startRequest url options flags)).selectHandler url) :=
    IdentityStep.of_effects [Effect.startRequest url options flags] rfl rfl
      (by simp [Effect.isDeclinedKeep])
  unfold BrowserTab.startRequest
  dsimp only
  cases hh : List.findIdx? (fun h : ProtocolHandler => h.supportsScheme url.scheme)
      s.protocol_handlers with
  | none =>
    left
    have : ((s.log (Effect.startRequest url options flags)).selectHandler url).current_handler
        = none := hh
    simp only [this]
  | some handler =>
    right
    have : ((s.log (Effect.startRequest url options flags)).selectHandler url).current_handler
        = some handler := hh
    simp only [this]
    by_cases h1 : (((s.log (Effect.startRequest url options flags)).selectHandler
        url).try_enable_certificate env url handler).1 = true
    · have h1n : (!(((s.log (Effect.startRequest url options flags)).selectHandler
          url).try_enable_certificate env url handler).1) = false := by simp [h1]
      simp only [h1n, Bool.false_eq_true, if_false]
      by_cases h2 : (((((s.log (Effect.startRequest url options flags)).selectHandler
          url).try_enable_certificate env url handler).2.checkIdentity env
            url).try_enable_certificate env url handler).1 = true
      · have h2n : (!(((((s.log (Effect.startRequest url options flags)).selectHandler
            url).try_enable_certificate env url handler).2.checkIdentity env
              url).try_enable_certificate env url handler).1) = false := by simp [h2]
        simp only [h2n, Bool.false_eq_true, if_false]
        right
        exact ⟨handler, _, rfl, rfl,
          h0.next ((IdentityStep.of_certificate _ env url handler).next
            ((IdentityStep.of_identity_checks _ env url).next
              (IdentityStep.of_certificate _ env url handler))),
          (Prepared.of_try_enable_certificate _ env url handler).followedBy
            ((Prepared.of_checkIdentity _ env url).followedBy
              (Prepared.of_try_enable_certificate _ env url handler))⟩
      · have h2f : (((((s.log (Effect.startRequest url options flags)).selectHandler
            url).try_enable_certificate env url handler).2.checkIdentity env
              url).try_enable_certificate env url handler).1 = false := by simpa using h2
        have h2n : (!(((((s.log (Effect.startRequest url options flags)).selectHandler
            url).try_enable_certificate env url handler).2.checkIdentity env
              url).try_enable_certificate env url handler).1) = true := by simp [h2f]
        simp only [h2n, if_true]
        left
        exact ⟨_, rfl, try_enable_certificate_false _ env url handler h2f,
          h0.next ((IdentityStep.of_certificate _ env url handler).next
            ((IdentityStep.of_identity_checks _ env url).next
              (IdentityStep.of_certificate _ env url handler)))⟩
    · have h1f : (((s.log (Effect.startRequest url options flags)).selectHandler
          url).try_enable_certificate env url handler).1 = false := by simpa using h1
      have h1n : (!(((s.log (Effect.startRequest url options flags)).selectHandler
          url).try_enable_certificate env url handler).1) = true := by simp [h1f]
      simp only [h1n, if_true]
      left
      exact ⟨_, rfl, try_enable_certificate_false _ env url handler h1f,
        h0.next (IdentityStep.of_certificate _ env url handler)⟩

/-- What the first identity check adds when the identity is valid and the
host is new: the question, first. -/
theorem checkNewHost_asks (s : BrowserTab) (url : QUrl)
    (hv : s.current_identity.isValid = true)
    (hh : (url.host != s.current_location.host) = true) :
    ∃ more, (s.checkNewHost url).trace =
      s.trace ++ Effect.question Question.keepCertificateNewHost s.nextAnswer :: more := by
  unfold BrowserTab.checkNewHost
  rw [if_pos (by simp [hv, hh])]
  split_ifs
  · exact ⟨[Effect.handlerDisableClientCertificate],
      by simp [BrowserTab.disableClientCertificate, BrowserTab.log, BrowserTab.asked,
        BrowserTab.answered]⟩
  · exact ⟨[], rfl⟩

/-- What the second identity check adds when the identity is valid and its
host filter excludes the location: the question, first. -/
theorem checkHostFilter_asks (s : BrowserTab) (env : Env) (url : QUrl)
    (hv : s.current_identity.isValid = true)
    (hf : env.isHostFiltered s.current_identity url = true) :
    ∃ more, (s.checkHostFilter env url).trace =
      s.trace ++ Effect.question
        (Question.keepCertificateHostFilter url s.current_identity.host_filter)
        s.nextAnswer :: more := by
  unfold BrowserTab.checkHostFilter
  rw [if_pos (by simp [hv, hf])]
  split_ifs
  · exact ⟨[Effect.handlerDisableClientCertificate],
      by simp [BrowserTab.disableClientCertificate, BrowserTab.log, BrowserTab.asked,
        BrowserTab.answered]⟩
  · exact ⟨[], rfl⟩

/-- The trace of `startRequest` extends that of the tab after the identity
checks, when the first call of `try_enable_certificate` returned true. -/
theorem startRequest_after_checks (s : BrowserTab) (env : Env) (url : QUrl)
    (options : RequestOptions) (flags : RequestFlags) (handler : Nat)
    (hsel : List.findIdx? (fun h : ProtocolHandler => h.supportsScheme url.scheme)
      s.protocol_handlers = some handler)
    (h1 : (((s.log (Effect.startRequest url options flags)).selectHandler
      url).try_enable_certificate env url handler).1 = true) :
    ∃ more, (s.startRequest env url options flags).tab.trace =
      ((((s.log (Effect.startRequest url options flags)).selectHandler
        url).try_enable_certificate env url handler).2.checkIdentity env url).trace ++ more := by
  have h0 : ((s.log (Effect.startRequest url options flags)).selectHandler url).current_handler
      = some handler := hsel
  have h1n : (!(((s.log (Effect.startRequest url options flags)).selectHandler
      url).try_enable_certificate env url handler).1) = false := by simp [h1]
  unfold BrowserTab.startRequest
  dsimp only
  simp only [h0, h1n, Bool.false_eq_true, if_false]
  obtain ⟨a2, e2, _⟩ := (Prepared.of_try_enable_certificate
    ((((s.log (Effect.startRequest url options flags)).selectHandler
      url).try_enable_certificate env url handler).2.checkIdentity env url) env url handler).trace
  split_ifs
  · exact ⟨a2, e2⟩
  · obtain ⟨a3, e3, _⟩ := dispatch_added
      (((((s.log (Effect.startRequest url options flags)).selectHandler
        url).try_enable_certificate env url handler).2.checkIdentity env
          url).try_enable_certificate env url handler).2 env handler url options flags
    exact ⟨a2 ++ a3, by rw [e3, e2, List.append_assoc]⟩

theorem isAdapterRequest_of_identity (e : Effect) (h : e.isIdentity = true) :
    e.isAdapterRequest = false := by
  cases e <;> simp_all [Effect.isIdentity, Effect.isAdapterRequest]

/-- C23, as stated, fails when the adapter refuses the identity: a valid
identity is active and the request goes to a new host. `startRequest` then
asks whether to continue without the certificate, and with the answer Yes it
resets the identity before its checks, so that the question whether to keep
the certificate is never asked; with the answer No it returns false, again
without that question. -/
theorem C23_counterexample :
    sampleIdentifiedAccepting.current_identity.isValid = true ∧
    ((geminiUrl "other.org" "/").host != sampleIdentifiedAccepting.current_location.host) = true ∧
    (sampleIdentifiedAccepting.startRequest certificateRefusingEnv (geminiUrl "other.org" "/")
      RequestOptions.Default RequestFlags.None).exit? = some true ∧
    ((sampleIdentifiedAccepting.startRequest certificateRefusingEnv (geminiUrl "other.org" "/")
      RequestOptions.Default RequestFlags.None).tab.trace.drop
        sampleIdentifiedAccepting.trace.length).take 4 =
      [ Effect.startRequest (geminiUrl "other.org" "/") RequestOptions.Default RequestFlags.None,
        Effect.handlerEnableClientCertificate 0 false,
        Effect.question (Question.certificateUnsupported "gemini") true,
        Effect.handlerDisableClientCertificate ] ∧
    (sampleIdentifiedAccepting.startRequest certificateRefusingEnv (geminiUrl "other.org" "/")
      RequestOptions.Default RequestFlags.None).tab.trace.any Effect.isKeepQuestion = false ∧
    sampleIdentifiedDeclining.current_identity.isValid = true ∧
    (sampleIdentifiedDeclining.startRequest certificateRefusingEnv (geminiUrl "other.org" "/")
      RequestOptions.Default RequestFlags.None).exit? = some false ∧
    (sampleIdentifiedDeclining.startRequest certificateRefusingEnv (geminiUrl "other.org" "/")
      RequestOptions.Default RequestFlags.None).tab.trace.any Effect.isKeepQuestion = false := by
  refine ⟨by decide, by decide, by decide, by decide, by decide, by decide, by decide, by decide⟩

/-- C23, amended: the identity policy of `startRequest`. With a valid identity
that the selected adapter accepts, a new host, or else a host filter that
excludes the location, makes `startRequest` ask whether to keep the certificate. When such
a question was answered No and no automatic certificate was accepted, the last
part of `startRequest`, which calls the adapter, runs with the identity reset
and after `disableClientCertificate`. And from an invalid identity
`startRequest` never comes to a valid one unless an automatic certificate
is accepted, the one place where it calls `enableClientCertificate`. -/
theorem C23_identity_policy (s : BrowserTab) (env : Env) (url : QUrl)
    (options : RequestOptions) (flags : RequestFlags) :
    (∀ handler,
      List.findIdx? (fun h : ProtocolHandler => h.supportsScheme url.scheme) s.protocol_handlers
        = some handler →
      s.current_identity.isValid = true →
      env.handlerEnableClientCertificate handler s.current_identity = true →
      ((url.host != s.current_location.host) = true →
        ∃ more, (s.startRequest env url options flags).tab.trace =
          s.trace ++ Effect.startRequest url options flags ::
            Effect.handlerEnableClientCertificate handler true ::
            Effect.question Question.keepCertificateNewHost s.nextAnswer :: more) ∧
      ((url.host != s.current_location.host) = false →
        env.isHostFiltered s.current_identity url = true →
        ∃ more, (s.startRequest env url options flags).tab.trace =
          s.trace ++ Effect.startRequest url options flags ::
            Effect.handlerEnableClientCertificate handler true ::
            Effect.question
              (Question.keepCertificateHostFilter url s.current_identity.host_filter)
              s.nextAnswer :: more)) ∧
    (∀ added, (s.startRequest env url options flags).tab.trace = s.trace ++ added →
      added.any Effect.isDeclinedKeep = true →
      added.any Effect.isAcceptedAutomatic = false →
      (s.startRequest env url options flags).tab.current_identity = CryptoIdentity.none ∧
      ∃ (handler : Nat) (s1 : BrowserTab) (checks : List Effect),
        s.startRequest env url options flags = s1.dispatch env handler url options flags ∧
        s1.current_identity = CryptoIdentity.none ∧
        s1.trace = s.trace ++ checks ∧
        Effect.handlerDisableClientCertificate ∈ checks ∧
        ∀ e ∈ checks, e.isAdapterRequest = false) ∧
    (∀ added, s.current_identity.isValid = false →
      (s.startRequest env url options flags).tab.trace = s.trace ++ added →
      added.any Effect.isAcceptedAutomatic = false →
      (s.startRequest env url options flags).tab.current_identity.isValid = false) := by
  refine ⟨?_, ?_, ?_⟩
  · intro handler hsel hv he
    have hv0 : ((s.log (Effect.startRequest url options flags)).selectHandler
        url).current_identity.isValid = true := hv
    have he0 : env.handlerEnableClientCertificate handler
        ((s.log (Effect.startRequest url options flags)).selectHandler url).current_identity
          = true := he
    have htry := try_enable_certificate_accepted
      ((s.log (Effect.startRequest url options flags)).selectHandler url) env url handler hv0 he0
    obtain ⟨more, hm⟩ := startRequest_after_checks s env url options flags handler hsel
      (by rw [htry])
    rw [htry] at hm
    dsimp only at hm
    rw [checkIdentity_eq] at hm
    obtain ⟨a2, e2, _⟩ := (IdentityStep.of_host_filter_check
      ((((s.log (Effect.startRequest url options flags)).selectHandler url).log
        (Effect.handlerEnableClientCertificate handler true)).checkNewHost url) env url).trace
    constructor
    · intro hh
      obtain ⟨a1, e1⟩ := checkNewHost_asks
        (((s.log (Effect.startRequest url options flags)).selectHandler url).log
          (Effect.handlerEnableClientCertificate handler true)) url hv hh
      refine ⟨a1 ++ a2 ++ more, ?_⟩
      rw [hm, e2, e1]
      simp [BrowserTab.selectHandler, BrowserTab.log, BrowserTab.nextAnswer]
    · intro hh hf
      have hsame : BrowserTab.checkNewHost
          (((s.log (Effect.startRequest url options flags)).selectHandler url).log
            (Effect.handlerEnableClientCertificate handler true)) url =
          ((s.log (Effect.startRequest url options flags)).selectHandler url).log
            (Effect.handlerEnableClientCertificate handler true) := by
        unfold BrowserTab.checkNewHost
        rw [if_neg]
        have : (url.host != (((s.log (Effect.startRequest url options flags)).selectHandler
            url).log (Effect.handlerEnableClientCertificate handler true)).current_location.host)
            = false := hh
        simp [this]
      rw [hsame] at hm
      obtain ⟨a1, e1⟩ := checkHostFilter_asks
        (((s.log (Effect.startRequest url options flags)).selectHandler url).log
          (Effect.handlerEnableClientCertificate handler true)) env url hv hf
      refine ⟨a1 ++ more, ?_⟩
      rw [hm, e1]
      simp [BrowserTab.selectHandler, BrowserTab.log, BrowserTab.nextAnswer]
  · intro added hadd hd ha
    rcases startRequest_identity_cases s env url options flags with
      heq | ⟨t, heq, hvalid, hstep⟩ | ⟨handler, s1, _, heq, hstep, hprep⟩
    · rw [heq] at hadd
      have : added = [Effect.startRequest url options flags] := by
        have h2 : (Outcome.aborted
            ((s.log (Effect.startRequest url options flags)).selectHandler url)
              : Outcome Bool).tab.trace =
            s.trace ++ [Effect.startRequest url options flags] := rfl
        rw [h2] at hadd
        exact (List.append_cancel_left hadd).symm
      rw [this] at hd
      simp [Effect.isDeclinedKeep] at hd
    · obtain ⟨a, ea, _, hdecl⟩ := hstep.trace
      rw [heq] at hadd
      have : added = a := by
        have h2 : (Outcome.done false t).tab.trace = t.trace := rfl
        rw [h2, ea] at hadd
        exact (List.append_cancel_left hadd).symm
      rw [this] at hd ha
      have hnone := (hdecl hd ha).1
      rw [hnone] at hvalid
      cases hvalid
    · obtain ⟨a, ea, _, hdecl⟩ := hstep.trace
      obtain ⟨d, ed, hfetch⟩ := dispatch_added s1 env handler url options flags
      have hsplit : added = a ++ d := by
        rw [heq, ed, ea, List.append_assoc] at hadd
        exact (List.append_cancel_left hadd).symm
      rw [hsplit, List.any_append] at hd ha
      have hdd : d.any Effect.isDeclinedKeep = false :=
        any_eq_false_of_forall _ _ (fun e he => (isDeclinedKeep_of_fetch e (hfetch e he)).1)
      rw [hdd, Bool.or_false] at hd
      rw [Bool.or_eq_false_iff] at ha
      obtain ⟨hnone, hmem⟩ := hdecl hd ha.1
      refine ⟨?_, handler, s1, a, heq, hnone, ea, hmem, ?_⟩
      · rw [heq, dispatch_identity]
        exact hnone
      · obtain ⟨p, ep, hp⟩ := hprep.trace
        have hap : a = Effect.startRequest url options flags :: p := by
          have h3 : ((s.log (Effect.startRequest url options flags)).selectHandler url).trace
              = s.trace ++ [Effect.startRequest url options flags] := rfl
          rw [h3, ea, List.append_assoc] at ep
          exact List.append_cancel_left ep
        intro e he
        rw [hap] at he
        rcases List.mem_cons.1 he with rfl | he
        · rfl
        · exact isAdapterRequest_of_identity e (hp e he)
  · intro added hinv hadd ha
    have key : ∀ t : BrowserTab, IdentityStep s t → t.trace = s.trace ++ added →
        t.current_identity.isValid = false := by
      intro t hstep ht
      obtain ⟨a, ea, hid, _⟩ := hstep.trace
      have : added = a := by
        rw [ea] at ht
        exact (List.append_cancel_left ht).symm
      rw [this] at ha
      rcases hid with h | h | h
      · rw [h]
        exact hinv
      · rw [h]
        rfl
      · rw [ha] at h
        cases h
    rcases startRequest_identity_cases s env url options flags with
      heq | ⟨t, heq, _, hstep⟩ | ⟨handler, s1, _, heq, hstep, _⟩
    · rw [heq]
      exact hinv
    · rw [heq] at hadd ⊢
      exact key t hstep hadd
    · have hstep2 := hstep.next (IdentityStep.of_fetch s1 env handler url options flags)
      rw [heq] at hadd ⊢
      exact key _ hstep2 hadd

theorem C23_identity_policy_witness :
    sampleIdentifiedDeclining.current_identity.isValid = true ∧
    sampleIdentifiedDeclining.nextAnswer = false ∧
    ((geminiUrl "other.org" "/").host != sampleIdentifiedDeclining.current_location.host) = true ∧
    (sampleIdentifiedDeclining.startRequest (sampleEnv 3 WarnNever) (geminiUrl "other.org" "/")
      RequestOptions.Default RequestFlags.None).tab.trace.any Effect.isDeclinedKeep = true ∧
    (sampleIdentifiedDeclining.startRequest (sampleEnv 3 WarnNever) (geminiUrl "other.org" "/")
      RequestOptions.Default RequestFlags.None).tab.current_identity = CryptoIdentity.none :=
  ⟨by decide, rfl, by decide, by decide,
    ((C23_identity_policy sampleIdentifiedDeclining (sampleEnv 3 WarnNever)
      (geminiUrl "other.org" "/") RequestOptions.Default RequestFlags.None).2.1
      (sampleIdentifiedDeclining.startRequest (sampleEnv 3 WarnNever) (geminiUrl "other.org" "/")
        RequestOptions.Default RequestFlags.None).tab.trace
      (by decide) (by decide) (by decide)).1⟩

/-! ### Claims on the cache store -/

/-- The pages after `push`: the pages for other locations, then the new
entry, without the oldest of them when the capacity is exceeded. -/
theorem push_pages (c : CacheHandler) (options : GenericSettings) (now : QDateTime)
    (url : QUrl) (body : QByteArray) (mime : MimeType) :
    ∃ k, (c.push options now url body mime).pages =
      (c.pages.filter (fun p : CachedPage => !(p.url == CacheHandler.key url)) ++
        [({ url := CacheHandler.key url, body := body, mime := mime, scroll_pos := -1,
            time_cached := now } : CachedPage)]).drop k ∧
      (1 ≤ options.cache_limit →
        k ≤ (c.pages.filter
          (fun p : CachedPage => !(p.url == CacheHandler.key url))).length) := by
  unfold CacheHandler.push
  dsimp only
  split_ifs with h
  · refine ⟨_, rfl, ?_⟩
    intro hl
    simp only [List.length_append, List.length_singleton]
    omega
  · exact ⟨0, rfl, fun _ => Nat.zero_le _⟩

theorem find_drop_append (l : List CachedPage) (e : CachedPage) (key : QUrl) (k : Nat)
    (hk : k ≤ l.length) (hl : ∀ p ∈ l, (p.url == key) = false) (he : (e.url == key) = true) :
    ((l ++ [e]).drop k).find? (fun p => p.url == key) = some e := by
  rw [List.drop_append_of_le_length hk, List.find?_append]
  have : (l.drop k).find? (fun p => p.url == key) = none := by
    rw [List.find?_eq_none]
    intro p hp
    have := hl p (List.mem_of_mem_drop hp)
    simp [this]
  rw [this]
  simp [List.find?, he]

/-- C25, as stated, fails for a cache without capacity: with `cache_limit = 0` and
`cache_threshold = 0` the first insertion exceeds the capacity, the entries are
removed until none is left, and `find` right after `push` returns nothing. -/
theorem C25_counterexample :
    (({ pages := [] } : CacheHandler).push zeroCacheOptions 1 (geminiUrl "example.org" "/a")
      [97] samplePage.mime).find (geminiUrl "example.org" "/a") = none ∧
    ¬ ∀ (c : CacheHandler) (options : GenericSettings) (now : QDateTime) (url : QUrl)
        (body : QByteArray) (mime : MimeType),
      ((c.push options now url body mime).find url).map (fun p => (p.body, p.mime))
        = some (body, mime) := by
  refine ⟨by decide, fun h => ?_⟩
  have h2 := h { pages := [] } zeroCacheOptions 1 (geminiUrl "example.org" "/a") [97]
    samplePage.mime
  revert h2
  decide

/-- The pages after `push`, by whether the capacity is exceeded. -/
theorem push_pages_cases (c : CacheHandler) (options : GenericSettings) (now : QDateTime)
    (url : QUrl) (body : QByteArray) (mime : MimeType) :
    (((c.pages.filter (fun p : CachedPage => !(p.url == CacheHandler.key url))).length : Int) + 1
        ≤ options.cache_limit + options.cache_threshold →
      (c.push options now url body mime).pages =
        c.pages.filter (fun p : CachedPage => !(p.url == CacheHandler.key url)) ++
          [({ url := CacheHandler.key url, body := body, mime := mime, scroll_pos := -1,
              time_cached := now } : CachedPage)]) ∧
    (¬ ((c.pages.filter (fun p : CachedPage => !(p.url == CacheHandler.key url))).length : Int) + 1
        ≤ options.cache_limit + options.cache_threshold →
      options.cache_limit ≤ 0 →
      (c.push options now url body mime).pages = []) := by
  unfold CacheHandler.push
  dsimp only
  constructor
  · intro h
    rw [if_neg]
    simp only [List.length_append, List.length_singleton]
    push_cast
    omega
  · intro h hl
    rw [if_pos]
    · have hz : options.cache_limit.toNat = 0 := by omega
      simp only [hz, Nat.sub_zero]
      exact List.drop_length _
    · simp only [List.length_append, List.length_singleton]
      push_cast
      omega

/-- C25, amended: `push` followed by `find` for the same location returns an
entry with the body and the type given to `push` exactly when the capacity
leaves room for it, that is, when `cache_limit` is one at least or the
insertion does not bring the number of entries above
`cache_limit + cache_threshold`. With a limited lifetime, `clean` at a time more
than `cache_life` minutes later removes the entry, so that `find` returns
nothing. -/
theorem C25_cache_round_trip (c : CacheHandler) (options : GenericSettings) (now : QDateTime)
    (url : QUrl) (body : QByteArray) (mime : MimeType) :
    ((c.push options now url body mime).find url =
        some { url := CacheHandler.key url, body := body, mime := mime, scroll_pos := -1,
               time_cached := now } ↔
      (1 ≤ options.cache_limit ∨
        ((c.pages.filter (fun p : CachedPage => !(p.url == CacheHandler.key url))).length : Int)
          + 1 ≤ options.cache_limit + options.cache_threshold)) ∧
    (∀ later : QDateTime, options.cache_unlimited_life = false →
      later - now > options.cache_life * 60 →
      ((c.push options now url body mime).clean options later).find url = none) := by
  obtain ⟨k, hp, hk⟩ := push_pages c options now url body mime
  obtain ⟨hroom, hfull⟩ := push_pages_cases c options now url body mime
  have hfilter : ∀ p ∈ c.pages.filter (fun p : CachedPage => !(p.url == CacheHandler.key url)),
      (p.url == CacheHandler.key url) = false := by
    intro p hp
    have := (List.mem_filter.1 hp).2
    simpa using this
  refine ⟨⟨fun hfound => ?_, fun hcond => ?_⟩, ?_⟩
  · by_contra hnot
    push_neg at hnot
    have hempty := hfull (by omega) (by omega)
    unfold CacheHandler.find at hfound
    rw [hempty] at hfound
    cases hfound
  · unfold CacheHandler.find
    rcases hcond with hlimit | hfits
    · rw [hp]
      exact find_drop_append _ _ _ k (hk hlimit) hfilter (by simp)
    · rw [hroom hfits]
      exact find_drop_append _ _ _ 0 (Nat.zero_le _) hfilter (by simp)
  · intro later hlife hold
    unfold CacheHandler.find CacheHandler.clean
    simp only [hlife, Bool.false_eq_true, if_false]
    rw [List.find?_eq_none]
    intro p hpm
    obtain ⟨hmem, hage⟩ := List.mem_filter.1 hpm
    rw [hp] at hmem
    have hmem2 := List.mem_of_mem_drop hmem
    rcases List.mem_append.1 hmem2 with h | h
    · have := hfilter p h
      simp [this]
    · rw [List.mem_singleton.1 h] at hage
      simp only [decide_eq_true_eq] at hage
      have hage2 : later - now ≤ options.cache_life * 60 := hage
      exact absurd hage2 (not_le.2 hold)

/-- C25 at work: a cache of two entries with a lifetime of one minute. -/
theorem C25_cache_round_trip_witness :
    1 ≤ smallCacheOptions.cache_limit ∧
    smallCacheOptions.cache_unlimited_life = false ∧
    (100 : Int) - 1 > smallCacheOptions.cache_life * 60 ∧
    (({ pages := [] } : CacheHandler).push smallCacheOptions 1 (geminiUrl "example.org" "/a")
      [97] samplePage.mime).find (geminiUrl "example.org" "/a") =
      some { url := CacheHandler.key (geminiUrl "example.org" "/a"), body := [97],
             mime := samplePage.mime, scroll_pos := -1, time_cached := 1 } ∧
    ((({ pages := [] } : CacheHandler).push smallCacheOptions 1 (geminiUrl "example.org" "/a")
      [97] samplePage.mime).clean smallCacheOptions 100).find (geminiUrl "example.org" "/a")
      = none :=
  have h := C25_cache_round_trip { pages := [] } smallCacheOptions 1
    (geminiUrl "example.org" "/a") [97] samplePage.mime
  ⟨by decide, rfl, by decide, h.1.2 (Or.inl (by decide)), h.2 100 rfl (by decide)⟩

theorem pushAll_append_singleton (c : CacheHandler) (options : GenericSettings)
    (init : List CacheInsertion) (i : CacheInsertion) :
    c.pushAll options (init ++ [i]) =
      (c.pushAll options init).push options i.now i.url i.body i.mime := by
  unfold CacheHandler.pushAll
  rw [List.foldl_append]
  rfl

/-- An insertion for a location that is not in the cache, within the
capacity: the entry is appended and nothing is removed. -/
theorem push_fresh (pages : List CachedPage) (options : GenericSettings) (i : CacheInsertion)
    (hnew : ∀ p ∈ pages, p.url ≠ CacheHandler.key i.url)
    (hroom : ((pages.length : Int) + 1) ≤ options.cache_limit + options.cache_threshold) :
    (CacheHandler.push { pages := pages } options i.now i.url i.body i.mime).pages =
      pages ++ [i.entry] := by
  have hf : pages.filter (fun p : CachedPage => !(p.url == CacheHandler.key i.url)) = pages := by
    rw [List.filter_eq_self]
    intro p hp
    simpa using hnew p hp
  unfold CacheHandler.push
  dsimp only
  rw [hf]
  split_ifs with h
  · exfalso
    simp only [List.length_append, List.length_singleton] at h
    push_cast at h
    omega
  · rfl

/-- An insertion for a location that is not in the cache which exceeds the
capacity: the oldest entries are removed until `cache_limit` are left. -/
theorem push_full (pages : List CachedPage) (options : GenericSettings) (i : CacheInsertion)
    (hnew : ∀ p ∈ pages, p.url ≠ CacheHandler.key i.url)
    (hfull : ((pages.length : Int) + 1) > options.cache_limit + options.cache_threshold) :
    (CacheHandler.push { pages := pages } options i.now i.url i.body i.mime).pages =
      (pages ++ [i.entry]).drop (pages.length + 1 - options.cache_limit.toNat) := by
  have hf : pages.filter (fun p : CachedPage => !(p.url == CacheHandler.key i.url)) = pages := by
    rw [List.filter_eq_self]
    intro p hp
    simpa using hnew p hp
  unfold CacheHandler.push
  dsimp only
  rw [hf]
  split_ifs with h
  · simp only [List.length_append, List.length_singleton]
    rfl
  · exfalso
    simp only [List.length_append, List.length_singleton] at h
    push_cast at h
    omega

/-- Insertions for different locations within the capacity are all kept, in
the order of insertion. -/
theorem pushAll_within (options : GenericSettings) (insertions : List CacheInsertion) :
    (insertions.map (fun i => CacheHandler.key i.url)).Nodup →
    (insertions.length : Int) ≤ options.cache_limit + options.cache_threshold →
    (CacheHandler.pushAll { pages := [] } options insertions).pages =
      insertions.map CacheInsertion.entry := by
  induction insertions using List.reverseRecOn with
  | nil =>
    intro _ _
    rfl
  | append_singleton init i ih =>
    intro hd hl
    rw [List.map_append, List.nodup_append] at hd
    obtain ⟨hd1, _, hdisj⟩ := hd
    simp only [List.length_append, List.length_singleton] at hl
    push_cast at hl
    have hinit := ih hd1 (by omega)
    rw [pushAll_append_singleton]
    have hc : CacheHandler.pushAll { pages := [] } options init =
        { pages := init.map CacheInsertion.entry } := by
      cases hcc : CacheHandler.pushAll { pages := [] } options init with
      | mk pages =>
        rw [hcc] at hinit
        simp only at hinit
        rw [hinit]
    rw [hc, List.map_append]
    have hnew : ∀ p ∈ init.map CacheInsertion.entry, p.url ≠ CacheHandler.key i.url := by
      intro p hp hpe
      obtain ⟨j, hj, rfl⟩ := List.mem_map.1 hp
      have h1 : CacheHandler.key j.url ∈ init.map (fun i => CacheHandler.key i.url) :=
        List.mem_map.2 ⟨j, hj, rfl⟩
      have h2 : CacheHandler.key i.url ∈ [i].map (fun i => CacheHandler.key i.url) := by simp
      exact hdisj h1 (by rw [show CacheHandler.key j.url = CacheHandler.key i.url from hpe]; exact h2)
    exact push_fresh _ options i hnew (by simp only [List.length_map]; omega)

/-- C26, as stated, fails for two settings of the capacity: with `cache_limit = 0` and
`cache_threshold = 0` the one insertion of the claim leaves no entry, so the
newest is not retained; and with `cache_limit = 3` and `cache_threshold = -2`
the two insertions of the claim leave two entries, not three. -/
theorem C26_counterexample :
    ((sampleInsertions.take 1).length : Int) =
      zeroCacheOptions.cache_limit + zeroCacheOptions.cache_threshold + 1 ∧
    (CacheHandler.pushAll { pages := [] } zeroCacheOptions (sampleInsertions.take 1)).pages = [] ∧
    ((sampleInsertions.take 2).length : Int) =
      negativeSlackOptions.cache_limit + negativeSlackOptions.cache_threshold + 1 ∧
    ((CacheHandler.pushAll { pages := [] } negativeSlackOptions
      (sampleInsertions.take 2)).pages.length : Int) ≠ negativeSlackOptions.cache_limit := by
  refine ⟨by decide, by decide, by decide, by decide⟩

/-- C26, amended: insertions for different locations into an empty cache,
with `cache_limit` one at least and `cache_threshold` minus one at least. While
their number does not exceed `cache_limit + cache_threshold`, nothing is
removed. With one more, the insertion that exceeds the capacity removes the
entries inserted first and leaves exactly `cache_limit` entries, those inserted
last, the newest among them. -/
theorem C26_cache_eviction (options : GenericSettings) (insertions : List CacheInsertion)
    (hdistinct : (insertions.map (fun i => CacheHandler.key i.url)).Nodup)
    (hlimit : 1 ≤ options.cache_limit) (hthreshold : -1 ≤ options.cache_threshold) :
    ((insertions.length : Int) ≤ options.cache_limit + options.cache_threshold →
      (CacheHandler.pushAll { pages := [] } options insertions).pages =
        insertions.map CacheInsertion.entry) ∧
    ((insertions.length : Int) = options.cache_limit + options.cache_threshold + 1 →
      (CacheHandler.pushAll { pages := [] } options insertions).pages =
        (insertions.map CacheInsertion.entry).drop (options.cache_threshold + 1).toNat ∧
      ((CacheHandler.pushAll { pages := [] } options insertions).pages.length : Int) =
        options.cache_limit ∧
      (CacheHandler.pushAll { pages := [] } options insertions).pages.getLast? =
        (insertions.map CacheInsertion.entry).getLast? ∧
      (insertions.map CacheInsertion.entry).getLast? ≠ none) := by
  refine ⟨pushAll_within options insertions hdistinct, ?_⟩
  intro hlen
  have hpages : (CacheHandler.pushAll { pages := [] } options insertions).pages =
      (insertions.map CacheInsertion.entry).drop (options.cache_threshold + 1).toNat := by
    rcases List.eq_nil_or_concat insertions with hnil | ⟨init, i, hcat⟩
    · rw [hnil] at hlen
      simp at hlen
      omega
    · rw [List.concat_eq_append] at hcat
      subst hcat
      rw [List.map_append, List.nodup_append] at hdistinct
      obtain ⟨hd1, _, hdisj⟩ := hdistinct
      simp only [List.length_append, List.length_singleton] at hlen
      push_cast at hlen
      have hinit := pushAll_within options init hd1 (by omega)
      rw [pushAll_append_singleton]
      have hc : CacheHandler.pushAll { pages := [] } options init =
          { pages := init.map CacheInsertion.entry } := by
        cases hcc : CacheHandler.pushAll { pages := [] } options init with
        | mk pages =>
          rw [hcc] at hinit
          simp only at hinit
          rw [hinit]
      rw [hc, List.map_append]
      have hnew : ∀ p ∈ init.map CacheInsertion.entry, p.url ≠ CacheHandler.key i.url := by
        intro p hp hpe
        obtain ⟨j, hj, rfl⟩ := List.mem_map.1 hp
        have h1 : CacheHandler.key j.url ∈ init.map (fun i => CacheHandler.key i.url) :=
          List.mem_map.2 ⟨j, hj, rfl⟩
        have h2 : CacheHandler.key i.url ∈ [i].map (fun i => CacheHandler.key i.url) := by simp
        exact hdisj h1
          (by rw [show CacheHandler.key j.url = CacheHandler.key i.url from hpe]; exact h2)
      rw [push_full _ options i hnew (by simp only [List.length_map]; omega)]
      have hk : (init.map CacheInsertion.entry).length + 1 - options.cache_limit.toNat =
          (options.cache_threshold + 1).toNat := by
        simp only [List.length_map]
        omega
      rw [hk]
      rfl
  have hcount : ((insertions.map CacheInsertion.entry).length : Int) =
      options.cache_limit + options.cache_threshold + 1 := by
    simp only [List.length_map]
    exact hlen
  have hlt : (options.cache_threshold + 1).toNat < (insertions.map CacheInsertion.entry).length := by
    omega
  refine ⟨hpages, ?_, ?_, ?_⟩
  · rw [hpages, List.length_drop]
    omega
  · rw [hpages]
    rw [List.getLast?_drop, if_neg (by omega)]
  · intro hn
    rw [List.getLast?_eq_none_iff] at hn
    rw [hn] at hlt
    simp at hlt

theorem C26_cache_eviction_witness :
    (sampleInsertions.map (fun i => CacheHandler.key i.url)).Nodup ∧
    1 ≤ smallCacheOptions.cache_limit ∧ -1 ≤ smallCacheOptions.cache_threshold ∧
    (sampleInsertions.length : Int) =
      smallCacheOptions.cache_limit + smallCacheOptions.cache_threshold + 1 ∧
    (CacheHandler.pushAll { pages := [] } smallCacheOptions sampleInsertions).pages =
      (sampleInsertions.map CacheInsertion.entry).drop
        (smallCacheOptions.cache_threshold + 1).toNat ∧
    ((CacheHandler.pushAll { pages := [] } smallCacheOptions sampleInsertions).pages.length : Int)
      = smallCacheOptions.cache_limit :=
  have h := (C26_cache_eviction smallCacheOptions sampleInsertions (by decide) (by decide)
    (by decide)).2 (by decide)
  ⟨by decide, by decide, by decide, by decide, h.1, h.2.1⟩

/-! ### Claims on the settings and on cached documents -/

theorem value_setValue_same (settings : QSettings) (key : QString) (v d : QVariant) :
    (settings.setValue key v).value key d = v := by
  unfold QSettings.value QSettings.setValue
  dsimp only
  have h : (settings.entries.filter (fun p => !(p.1 == key)) ++ [(key, v)]).find?
      (fun p => p.1 == key) = some (key, v) := by
    rw [List.find?_append]
    have hn : (settings.entries.filter (fun p => !(p.1 == key))).find? (fun p => p.1 == key)
        = none := by
      rw [List.find?_eq_none]
      intro p hp
      have := (List.mem_filter.1 hp).2
      simpa using this
    rw [hn]
    simp [List.find?]
  rw [h]

theorem value_setValue_other (settings : QSettings) (key other : QString) (v d : QVariant)
    (h : other ≠ key) :
    (settings.setValue other v).value key d = settings.value key d := by
  unfold QSettings.value QSettings.setValue
  dsimp only
  have hf : (settings.entries.filter (fun p => !(p.1 == other)) ++ [(other, v)]).find?
      (fun p => p.1 == key) = settings.entries.find? (fun p => p.1 == key) := by
    rw [List.find?_append, List.find?_filter]
    have hlast : [(other, v)].find? (fun p => p.1 == key) = none := by
      have hb : (other == key) = false := by simpa using h
      simp [List.find?, hb]
    rw [hlast, Option.or_none]
    congr 1
    funext p
    by_cases hp : p.1 = key
    · have : p.1 ≠ other := fun hc => h (hc.symm.trans hp)
      simp [hp, this]
      exact fun hc => h hc.symm
    · simp [hp]
  rw [hf]

theorem value_empty (key : QString) (d : QVariant) :
    QSettings.value { entries := [] } key d = d := rfl

/-! What a store written by `save` into an empty store holds under each key of
the core configuration. -/

theorem save_max_redirections (e : Bool) (g : GenericSettings) (d : QVariant) :
    (g.save e { entries := [] }).value "max_redirections" d =
      QVariant.int g.max_redirections := by
  cases e <;>
  · unfold GenericSettings.save
    dsimp only
    simp only [value_setValue_same, value_setValue_other, value_empty, ne_eq, String.reduceEq,
      not_false_eq_true, Bool.false_eq_true, if_false, if_true]

theorem save_network_timeout (e : Bool) (g : GenericSettings) (d : QVariant) :
    (g.save e { entries := [] }).value "network_timeout" d =
      QVariant.int g.network_timeout := by
  cases e <;>
  · unfold GenericSettings.save
    dsimp only
    simp only [value_setValue_same, value_setValue_other, value_empty, ne_eq, String.reduceEq,
      not_false_eq_true, Bool.false_eq_true, if_false, if_true]

theorem save_cache_limit (e : Bool) (g : GenericSettings) (d : QVariant) :
    (g.save e { entries := [] }).value "cache_limit" d =
      QVariant.int g.cache_limit := by
  cases e <;>
  · unfold GenericSettings.save
    dsimp only
    simp only [value_setValue_same, value_setValue_other, value_empty, ne_eq, String.reduceEq,
      not_false_eq_true, Bool.false_eq_true, if_false, if_true]

theorem save_cache_threshold (e : Bool) (g : GenericSettings) (d : QVariant) :
    (g.save e { entries := [] }).value "cache_threshold" d =
      QVariant.int g.cache_threshold := by
  cases e <;>
  · unfold GenericSettings.save
    dsimp only
    simp only [value_setValue_same, value_setValue_other, value_empty, ne_eq, String.reduceEq,
      not_false_eq_true, Bool.false_eq_true, if_false, if_true]

theorem save_cache_life (e : Bool) (g : GenericSettings) (d : QVariant) :
    (g.save e { entries := [] }).value "cache_life" d =
      QVariant.int g.cache_life := by
  cases e <;>
  · unfold GenericSettings.save
    dsimp only
    simp only [value_setValue_same, value_setValue_other, value_empty, ne_eq, String.reduceEq,
      not_false_eq_true, Bool.false_eq_true, if_false, if_true]

theorem save_cache_unlimited_life (e : Bool) (g : GenericSettings) (d : QVariant) :
    (g.save e { entries := [] }).value "cache_unlimited_life" d =
      QVariant.bool g.cache_unlimited_life := by
  cases e <;>
  · unfold GenericSettings.save
    dsimp only
    simp only [value_setValue_same, value_setValue_other, value_empty, ne_eq, String.reduceEq,
      not_false_eq_true, Bool.false_eq_true, if_false, if_true]

theorem save_start_page (e : Bool) (g : GenericSettings) (d : QVariant) :
    (g.save e { entries := [] }).value "start_page" d =
      QVariant.string g.start_page := by
  cases e <;>
  · unfold GenericSettings.save
    dsimp only
    simp only [value_setValue_same, value_setValue_other, value_empty, ne_eq, String.reduceEq,
      not_false_eq_true, Bool.false_eq_true, if_false, if_true]

theorem save_search_engine (e : Bool) (g : GenericSettings) (d : QVariant) :
    (g.save e { entries := [] }).value "search_engine" d =
      QVariant.string g.search_engine := by
  cases e <;>
  · unfold GenericSettings.save
    dsimp only
    simp only [value_setValue_same, value_setValue_other, value_empty, ne_eq, String.reduceEq,
      not_false_eq_true, Bool.false_eq_true, if_false, if_true]

theorem save_text_display (e : Bool) (g : GenericSettings) (d : QVariant) :
    (g.save e { entries := [] }).value "text_display" d =
      QVariant.string (if g.text_display = TextDisplay.FormattedText then "fancy" else "plain") := by
  cases e <;>
  · unfold GenericSettings.save
    dsimp only
    simp only [value_setValue_same, value_setValue_other, value_empty, ne_eq, String.reduceEq,
      not_false_eq_true, Bool.false_eq_true, if_false, if_true]

theorem save_theme (e : Bool) (g : GenericSettings) (d : QVariant) :
    (g.save e { entries := [] }).value "theme" d =
      QVariant.string
        (match g.theme with
          | Theme.dark => "dark"
          | Theme.light => "light"
          | Theme.os_default => "os_default") := by
  cases e <;>
  · unfold GenericSettings.save
    dsimp only
    simp only [value_setValue_same, value_setValue_other, value_empty, ne_eq, String.reduceEq,
      not_false_eq_true, Bool.false_eq_true, if_false, if_true]

theorem save_icon_theme (e : Bool) (g : GenericSettings) (d : QVariant) :
    (g.save e { entries := [] }).value "icon_theme" d =
      QVariant.string
        (match g.icon_theme with
          | IconTheme.dark => "dark"
          | IconTheme.light => "light"
          | IconTheme.automatic => "auto") := by
  cases e <;>
  · unfold GenericSettings.save
    dsimp only
    simp only [value_setValue_same, value_setValue_other, value_empty, ne_eq, String.reduceEq,
      not_false_eq_true, Bool.false_eq_true, if_false, if_true]

theorem save_ui_density (e : Bool) (g : GenericSettings) (d : QVariant) :
    (g.save e { entries := [] }).value "ui_density" d =
      QVariant.string
        (match g.ui_density with
          | UIDensity.compact => "compact"
          | UIDensity.classic => "classic") := by
  cases e <;>
  · unfold GenericSettings.save
    dsimp only
    simp only [value_setValue_same, value_setValue_other, value_empty, ne_eq, String.reduceEq,
      not_false_eq_true, Bool.false_eq_true, if_false, if_true]

theorem save_gophermap_display (e : Bool) (g : GenericSettings) (d : QVariant) :
    (g.save e { entries := [] }).value "gophermap_display" d =
      QVariant.string
        (if g.gophermap_display = TextDisplay.FormattedText then "rendered" else "text") := by
  cases e <;>
  · unfold GenericSettings.save
    dsimp only
    simp only [value_setValue_same, value_setValue_other, value_empty, ne_eq, String.reduceEq,
      not_false_eq_true, Bool.false_eq_true, if_false, if_true]

theorem save_redirection_policy (e : Bool) (g : GenericSettings) (d : QVariant) :
    (g.save e { entries := [] }).value "redirection_policy" d =
      QVariant.int g.redirection_policy := by
  cases e <;>
  · unfold GenericSettings.save
    dsimp only
    simp only [value_setValue_same, value_setValue_other, value_empty, ne_eq, String.reduceEq,
      not_false_eq_true, Bool.false_eq_true, if_false, if_true]

/-- The key that `load` reads the redirection policy from, with a space at
its end, is not written by `save`. -/
theorem save_redirection_policy_key (e : Bool) (g : GenericSettings) (d : QVariant) :
    (g.save e { entries := [] }).value "redirection_policy " d = d := by
  cases e <;>
  · unfold GenericSettings.save
    dsimp only
    simp only [value_setValue_same, value_setValue_other, value_empty, ne_eq, String.reduceEq,
      not_false_eq_true, Bool.false_eq_true, if_false, if_true]

/-- What `load` reads back from a store that `save` has written into an empty
store: every member of the core configuration as it was saved, except
`redirection_policy`, which `load` looks up under a key that `save` does not
write and so gets its default. -/
theorem load_save (e : Bool) (g g0 : GenericSettings) :
    (GenericSettings.load e g0 (g.save e { entries := [] })).max_redirections
      = g.max_redirections ∧
    (GenericSettings.load e g0 (g.save e { entries := [] })).redirection_policy
      = WarnOnHostChange ∧
    (GenericSettings.load e g0 (g.save e { entries := [] })).network_timeout
      = g.network_timeout ∧
    (GenericSettings.load e g0 (g.save e { entries := [] })).cache_limit = g.cache_limit ∧
    (GenericSettings.load e g0 (g.save e { entries := [] })).cache_threshold
      = g.cache_threshold ∧
    (GenericSettings.load e g0 (g.save e { entries := [] })).cache_life = g.cache_life ∧
    (GenericSettings.load e g0 (g.save e { entries := [] })).cache_unlimited_life
      = g.cache_unlimited_life ∧
    (GenericSettings.load e g0 (g.save e { entries := [] })).start_page = g.start_page ∧
    (GenericSettings.load e g0 (g.save e { entries := [] })).search_engine = g.search_engine ∧
    (GenericSettings.load e g0 (g.save e { entries := [] })).text_display = g.text_display ∧
    (GenericSettings.load e g0 (g.save e { entries := [] })).theme = g.theme ∧
    (GenericSettings.load e g0 (g.save e { entries := [] })).icon_theme = g.icon_theme ∧
    (GenericSettings.load e g0 (g.save e { entries := [] })).ui_density = g.ui_density ∧
    (GenericSettings.load e g0 (g.save e { entries := [] })).gophermap_display
      = g.gophermap_display := by
  refine ⟨?_, ?_, ?_, ?_, ?_, ?_, ?_, ?_, ?_, ?_, ?_, ?_, ?_, ?_⟩
  · show (QSettings.value _ "max_redirections" _).toInt = _
    rw [save_max_redirections]
    rfl
  · show (QSettings.value _ "redirection_policy " _).toInt = _
    rw [save_redirection_policy_key]
    rfl
  · show (QSettings.value _ "network_timeout" _).toInt = _
    rw [save_network_timeout]
    rfl
  · show (QSettings.value _ "cache_limit" _).toInt = _
    rw [save_cache_limit]
    rfl
  · show (QSettings.value _ "cache_threshold" _).toInt = _
    rw [save_cache_threshold]
    rfl
  · show (QSettings.value _ "cache_life" _).toInt = _
    rw [save_cache_life]
    rfl
  · show (QSettings.value _ "cache_unlimited_life" _).toBool = _
    rw [save_cache_unlimited_life]
    rfl
  · show (QSettings.value _ "start_page" _).toString = _
    rw [save_start_page]
    rfl
  · show (QSettings.value _ "search_engine" _).toString = _
    rw [save_search_engine]
    rfl
  · show (if (QSettings.value _ "text_display" _).toString == "plain" then _ else _) = _
    rw [save_text_display]
    cases g.text_display <;> simp [QVariant.toString]
  · show (if (QSettings.value _ "theme" _).toString == "dark" then _ else _) = _
    rw [save_theme]
    cases g.theme <;> simp [QVariant.toString]
  · show (if (QSettings.value _ "icon_theme" _).toString == "light" then _ else _) = _
    rw [save_icon_theme]
    cases g.icon_theme <;> simp [QVariant.toString]
  · show (if (QSettings.value _ "ui_density" _).toString == "compact" then _ else _) = _
    rw [save_ui_density]
    cases g.ui_density <;> simp [QVariant.toString]
  · show (if (QSettings.value _ "gophermap_display" _).toString == "rendered" then _ else _) = _
    rw [save_gophermap_display]
    cases g.gophermap_display <;> simp [QVariant.toString]

/-- C27, evaluated: settings whose redirection policy is `WarnAlways` are saved
into an empty store and loaded again. The store holds the policy under the key
`redirection_policy`; `load` reads the key `redirection_policy ` with a space
at its end, finds nothing and takes the default `WarnOnHostChange`. The other
members of the core configuration come back as they were saved. -/
theorem C27_redirection_policy_not_restored :
    cautiousSettings.redirection_policy = WarnAlways ∧
    (cautiousSettings.save true { entries := [] }).value "redirection_policy" (QVariant.int 0)
      = QVariant.int WarnAlways ∧
    (GenericSettings.load true {} (cautiousSettings.save true { entries := [] })).redirection_policy
      = WarnOnHostChange ∧
    (GenericSettings.load true {} (cautiousSettings.save true { entries := [] })).redirection_policy
      ≠ cautiousSettings.redirection_policy ∧
    (GenericSettings.load true {} (cautiousSettings.save true { entries := [] })).max_redirections
      = cautiousSettings.max_redirections ∧
    (GenericSettings.load true {} (cautiousSettings.save true { entries := [] })).network_timeout
      = cautiousSettings.network_timeout ∧
    (GenericSettings.load true {} (cautiousSettings.save true { entries := [] })).cache_life
      = cautiousSettings.cache_life :=
  have h := load_save true cautiousSettings {}
  have hp := save_redirection_policy true cautiousSettings (QVariant.int 0)
  ⟨rfl, hp, h.2.1, by rw [h.2.1]; decide, h.1, h.2.2.1, h.2.2.2.2.2.1⟩

/-- C28, evaluated: the sample tab receives the two bytes `H`, `é` of a text in
ISO-8859-1. They are converted to the three bytes of UTF-8, which are rendered
and put into the cache together with the type that still declares
ISO-8859-1. On the next visit the page is read from the cache and
`on_requestComplete` converts the cached bytes once more: `renderPage` gets
five bytes, not the three that were rendered first. -/
theorem C28_cached_document_converted_twice :
    sampleFetched.current_buffer = [72, 195, 169] ∧
    (sampleFetched.cache.find (geminiUrl "example.org" "/")).map (fun pg => (pg.body, pg.mime))
      = some ([72, 195, 169], latin1Mime) ∧
    sampleRevisited.was_read_from_cache = true ∧
    sampleRevisited.current_buffer = [72, 195, 131, 194, 169] ∧
    sampleRevisited.current_buffer ≠ sampleFetched.current_buffer ∧
    sampleRevisited.trace.drop sampleFetched.trace.length =
      [ Effect.cancelRequest 0 true,
        Effect.startRequest (geminiUrl "example.org" "/") RequestOptions.Default RequestFlags.None,
        Effect.handlerDisableClientCertificate, Effect.handlerDisableClientCertificate,
        Effect.cacheClean, Effect.cacheFind (geminiUrl "example.org" "/") true,
        Effect.requestComplete [72, 195, 169] latin1Mime,
        Effect.renderPage [72, 195, 131, 194, 169] latin1Mime,
        Effect.locationChanged (geminiUrl "example.org" "/") ] := by
  refine ⟨by decide, by decide, by decide, by decide, by decide, by decide⟩

/-! ### Claim on the length limit of `on_inputRequired` -/

theorem rejectedInputs_startRequests (env : Env) (query : QString) (location : QUrl)
    (texts : List QString) : startRequests (rejectedInputs env query location texts) = [] := by
  induction texts with
  | nil => rfl
  | cons text rest ih =>
    have h : rejectedInputs env query location (text :: rest) =
        [ Effect.inputDialog query (some text),
          Effect.notice (Notice.inputTooLong (env.encodedLength (location.setQuery text))) ] ++
        rejectedInputs env query location rest := by
      simp [rejectedInputs]
    rw [h, startRequests_append, ih]
    rfl

theorem inputLoop_rejected (env : Env) (query : QString) (rest : List (Option QString))
    (texts : List QString) :
    ∀ s : BrowserTab,
      (∀ text ∈ texts, 1020 ≤ env.encodedLength (s.current_location.setQuery text)) →
      BrowserTab.inputLoop env query (texts.map some ++ rest) s =
        BrowserTab.inputLoop env query rest
          { s with trace := s.trace ++ rejectedInputs env query s.current_location texts } := by
  induction texts with
  | nil =>
    intro s _
    simp [rejectedInputs]
  | cons text more ih =>
    intro s h
    have h1 : 1020 ≤ env.encodedLength (s.current_location.setQuery text) :=
      h text (List.mem_cons_self _ _)
    have h2 := ih ((s.log (Effect.inputDialog query (some text))).log
      (Effect.notice (Notice.inputTooLong
        (env.encodedLength (s.current_location.setQuery text)))))
      (fun t ht => h t (List.mem_cons_of_mem _ ht))
    rw [List.map_cons, List.cons_append, BrowserTab.inputLoop]
    have h3 : (s.log (Effect.inputDialog query (some text))).current_location
        = s.current_location := rfl
    rw [h3, if_pos h1, h2]
    congr 1
    simp [BrowserTab.log, rejectedInputs]

theorem inputLoop_cancelled (env : Env) (query : QString) (inputs : List (Option QString))
    (s : BrowserTab) (h : inputs = [] ∨ ∃ rest, inputs = none :: rest) :
    BrowserTab.inputLoop env query inputs s =
      Outcome.done InputExit.cancelled
        ((s.log (Effect.inputDialog query none)).setErrorMessage env
          (ErrorMessage.inputRequired query)) := by
  rcases h with h | ⟨rest, h⟩ <;> subst h <;> simp [BrowserTab.inputLoop]

/-- C30: `BrowserTab::on_inputRequired` stops the timer and runs the input
dialog until it is left or gives a text for which the location
`current_location` with this text as its query is shorter than 1020 bytes in
its encoded form. While the texts entered make 1020 bytes or more, each of them
is answered with the warning only and the dialog runs again. A text that then
stays below 1020 bytes makes the one call of `navigateTo`, with this location
and `DontPush`. When the dialog is left instead, the error page of the input
request is shown and no request is started. -/
theorem C30_input_length_limit (s : BrowserTab) (env : Env) (query : QString)
    (is_sensitive : Bool) (texts : List QString)
    (hlong : ∀ text ∈ texts, 1020 ≤ env.encodedLength (s.current_location.setQuery text)) :
    (∀ (text : QString) (rest : List (Option QString)),
      env.encodedLength (s.current_location.setQuery text) < 1020 →
      s.on_inputRequired env (texts.map some ++ some text :: rest) query is_sensitive =
        match ({ s with
            network_timeout_timer := none
            trace := s.trace ++ rejectedInputs env query s.current_location texts ++
              [Effect.inputDialog query (some text)] } : BrowserTab).navigateTo env
            (s.current_location.setQuery text) PushToHistory.DontPush RequestFlags.None with
        | Outcome.done e t => Outcome.done (InputExit.navigated e) t
        | Outcome.aborted t => Outcome.aborted t) ∧
    (∀ tail : List (Option QString), (tail = [] ∨ ∃ rest, tail = none :: rest) →
      s.on_inputRequired env (texts.map some ++ tail) query is_sensitive =
        Outcome.done InputExit.cancelled
          (({ s with
              network_timeout_timer := none
              trace := s.trace ++ rejectedInputs env query s.current_location texts ++
                [Effect.inputDialog query none] } : BrowserTab).setErrorMessage env
            (ErrorMessage.inputRequired query)) ∧
      ∃ added, (s.on_inputRequired env (texts.map some ++ tail) query is_sensitive).tab.trace =
          s.trace ++ added ∧
        startRequests added = [] ∧
        Effect.setErrorMessage (ErrorMessage.inputRequired query) ∈ added) := by
  have hloop := fun tail => inputLoop_rejected env query tail texts
    { s with network_timeout_timer := none } hlong
  refine ⟨fun text rest hshort => ?_, fun tail htail => ?_⟩
  · unfold BrowserTab.on_inputRequired
    rw [hloop, BrowserTab.inputLoop]
    have h3 : ∀ t : BrowserTab, (t.log (Effect.inputDialog query (some text))).current_location
        = t.current_location := fun _ => rfl
    rw [h3, if_neg (by simpa using hshort)]
    rfl
  · have heq : s.on_inputRequired env (texts.map some ++ tail) query is_sensitive =
        Outcome.done InputExit.cancelled
          (({ s with
              network_timeout_timer := none
              trace := s.trace ++ rejectedInputs env query s.current_location texts ++
                [Effect.inputDialog query none] } : BrowserTab).setErrorMessage env
            (ErrorMessage.inputRequired query)) := by
      unfold BrowserTab.on_inputRequired
      rw [hloop, inputLoop_cancelled env query tail _ htail]
      rfl
    refine ⟨heq, ?_⟩
    rw [heq]
    obtain ⟨_, added, ht, hall⟩ := setErrorMessage_trace
      ({ s with
          network_timeout_timer := none
          trace := s.trace ++ rejectedInputs env query s.current_location texts ++
            [Effect.inputDialog query none] } : BrowserTab) env (ErrorMessage.inputRequired query)
    refine ⟨rejectedInputs env query s.current_location texts ++
      [Effect.inputDialog query none] ++
      Effect.setErrorMessage (ErrorMessage.inputRequired query) :: added, ?_, ?_, ?_⟩
    · show (BrowserTab.setErrorMessage _ env _).trace = _
      rw [ht]
      simp
    · have h1 : startRequests (Effect.setErrorMessage (ErrorMessage.inputRequired query) :: added)
          = startRequests added := rfl
      rw [startRequests_append, startRequests_append, rejectedInputs_startRequests, h1,
        startRequests_of_delivery added hall]
      rfl
    · simp

/-- C30 at work: on the sample tab, a first text of twenty characters makes
1020 bytes and a second one of one character 1001 bytes. -/
theorem C30_input_length_limit_witness :
    (∀ text ∈ [longInput],
      1020 ≤ shortEnv.encodedLength (sampleNavigated.current_location.setQuery text)) ∧
    shortEnv.encodedLength (sampleNavigated.current_location.setQuery "q") < 1020 ∧
    (sampleNavigated.on_inputRequired shortEnv [some longInput, some "q"] "name?" false).exit?
      = some (InputExit.navigated NavigateExit.started) ∧
    startRequests ((sampleNavigated.on_inputRequired shortEnv [some longInput, some "q"]
      "name?" false).tab.trace.drop sampleNavigated.trace.length)
      = [sampleNavigated.current_location.setQuery "q"] ∧
    (sampleNavigated.on_inputRequired shortEnv [some longInput, none, some "q"] "name?" false)
      = Outcome.done InputExit.cancelled
        (({ sampleNavigated with
            network_timeout_timer := none
            trace := sampleNavigated.trace ++
              rejectedInputs shortEnv "name?" sampleNavigated.current_location [longInput] ++
                [Effect.inputDialog "name?" none] } : BrowserTab).setErrorMessage shortEnv
          (ErrorMessage.inputRequired "name?")) :=
  ⟨by decide, by decide, by decide, by decide,
    ((C30_input_length_limit sampleNavigated shortEnv "name?" false [longInput]
      (by decide)).2 (none :: [some "q"]) (Or.inr ⟨_, rfl⟩)).1⟩

/-! ### Claim on the control links of `on_text_browser_anchorClicked` -/

theorem isNoAddTrust_of_dispatch (e : Effect) (h : e.isDispatch = true) :
    e.isNoAddTrust = true := by
  cases e <;> simp_all [Effect.isDispatch, Effect.isDelivery, Effect.isNoAddTrust, Effect.isAddTrust]

theorem Outcome.withValue_tab {α β : Type} (o : Outcome α) (value : β) :
    (o.withValue value).tab = o.tab := by
  cases o <;> rfl

theorem Outcome.withValue_done {α β : Type} (o : Outcome α) (value value2 : β) (t : BrowserTab)
    (h : o.withValue value = Outcome.done value2 t) : value2 = value := by
  cases o with
  | done v u =>
    injection h with h1 h2
    exact h1.symm
  | aborted u => cases h

theorem Frame.startRequest_noAddTrust (s : BrowserTab) (env : Env) (url : QUrl)
    (options : RequestOptions) (flags : RequestFlags) :
    Frame Effect.isNoAddTrust s (s.startRequest env url options flags).tab := by
  obtain ⟨hc, added, ht, hall⟩ := startRequest_trace s env url options flags
  refine ⟨hc, Effect.startRequest url options flags :: added, ht, ?_⟩
  intro e he
  rcases List.mem_cons.1 he with h | h
  · subst h
    rfl
  · exact isNoAddTrust_of_dispatch e (hall e h)

theorem Frame.writeBuffer (s : BrowserTab) (env : Env) (path : QString) :
    Frame Effect.isNoAddTrust s (s.writeBuffer env path) := by
  unfold BrowserTab.writeBuffer
  split_ifs
  · exact Frame.log _ _ rfl
  · exact Frame.refl _ _

theorem Frame.addStyle (s : BrowserTab) (env : Env) (name : QString) :
    Frame Effect.isNoAddTrust s (s.addStyle env name) := by
  unfold BrowserTab.addStyle
  dsimp only
  split_ifs
  · exact Frame.asked _ _ (fun _ => rfl)
  · exact (Frame.asked _ _ (fun _ => rfl)).trans
      ((Frame.writeBuffer _ env _).trans
        ((Frame.log _ _ rfl).trans (Frame.log _ _ rfl)))

theorem Frame.installTheme (s : BrowserTab) (env : Env) (input : Option QString) :
    Frame Effect.isNoAddTrust s (s.installTheme env input) := by
  unfold BrowserTab.installTheme
  dsimp only
  split
  · split
    · exact (Frame.writeBuffer _ env _).trans (Frame.log _ _ rfl)
    · exact (Frame.writeBuffer _ env _).trans
        ((Frame.log _ _ rfl).trans (Frame.addStyle _ env _))
  · exact (Frame.writeBuffer _ env _).trans (Frame.addStyle _ env _)

/-- A control link other than `add-fingerprint` on an internal page that is no
theme preview calls `addTrust` on no path and returns the trust stores as they
were. -/
theorem anchorClicked_quiet (s : BrowserTab) (env : Env) (trust : TrustStores)
    (input : Option QString) (url : QUrl) (open_in_new_tab : Bool)
    (hscheme : url.scheme = "kristall+ctrl")
    (h : ¬ (s.is_internal_location = true ∧ s.current_mime.is2 "text" "x-kristall-theme" = false ∧
      url.path = "add-fingerprint")) :
    Frame Effect.isNoAddTrust s
        (s.on_text_browser_anchorClicked env trust input url open_in_new_tab).tab ∧
      ∀ (trust2 : TrustStores) (t : BrowserTab),
        s.on_text_browser_anchorClicked env trust input url open_in_new_tab
          = Outcome.done trust2 t → trust2 = trust := by
  unfold BrowserTab.on_text_browser_anchorClicked
  rw [if_pos (by simp [hscheme])]
  dsimp only
  split_ifs with h1 h2 h3 h4 h5 h6 h7
  · exact ⟨by
      rw [Outcome.withValue_tab]
      exact (Frame.asked _ _ (fun _ => rfl)).trans (Frame.startRequest_noAddTrust _ env _ _ _),
      fun trust2 t ht => Outcome.withValue_done _ _ _ _ ht⟩
  · exact ⟨Frame.asked _ _ (fun _ => rfl), fun trust2 t ht => by
      injection ht with h1 h2
      exact h1.symm⟩
  · exact ⟨by
      rw [Outcome.withValue_tab]
      exact Frame.startRequest_noAddTrust _ env _ _ _,
      fun trust2 t ht => Outcome.withValue_done _ _ _ _ ht⟩
  · exfalso
    apply h
    simp only [Bool.and_eq_true, Bool.not_eq_true', beq_iff_eq, Bool.or_eq_true] at h1 h5
    rcases h1 with h1 | h1
    · exact ⟨h1, h5.1, h5.2⟩
    · rw [h5.1] at h1
      cases h1
  · exact ⟨Frame.installTheme _ env _, fun trust2 t ht => by
      injection ht with h1 h2
      exact h1.symm⟩
  · exact ⟨Frame.refl _ _, fun trust2 t ht => by
      injection ht with h1 h2
      exact h1.symm⟩
  · exact ⟨Frame.refl _ _, fun trust2 t ht => by
      injection ht with h1 h2
      exact h1.symm⟩
  · exact ⟨Frame.log _ _ rfl, fun trust2 t ht => by
      injection ht with h1 h2
      exact h1.symm⟩

theorem addFingerprint_declined (s : BrowserTab) (env : Env) (trust : TrustStores)
    (h : s.nextAnswer = false) :
    s.addFingerprint env trust =
      Outcome.done trust (s.asked (Question.addFingerprint s.current_location.host)) := by
  unfold BrowserTab.addFingerprint
  simp [h]

theorem addFingerprint_trace (s : BrowserTab) (env : Env) (trust : TrustStores) :
    ∃ rest, (s.addFingerprint env trust).tab.trace =
      s.trace ++
        Effect.question (Question.addFingerprint s.current_location.host) s.nextAnswer :: rest := by
  have hm : ∀ e : Effect, e.isNoAddTrust = true → (fun _ : Effect => true) e = true :=
    fun _ _ => rfl
  have key : Frame (fun _ => true)
      (s.asked (Question.addFingerprint s.current_location.host))
      (s.addFingerprint env trust).tab := by
    unfold BrowserTab.addFingerprint
    dsimp only
    split_ifs
    · exact Frame.refl _ _
    · split
      · exact Frame.log _ _ rfl
      · rw [Outcome.withValue_tab]
        exact (Frame.log _ _ rfl).trans
          (Frame.mono hm (Frame.startRequest_noAddTrust _ env _ _ _))
    · split
      · exact Frame.log _ _ rfl
      · rw [Outcome.withValue_tab]
        exact (Frame.log _ _ rfl).trans
          (Frame.mono hm (Frame.startRequest_noAddTrust _ env _ _ _))
    · exact Frame.refl _ _
  obtain ⟨_, rest, ht, _⟩ := key
  refine ⟨rest, ?_⟩
  rw [ht]
  simp [BrowserTab.asked, BrowserTab.answered]

theorem anchorClicked_fingerprint (s : BrowserTab) (env : Env) (trust : TrustStores)
    (input : Option QString) (url : QUrl) (open_in_new_tab : Bool)
    (hscheme : url.scheme = "kristall+ctrl")
    (hi : s.is_internal_location = true)
    (hp : s.current_mime.is2 "text" "x-kristall-theme" = false)
    (ho : url.path = "add-fingerprint") :
    s.on_text_browser_anchorClicked env trust input url open_in_new_tab =
      s.addFingerprint env trust := by
  unfold BrowserTab.on_text_browser_anchorClicked
  simp [hscheme, hi, hp, ho]

/-- C29: a link of the scheme `kristall+ctrl` that is activated on a page that
is neither internal nor a theme preview is answered with the warning of a
malicious site and nothing else, for every path: the trust stores stay as they
are, and no request, no navigation and no file is part of the result. On an
internal page, `add-fingerprint` with the answer No returns after the question
with the trust stores as they were. For every control link, `addTrust` is
called or the trust stores come back changed only on an internal page with the
path `add-fingerprint`, after the question for the host was answered Yes as the
first effect of the call. -/
theorem C29_control_scheme_guard (s : BrowserTab) (env : Env) (trust : TrustStores)
    (input : Option QString) (url : QUrl) (open_in_new_tab : Bool)
    (hscheme : url.scheme = "kristall+ctrl") :
    (s.is_internal_location = false → s.current_mime.is2 "text" "x-kristall-theme" = false →
      s.on_text_browser_anchorClicked env trust input url open_in_new_tab =
        Outcome.done trust (s.log (Effect.notice Notice.maliciousSite))) ∧
    (s.is_internal_location = true → s.current_mime.is2 "text" "x-kristall-theme" = false →
      url.path = "add-fingerprint" → s.nextAnswer = false →
      s.on_text_browser_anchorClicked env trust input url open_in_new_tab =
        Outcome.done trust (s.asked (Question.addFingerprint s.current_location.host))) ∧
    ∃ added,
      (s.on_text_browser_anchorClicked env trust input url open_in_new_tab).tab.trace =
        s.trace ++ added ∧
      ((∃ e ∈ added, e.isAddTrust = true) ∨
          (∃ (trust2 : TrustStores) (t : BrowserTab),
            s.on_text_browser_anchorClicked env trust input url open_in_new_tab =
              Outcome.done trust2 t ∧ trust2 ≠ trust) →
        s.is_internal_location = true ∧
          s.current_mime.is2 "text" "x-kristall-theme" = false ∧
          url.path = "add-fingerprint" ∧
          added.head? =
            some (Effect.question (Question.addFingerprint s.current_location.host) true)) := by
  refine ⟨fun hi hp => ?_, fun hi hp ho hn => ?_, ?_⟩
  · unfold BrowserTab.on_text_browser_anchorClicked
    simp [hscheme, hi, hp]
  · rw [anchorClicked_fingerprint s env trust input url open_in_new_tab hscheme hi hp ho]
    exact addFingerprint_declined s env trust hn
  · by_cases h : s.is_internal_location = true ∧
        s.current_mime.is2 "text" "x-kristall-theme" = false ∧ url.path = "add-fingerprint"
    · obtain ⟨hi, hp, ho⟩ := h
      rw [anchorClicked_fingerprint s env trust input url open_in_new_tab hscheme hi hp ho]
      cases hn : s.nextAnswer with
      | true =>
        obtain ⟨rest, ht⟩ := addFingerprint_trace s env trust
        rw [hn] at ht
        exact ⟨_, ht, fun _ => ⟨hi, hp, ho, rfl⟩⟩
      | false =>
        rw [addFingerprint_declined s env trust hn]
        refine ⟨[Effect.question (Question.addFingerprint s.current_location.host) false],
          by simp [Outcome.tab, BrowserTab.asked, BrowserTab.answered, hn], ?_⟩
        rintro (⟨e, he, hadd⟩ | ⟨trust2, t, heq, hne⟩)
        · rw [List.mem_singleton] at he
          subst he
          cases hadd
        · injection heq with h1 h2
          exact absurd h1.symm hne
    · obtain ⟨⟨_, added, ht, hall⟩, hv⟩ :=
        anchorClicked_quiet s env trust input url open_in_new_tab hscheme h
      refine ⟨added, ht, ?_⟩
      rintro (⟨e, he, hadd⟩ | ⟨trust2, t, heq, hne⟩)
      · have := hall e he
        simp [Effect.isNoAddTrust, hadd] at this
      · exact absurd (hv trust2 t heq) hne

/-- C29 at work: the link `add-fingerprint` on the sample page, which is not
internal, and on an internal page with the answers No and Yes. -/
theorem C29_control_scheme_guard_witness :
    fingerprintLink.scheme = "kristall+ctrl" ∧
    sampleNavigated.is_internal_location = false ∧
    sampleNavigated.on_text_browser_anchorClicked (sampleEnv 3 WarnNever) sampleTrust none
        fingerprintLink false =
      Outcome.done sampleTrust (sampleNavigated.log (Effect.notice Notice.maliciousSite)) ∧
    ((sampleInternal [false]).on_text_browser_anchorClicked (sampleEnv 3 WarnNever) sampleTrust
        none fingerprintLink false).exit? = some sampleTrust ∧
    (((sampleInternal [true]).on_text_browser_anchorClicked (sampleEnv 3 WarnNever) sampleTrust
        none fingerprintLink false).exit?.map
          fun trust => trust.gemini.trusted_hosts.items.map fun host => host.host_name)
      = some ["example.org"] ∧
    (((sampleInternal [true]).on_text_browser_anchorClicked (sampleEnv 3 WarnNever) sampleTrust
        none fingerprintLink false).tab.trace.drop (sampleInternal [true]).trace.length).take 2
      = [ Effect.question (Question.addFingerprint "example.org") true,
          Effect.addTrust "gemini" (geminiUrl "example.org" "/") ] :=
  ⟨rfl, by decide,
    (C29_control_scheme_guard sampleNavigated (sampleEnv 3 WarnNever) sampleTrust none
      fingerprintLink false rfl).1 (by decide) (by decide),
    by decide, by decide, by decide⟩

/-! ### The redirect counter in every method of the tab -/

theorem navigateBack_count (s : BrowserTab) (env : Env) (history_index : Int) :
    (s.navigateBack env history_index).tab.redirection_count = 0 ∨
    (s.navigateBack env history_index).tab.redirection_count = s.redirection_count := by
  unfold BrowserTab.navigateBack
  dsimp only
  split_ifs
  · rw [Outcome.unit_tab]
    exact navigateTo_count_cases _ env _ _ _
  · exact Or.inr rfl

theorem navigateToRoot_count (s : BrowserTab) (env : Env) :
    (s.navigateToRoot env).tab.redirection_count = 0 ∨
    (s.navigateToRoot env).tab.redirection_count = s.redirection_count := by
  unfold BrowserTab.navigateToRoot
  split_ifs
  · exact Or.inr rfl
  · rw [Outcome.unit_tab]
    exact navigateTo_count_cases _ env _ _ _

theorem navigateToParent_count (s : BrowserTab) (env : Env) :
    (s.navigateToParent env).tab.redirection_count = 0 ∨
    (s.navigateToParent env).tab.redirection_count = s.redirection_count := by
  unfold BrowserTab.navigateToParent
  split_ifs
  · exact Or.inr rfl
  · rw [Outcome.unit_tab]
    exact navigateTo_count_cases _ env _ _ _

theorem reloadPage_count (s : BrowserTab) (env : Env) :
    (s.reloadPage env).tab.redirection_count = 0 ∨
    (s.reloadPage env).tab.redirection_count = s.redirection_count := by
  unfold BrowserTab.reloadPage
  split_ifs
  · rw [Outcome.unit_tab]
    exact navigateTo_count_cases _ env _ _ _
  · exact Or.inr rfl

theorem on_url_bar_returnPressed_count (s : BrowserTab) (env : Env) (text : QString) :
    (s.on_url_bar_returnPressed env text).tab.redirection_count = 0 ∨
    (s.on_url_bar_returnPressed env text).tab.redirection_count = s.redirection_count := by
  unfold BrowserTab.on_url_bar_returnPressed
  dsimp only
  split
  · exact Or.inr rfl
  · rw [Outcome.unit_tab]
    exact navigateTo_count_cases _ env _ _ _

theorem on_home_button_clicked_count (s : BrowserTab) (env : Env) :
    (s.on_home_button_clicked env).tab.redirection_count = 0 ∨
    (s.on_home_button_clicked env).tab.redirection_count = s.redirection_count := by
  unfold BrowserTab.on_home_button_clicked
  rw [Outcome.unit_tab]
  exact navigateTo_count_cases _ env _ _ _

theorem disableClientCertificate_count (s : BrowserTab) :
    s.disableClientCertificate.redirection_count = s.redirection_count := rfl

theorem enableClientCertificate_count (s : BrowserTab) (ident : CryptoIdentity) :
    (s.enableClientCertificate ident).2.redirection_count = s.redirection_count :=
  (Frame.enableClientCertificate s ident).1

theorem trySetClientCertificate_count (s : BrowserTab) (query : QString)
    (selection : Option CryptoIdentity) :
    (s.trySetClientCertificate query selection).2.redirection_count = s.redirection_count := by
  unfold BrowserTab.trySetClientCertificate
  split
  · rfl
  · exact enableClientCertificate_count _ _

theorem resetClientCertificate_count (s : BrowserTab) :
    s.resetClientCertificate.redirection_count = s.redirection_count := by
  unfold BrowserTab.resetClientCertificate
  dsimp only
  split_ifs <;> rfl

theorem on_enable_client_cert_button_clicked_count (s : BrowserTab) (checked : Bool)
    (selection : Option CryptoIdentity) :
    (s.on_enable_client_cert_button_clicked checked selection).redirection_count
      = s.redirection_count := by
  unfold BrowserTab.on_enable_client_cert_button_clicked
  split_ifs
  · exact trySetClientCertificate_count s _ _
  · exact resetClientCertificate_count s

theorem on_certificateRequired_count (s : BrowserTab) (env : Env)
    (selection : Option CryptoIdentity) (reason : QString) :
    (s.on_certificateRequired env selection reason).tab.redirection_count = 0 ∨
    (s.on_certificateRequired env selection reason).tab.redirection_count
      = s.redirection_count := by
  have h1 := trySetClientCertificate_count { s with network_timeout_timer := none } reason
    selection
  have h2 : ({ s with network_timeout_timer := none } : BrowserTab).redirection_count
      = s.redirection_count := rfl
  rw [h2] at h1
  unfold BrowserTab.on_certificateRequired
  dsimp only
  split_ifs
  · refine Or.inr ?_
    show (BrowserTab.setErrorMessage _ env _).redirection_count = _
    rw [(setErrorMessage_trace _ env _).1, h1]
  · have h3 := navigateTo_count_cases
      (BrowserTab.trySetClientCertificate { s with network_timeout_timer := none } reason
        selection).2 env
      (BrowserTab.trySetClientCertificate { s with network_timeout_timer := none } reason
        selection).2.current_location PushToHistory.DontPush RequestFlags.None
    rw [h1] at h3
    split
    · rename_i e t heq
      rw [heq] at h3
      exact h3
    · rename_i t heq
      rw [heq] at h3
      exact h3

theorem rerenderPage_count (s : BrowserTab) (env : Env) :
    (s.rerenderPage env).redirection_count = s.redirection_count :=
  (Frame.renderPage s env s.current_buffer s.current_mime).1

theorem inputLoop_count (env : Env) (query : QString) (inputs : List (Option QString)) :
    ∀ s : BrowserTab,
      (BrowserTab.inputLoop env query inputs s).tab.redirection_count = 0 ∨
      (BrowserTab.inputLoop env query inputs s).tab.redirection_count = s.redirection_count := by
  induction inputs with
  | nil =>
    intro s
    rw [inputLoop_cancelled env query [] s (Or.inl rfl)]
    exact Or.inr (setErrorMessage_trace _ env _).1
  | cons input rest ih =>
    intro s
    cases input with
    | none =>
      rw [inputLoop_cancelled env query (none :: rest) s (Or.inr ⟨rest, rfl⟩)]
      exact Or.inr (setErrorMessage_trace _ env _).1
    | some text =>
      rw [BrowserTab.inputLoop]
      split_ifs
      · exact ih _
      · have h3 := navigateTo_count_cases (s.log (Effect.inputDialog query (some text))) env
          ((s.log (Effect.inputDialog query (some text))).current_location.setQuery text)
          PushToHistory.DontPush RequestFlags.None
        split
        · rename_i e t heq
          rw [heq] at h3
          exact h3
        · rename_i t heq
          rw [heq] at h3
          exact h3

theorem on_inputRequired_count (s : BrowserTab) (env : Env) (inputs : List (Option QString))
    (query : QString) (is_sensitive : Bool) :
    (s.on_inputRequired env inputs query is_sensitive).tab.redirection_count = 0 ∨
    (s.on_inputRequired env inputs query is_sensitive).tab.redirection_count
      = s.redirection_count :=
  inputLoop_count env query inputs { s with network_timeout_timer := none }

theorem on_stop_button_clicked_count (s : BrowserTab) (env : Env) :
    (s.on_stop_button_clicked env).redirection_count = s.redirection_count := by
  simp only [BrowserTab.on_stop_button_clicked]
  split <;> rfl

theorem startRequest_withValue_count {β : Type} (s : BrowserTab) (env : Env) (url : QUrl)
    (options : RequestOptions) (flags : RequestFlags) (value : β) :
    ((s.startRequest env url options flags).withValue value).tab.redirection_count
      = s.redirection_count := by
  rw [Outcome.withValue_tab]
  exact (startRequest_trace s env url options flags).1

theorem addFingerprint_count (s : BrowserTab) (env : Env) (trust : TrustStores) :
    (s.addFingerprint env trust).tab.redirection_count = s.redirection_count := by
  unfold BrowserTab.addFingerprint
  dsimp only
  split_ifs
  · rfl
  · split
    · rfl
    · exact startRequest_withValue_count _ env _ _ _ _
  · split
    · rfl
    · exact startRequest_withValue_count _ env _ _ _ _
  · rfl

theorem on_text_browser_anchorClicked_count (s : BrowserTab) (env : Env) (trust : TrustStores)
    (input : Option QString) (url : QUrl) (open_in_new_tab : Bool) :
    (s.on_text_browser_anchorClicked env trust input url open_in_new_tab).tab.redirection_count
      = 0 ∨
    (s.on_text_browser_anchorClicked env trust input url open_in_new_tab).tab.redirection_count
      = s.redirection_count := by
  unfold BrowserTab.on_text_browser_anchorClicked
  dsimp only
  split_ifs
  all_goals first
    | exact Or.inr rfl
    | exact Or.inr (startRequest_withValue_count _ env _ _ _ _)
    | exact Or.inr (addFingerprint_count _ env _)
    | exact Or.inr (Frame.installTheme _ env _).1
    | (rw [Outcome.withValue_tab]; exact navigateTo_count_cases _ env _ _ _)

theorem on_text_browser_customContextMenuRequested_count (s : BrowserTab) (env : Env)
    (anchor : QString) (has_selection : Bool) (choice : Option MenuAction) :
    (s.on_text_browser_customContextMenuRequested env anchor has_selection
      choice).tab.redirection_count = 0 ∨
    (s.on_text_browser_customContextMenuRequested env anchor has_selection
      choice).tab.redirection_count = s.redirection_count := by
  unfold BrowserTab.on_text_browser_customContextMenuRequested
  dsimp only
  split
  all_goals (try split_ifs)
  all_goals first
    | exact Or.inr rfl
    | exact Or.inr (on_stop_button_clicked_count s env)
    | exact navigateBack_count s env _
    | exact reloadPage_count s env
    | (rw [Outcome.unit_tab]; exact navigateTo_count_cases _ env _ _ _)

/-- The counter after an event that is no `redirected` signal: left alone when
the method of the event does not call `navigateTo`, and left alone or set to
zero when it does. -/
theorem step_count_plain (s : BrowserTab) (env : Env) (ev : Event)
    (hr : ∀ uri p, ev ≠ Event.on_redirected uri p) :
    (ev.callsNavigateTo = false →
      (s.step env ev).tab.redirection_count = s.redirection_count) ∧
    ((s.step env ev).tab.redirection_count = 0 ∨
      (s.step env ev).tab.redirection_count = s.redirection_count) := by
  have same : ∀ {t : BrowserTab}, t.redirection_count = s.redirection_count →
      (ev.callsNavigateTo = false → t.redirection_count = s.redirection_count) ∧
      (t.redirection_count = 0 ∨ t.redirection_count = s.redirection_count) :=
    fun h => ⟨fun _ => h, Or.inr h⟩
  cases ev with
  | navigateTo url mode flags =>
    refine ⟨(fun h => by cases h), ?_⟩
    simp only [BrowserTab.step, Outcome.unit_tab]
    exact navigateTo_count_cases s env url mode flags
  | navigateBack history_index =>
    exact ⟨(fun h => by cases h), navigateBack_count s env history_index⟩
  | navOneBackward => exact ⟨(fun h => by cases h), navigateBack_count s env _⟩
  | navOneForward => exact ⟨(fun h => by cases h), navigateBack_count s env _⟩
  | navigateToRoot => exact ⟨(fun h => by cases h), navigateToRoot_count s env⟩
  | navigateToParent => exact ⟨(fun h => by cases h), navigateToParent_count s env⟩
  | scrollToAnchor anchor => exact same rfl
  | reloadPage => exact ⟨(fun h => by cases h), reloadPage_count s env⟩
  | on_url_bar_returnPressed text =>
    exact ⟨(fun h => by cases h), on_url_bar_returnPressed_count s env text⟩
  | on_url_bar_escapePressed => exact same rfl
  | on_refresh_button_clicked => exact ⟨(fun h => by cases h), reloadPage_count s env⟩
  | on_root_button_clicked => exact ⟨(fun h => by cases h), navigateToRoot_count s env⟩
  | on_parent_button_clicked => exact ⟨(fun h => by cases h), navigateToParent_count s env⟩
  | on_networkError error_code reason => exact same (on_networkError_count s env error_code reason)
  | on_networkTimeout => exact same (on_networkTimeout_count s env)
  | on_certificateRequired selection reason =>
    exact ⟨(fun h => by cases h), on_certificateRequired_count s env selection reason⟩
  | on_hostCertificateLoaded cert => exact same rfl
  | on_requestCompleteText data mime_text =>
    exact same (Frame.on_requestCompleteText s env data mime_text).1
  | on_requestComplete data mime => exact same (Frame.on_requestComplete s env data mime).1
  | renderPage data mime => exact same (Frame.renderPage s env data mime).1
  | rerenderPage => exact same (rerenderPage_count s env)
  | on_inputRequired inputs query is_sensitive =>
    refine ⟨(fun h => by cases h), ?_⟩
    simp only [BrowserTab.step, Outcome.unit_tab]
    exact on_inputRequired_count s env inputs query is_sensitive
  | on_redirected uri p => exact absurd rfl (hr uri p)
  | setErrorMessage msg => exact same (setErrorMessage_trace s env msg).1
  | pushToHistory url => exact same rfl
  | on_text_browser_anchorClicked trust input url open_in_new_tab =>
    refine ⟨(fun h => by cases h), ?_⟩
    simp only [BrowserTab.step, Outcome.unit_tab]
    exact on_text_browser_anchorClicked_count s env trust input url open_in_new_tab
  | on_stop_button_clicked => exact same (on_stop_button_clicked_count s env)
  | on_home_button_clicked => exact ⟨(fun h => by cases h), on_home_button_clicked_count s env⟩
  | on_requestProgress transferred => exact same rfl
  | on_back_button_clicked => exact ⟨(fun h => by cases h), navigateBack_count s env _⟩
  | on_forward_button_clicked => exact ⟨(fun h => by cases h), navigateBack_count s env _⟩
  | updateUI => exact same rfl
  | refreshFavButton => exact same rfl
  | setUrlBarText url => exact same rfl
  | trySetClientCertificate query selection =>
    exact same (trySetClientCertificate_count s query selection)
  | resetClientCertificate => exact same (resetClientCertificate_count s)
  | addProtocolHandler handler => exact same rfl
  | startRequest url options flags =>
    refine same ?_
    simp only [BrowserTab.step, Outcome.unit_tab]
    exact (startRequest_trace s env url options flags).1
  | enableClientCertificate ident => exact same (enableClientCertificate_count s ident)
  | disableClientCertificate => exact same rfl
  | on_text_browser_customContextMenuRequested anchor has_selection choice =>
    exact ⟨(fun h => by cases h),
      on_text_browser_customContextMenuRequested_count s env anchor has_selection choice⟩
  | on_enable_client_cert_button_clicked checked selection =>
    exact same (on_enable_client_cert_button_clicked_count s checked selection)
  | widget call scroll_bar => exact same rfl
  | userAnswers answers => exact same rfl
  | scrolled value => exact same rfl

/-- The counter after one event: zero, one more (only below the limit), or
the same. -/
theorem step_count (s : BrowserTab) (env : Env) (ev : Event) :
    (s.step env ev).tab.redirection_count = 0 ∨
    ((s.step env ev).tab.redirection_count = s.redirection_count + 1 ∧
      s.redirection_count < env.options.max_redirections) ∨
    (s.step env ev).tab.redirection_count = s.redirection_count := by
  by_cases hr : ∀ uri p, ev ≠ Event.on_redirected uri p
  · rcases (step_count_plain s env ev hr).2 with h | h
    · exact Or.inl h
    · exact Or.inr (Or.inr h)
  · push_neg at hr
    obtain ⟨uri, p, rfl⟩ := hr
    simp only [BrowserTab.step, Outcome.unit_tab]
    rw [on_redirected_count]
    by_cases hf : (s.on_redirected env uri p).exit? = some RedirectExit.followed
    · rw [if_pos hf]
      exact Or.inr (Or.inl ⟨rfl, on_redirected_followed_below s env uri p hf⟩)
    · rw [if_neg hf]
      exact Or.inr (Or.inr rfl)

/-- C9: `redirection_count` is set to zero by every `navigateTo` that passes
the scheme check and the cancellation; `on_redirected` adds exactly one to it
when it follows the redirect, which it does only below the limit and after a
call of `startRequest` for the target, and leaves it alone otherwise; every
other method of the tab leaves it alone, or, when it calls `navigateTo`, leaves
it alone or sets it to zero. So, while `max_redirections` stays at a limit that
is not negative, the counter is between zero and the limit in every state that
the tab can reach by calls of its methods. -/
theorem C9_redirect_counter (limit : Int) (hlimit : 0 ≤ limit) (s : BrowserTab)
    (hreach : Reachable limit s) :
    (0 ≤ s.redirection_count ∧ s.redirection_count ≤ limit) ∧
    (∀ (t : BrowserTab) (env : Env) (url : QUrl) (mode : PushToHistory) (flags : RequestFlags),
      env.isSchemeSupported url.scheme = ProtocolSupport.Enabled →
      (∀ handler, t.current_handler = some handler → env.handlerCancelRequest handler = true) →
      (t.navigateTo env url mode flags).tab.redirection_count = 0) ∧
    (∀ (t : BrowserTab) (env : Env) (uri : QUrl) (p : Bool),
      (t.on_redirected env uri p).tab.redirection_count =
        (if (t.on_redirected env uri p).exit? = some RedirectExit.followed
          then t.redirection_count + 1 else t.redirection_count) ∧
      ((t.on_redirected env uri p).exit? = some RedirectExit.followed →
        t.redirection_count < env.options.max_redirections ∧
        startRequests ((t.on_redirected env uri p).tab.trace.drop t.trace.length)
          = [redirectTarget t.current_location uri])) ∧
    (∀ (t : BrowserTab) (env : Env) (ev : Event),
      (∀ uri p, ev ≠ Event.on_redirected uri p) →
      (ev.callsNavigateTo = false →
        (t.step env ev).tab.redirection_count = t.redirection_count) ∧
      ((t.step env ev).tab.redirection_count = 0 ∨
        (t.step env ev).tab.redirection_count = t.redirection_count)) ∧
    (∀ (t : BrowserTab) (env : Env) (url : QUrl) (options : RequestOptions)
        (flags : RequestFlags) (msg : ErrorMessage) (data : QByteArray) (mime : MimeType),
      (t.startRequest env url options flags).tab.redirection_count = t.redirection_count ∧
      (t.setErrorMessage env msg).redirection_count = t.redirection_count ∧
      (t.on_requestComplete env data mime).redirection_count = t.redirection_count) := by
  refine ⟨?_, ?_, ?_, ?_, ?_⟩
  · induction hreach with
    | init handlers => exact ⟨le_refl _, hlimit⟩
    | step s t env ev _ hmax hstep ih =>
      have hc := step_count s env ev
      rw [hstep, hmax] at hc
      simp only [Outcome.tab] at hc
      rcases hc with h | ⟨h, hlt⟩ | h
      · rw [h]
        exact ⟨le_refl _, hlimit⟩
      · rw [h]
        constructor <;> omega
      · rw [h]
        exact ih
  · intro t env url mode flags hs hc
    exact navigateTo_count t env url mode flags hs hc
  · intro t env uri p
    refine ⟨on_redirected_count t env uri p, ?_⟩
    intro hf
    have hlt := on_redirected_followed_below t env uri p hf
    refine ⟨hlt, ?_⟩
    obtain ⟨_, _, rest, ht, _, hfol⟩ := on_redirected_under_limit t env uri p hlt
    rw [ht, List.append_assoc, List.drop_left, startRequests_append,
      confirmation_startRequests, (hfol hf).1]
    rfl
  · intro t env ev hr
    exact step_count_plain t env ev hr
  · intro t env url options flags msg data mime
    exact ⟨(startRequest_trace t env url options flags).1, (setErrorMessage_trace t env msg).1,
      (Frame.on_requestComplete t env data mime).1⟩

/-- C9 at work: the sample tab after a navigation, a redirect that it follows,
an input request whose dialog is left, and a click on a link. -/
theorem C9_redirect_counter_witness :
    (0 : Int) ≤ 3 ∧ Reachable 3 sampleClicked ∧
    (0 ≤ sampleClicked.redirection_count ∧ sampleClicked.redirection_count ≤ 3) ∧
    sampleRedirected.redirection_count = 1 ∧
    sampleAsked.redirection_count = 1 ∧
    sampleClicked.redirection_count = 0 :=
  have hreach : Reachable 3 sampleClicked :=
    Reachable.step sampleAsked sampleClicked (sampleEnv 3 WarnOnHostChange)
      (Event.on_text_browser_anchorClicked sampleTrust none (geminiUrl "example.org" "/b") false)
      (Reachable.step sampleRedirected sampleAsked (sampleEnv 3 WarnOnHostChange)
        (Event.on_inputRequired [none] "name?" false)
        (Reachable.step sampleNavigated sampleRedirected (sampleEnv 3 WarnOnHostChange)
          (Event.on_redirected (geminiUrl "example.org" "/a") false)
          (Reachable.step sampleTab sampleNavigated (sampleEnv 3 WarnOnHostChange)
            (Event.navigateTo (geminiUrl "example.org" "/") PushToHistory.PushImmediate
              RequestFlags.None)
            (Reachable.init sampleHandlers) rfl rfl)
          rfl rfl)
        rfl rfl)
      rfl rfl
  ⟨by decide, hreach, (C9_redirect_counter 3 (by decide) sampleClicked hreach).1, by decide,
    by decide, by decide⟩

end Kristall
